import Mathlib

/-!
# Little Navmap: the map query cache of `src/mapgui/mapquery.cpp`

A shallow embedding of the spatial query-and-cache engine: bounding-box
utilities, the binary geometry decoder, the range caches, the keyed caches,
the hit test, the start position lookups and the airway waypoint lookups,
followed by the properties proved about them.

Conventions of the embedding:

* Angles are degrees held as exact rationals (`ℚ`); the C++ code computes
  with `double`, so rounding is not part of the model.
* `Marble::GeoDataLatLonBox` is seen through its `Degree` accessors.  Its
  setters store the value they are given; the wrap-around that Marble applies
  to angles outside `[-180, 180]` / `[-90, 90]` is outside the sources and
  theorems that depend on it carry an in-range hypothesis instead.
-/

/-! ## Part 1: definitions -/

/-- Geographic rectangle in degrees (`Marble::GeoDataLatLonBox`).  The east
edge may be numerically smaller than the west edge: the box then crosses the
anti-meridian. -/
structure GeoDataLatLonBox where
  north : ℚ
  south : ℚ
  east : ℚ
  west : ℚ
  deriving DecidableEq

namespace GeoDataLatLonBox

/-- The `setNorth(value, Degree)` setter. -/
def setNorth (b : GeoDataLatLonBox) (v : ℚ) : GeoDataLatLonBox := { b with north := v }

/-- The `setSouth(value, Degree)` setter. -/
def setSouth (b : GeoDataLatLonBox) (v : ℚ) : GeoDataLatLonBox := { b with south := v }

/-- The `setWest(value, Degree)` setter. -/
def setWest (b : GeoDataLatLonBox) (v : ℚ) : GeoDataLatLonBox := { b with west := v }

/-- The `setEast(value, Degree)` setter. -/
def setEast (b : GeoDataLatLonBox) (v : ℚ) : GeoDataLatLonBox := { b with east := v }

/-- The `setBoundaries(north, south, east, west, Degree)` setter, arguments in
Marble's order. -/
def setBoundaries (north south east west : ℚ) : GeoDataLatLonBox :=
  { north := north, south := south, east := east, west := west }

/-- A box crosses the date line when its east edge is numerically west of its
west edge. -/
def crossesDateLine (b : GeoDataLatLonBox) : Bool := decide (b.east < b.west)

/-- Longitude extent in degrees (`width(Degree)`): measured across the date
line for a crossing box, never more than the full circle. -/
def width (b : GeoDataLatLonBox) : ℚ :=
  min |if b.crossesDateLine then 360 - b.west + b.east else b.east - b.west| 360

/-- Latitude extent in degrees (`height(Degree)`). -/
def height (b : GeoDataLatLonBox) : ℚ := |b.north - b.south|

/-- All four edges are angles Marble stores unchanged. -/
def inRange (b : GeoDataLatLonBox) : Prop :=
  -180 ≤ b.west ∧ b.west ≤ 180 ∧ -180 ≤ b.east ∧ b.east ≤ 180 ∧
    -90 ≤ b.south ∧ b.south ≤ 90 ∧ -90 ≤ b.north ∧ b.north ≤ 90

instance (b : GeoDataLatLonBox) : Decidable b.inRange := by
  unfold inRange; infer_instance

/-- The region a box stands for as a viewport: a latitude band and a longitude
interval that wraps around the date line when the box crosses it. -/
def containsPoint (b : GeoDataLatLonBox) (lonx laty : ℚ) : Prop :=
  b.south ≤ laty ∧ laty ≤ b.north ∧
    (if b.crossesDateLine then b.west ≤ lonx ∨ lonx ≤ b.east
     else b.west ≤ lonx ∧ lonx ≤ b.east)

instance (b : GeoDataLatLonBox) (lonx laty : ℚ) : Decidable (b.containsPoint lonx laty) := by
  unfold containsPoint; infer_instance

end GeoDataLatLonBox

/-- The `whereRect` clause of `initQueries`:
`lonx between :leftx and :rightx and laty between :bottomy and :topy`. -/
def whereRect (leftx rightx bottomy topy lonx laty : ℚ) : Prop :=
  (leftx ≤ lonx ∧ lonx ≤ rightx) ∧ (bottomy ≤ laty ∧ laty ≤ topy)

instance (leftx rightx bottomy topy lonx laty : ℚ) :
    Decidable (whereRect leftx rightx bottomy topy lonx laty) := by
  unfold whereRect; infer_instance

/-- A point passes `whereRect` once `bindCoordinatePointInRect` has bound the
edges of `rect`: `leftx` is the west edge, `rightx` the east edge, `bottomy`
the south edge and `topy` the north edge. -/
def pointInRect (rect : GeoDataLatLonBox) (lonx laty : ℚ) : Prop :=
  whereRect rect.west rect.east rect.south rect.north lonx laty

instance (rect : GeoDataLatLonBox) (lonx laty : ℚ) : Decidable (pointInRect rect lonx laty) := by
  unfold pointInRect; infer_instance

/-- The static settings `MapQuery::queryRectInflationFactor` and
`MapQuery::queryRectInflationIncrement`, with their initial values. -/
structure QueryRectInflation where
  queryRectInflationFactor : ℚ := 3 / 10
  queryRectInflationIncrement : ℚ := 1 / 10
  deriving DecidableEq

namespace MapQuery

/-- `MapQuery::inflateRect`: inflate `rect` by `width` and `height` degrees,
limited at the poles and the date line. -/
def inflateRect (rect : GeoDataLatLonBox) (width height : ℚ) : GeoDataLatLonBox :=
  let rect := rect.setNorth (min (rect.north + height) 89)
  let rect := rect.setSouth (max (rect.south - height) (-89))
  let rect := rect.setWest (max (rect.west - width) (-179))
  let rect := rect.setEast (min (rect.east + width) 179)
  rect

/-- The rectangle `splitAtAntiMeridian` works on: `rect` inflated by
`factor * width + increment` degrees of longitude and
`factor * height + increment` degrees of latitude. -/
def inflatedRect (cfg : QueryRectInflation) (rect : GeoDataLatLonBox) : GeoDataLatLonBox :=
  inflateRect rect
    (rect.width * cfg.queryRectInflationFactor + cfg.queryRectInflationIncrement)
    (rect.height * cfg.queryRectInflationFactor + cfg.queryRectInflationIncrement)

/-- `MapQuery::splitAtAntiMeridian`: inflate the rectangle and split it at
the date line if the inflated rectangle crosses it. -/
def splitAtAntiMeridian (cfg : QueryRectInflation) (rect : GeoDataLatLonBox) :
    List GeoDataLatLonBox :=
  let newRect := inflateRect rect
    (rect.width * cfg.queryRectInflationFactor + cfg.queryRectInflationIncrement)
    (rect.height * cfg.queryRectInflationFactor + cfg.queryRectInflationIncrement)
  if newRect.crossesDateLine then
    let westOf := GeoDataLatLonBox.setBoundaries newRect.north newRect.south 180 newRect.west
    let eastOf := GeoDataLatLonBox.setBoundaries newRect.north newRect.south newRect.east (-180)
    [westOf, eastOf]
  else
    [newRect]

end MapQuery

/-! ### Binary geometry decoder -/

/-- Bytes of a `QByteArray`. -/
abbrev QByteArray := List (Fin 256)

/-- A `float` read in `SinglePrecision`, held as its 32-bit IEEE-754 word. -/
abbrev Float32 := Nat

/-- Geographic position `atools::geo::Pos(lonx, laty)`. -/
structure Pos where
  lonX : Float32
  latY : Float32
  deriving DecidableEq, Repr

/-- Ordered vertex sequence `atools::geo::LineString`. -/
abbrev LineString := List Pos

namespace QDataStream

/-- `QDataStream::ByteOrder`. -/
inductive ByteOrder where
  | BigEndian
  | LittleEndian
  deriving DecidableEq, Repr

/-- `QDataStream::Status`, as far as reading can set it. -/
inductive Status where
  | Ok
  | ReadPastEnd
  deriving DecidableEq, Repr

end QDataStream

/-- A `QDataStream` opened read-only on a byte array: the bytes not yet read,
the byte order and the status. -/
structure QDataStream where
  data : QByteArray
  byteOrder : QDataStream.ByteOrder
  status : QDataStream.Status
  deriving DecidableEq, Repr

namespace QDataStream

/-- `QDataStream in(&vertices, QIODevice::ReadOnly)`: a new stream is
big-endian until `setByteOrder` is called, which the decoder never does. -/
def readOnly (vertices : QByteArray) : QDataStream :=
  { data := vertices, byteOrder := ByteOrder.BigEndian, status := Status.Ok }

/-- Assemble a 32-bit word from four bytes in stream order. -/
def word32 (order : ByteOrder) (b0 b1 b2 b3 : Fin 256) : Nat :=
  match order with
  | ByteOrder.BigEndian => b0.val * 16777216 + b1.val * 65536 + b2.val * 256 + b3.val
  | ByteOrder.LittleEndian => b0.val + b1.val * 256 + b2.val * 65536 + b3.val * 16777216

/-- Reading a 4-byte field (`operator>>` for `quint32`, and for `float` in
single precision): with four bytes left they are consumed and assembled in the
stream's byte order; otherwise whatever is left is consumed, the value is 0
and the status becomes `ReadPastEnd`. -/
def read32 (s : QDataStream) : Nat × QDataStream :=
  match s.data with
  | b0 :: b1 :: b2 :: b3 :: rest => (word32 s.byteOrder b0 b1 b2 b3, { s with data := rest })
  | _ => (0, { s with data := [], status := Status.ReadPastEnd })

end QDataStream

namespace MapQuery

/-- The vertex loop of `getAirspaceGeometry` and `getAprons`:
`for(i = 0; i < size; i++) { in >> lonx >> laty; lines->append(lonx, laty); }`.
The loop runs `size` times; it tests neither the status nor the end of the
stream. -/
def readVertices : Nat → QDataStream → LineString → LineString
  | 0, _, lines => lines
  | size + 1, s, lines =>
    let lonx := s.read32
    let laty := lonx.2.read32
    readVertices size laty.2 (lines ++ [⟨lonx.1, laty.1⟩])

/-- The `size` the decoder reads from the head of the payload
(`quint32 size; in >> size`). -/
def decodedSize (vertices : QByteArray) : Nat :=
  (QDataStream.readOnly vertices).read32.1

/-- The geometry decoder shared by `getAirspaceGeometry` (column `geometry`)
and `getAprons` (column `vertices`): read the vertex count, then that many
longitude/latitude pairs. -/
def decodeVertices (vertices : QByteArray) : LineString :=
  let s := QDataStream.readOnly vertices
  let size := s.read32
  readVertices size.1 size.2 []

end MapQuery

/-- The four bytes of a 32-bit word, most significant first. -/
def wordBytes (v : Nat) : QByteArray :=
  [⟨v / 16777216 % 256, Nat.mod_lt _ (by decide)⟩, ⟨v / 65536 % 256, Nat.mod_lt _ (by decide)⟩,
    ⟨v / 256 % 256, Nat.mod_lt _ (by decide)⟩, ⟨v % 256, Nat.mod_lt _ (by decide)⟩]

/-- A vertex as it lies in a payload: longitude word, then latitude word. -/
def Pos.payloadBytes (p : Pos) : QByteArray := wordBytes p.lonX ++ wordBytes p.latY

/-- The 32-bit word whose four bytes lie at offset `off` of `bs`, most
significant byte first. -/
def bigEndianAt (bs : QByteArray) (off : Nat) : Nat :=
  (bs.getD off 0).val * 16777216 + (bs.getD (off + 1) 0).val * 65536 +
    (bs.getD (off + 2) 0).val * 256 + (bs.getD (off + 3) 0).val

/-! ### Storage collaborator -/

/-- The prepared statements (`SqlQuery *` members) the range fetches and the
per-airport fetches use. -/
inductive SqlQuery where
  | airportByRectQuery
  | airportMediumByRectQuery
  | airportLargeByRectQuery
  | waypointsByRectQuery
  | vorsByRectQuery
  | ndbsByRectQuery
  | markersByRectQuery
  | ilsByRectQuery
  | airwayByRectQuery
  | airspaceByRectQuery
  | airspaceByRectBelowAltQuery
  | airspaceByRectAboveAltQuery
  | airspaceByRectAtAltQuery
  | airspaceLinesByIdQuery
  | runwayOverviewQuery
  | apronQuery
  | parkingQuery
  | startQuery
  | helipadQuery
  | taxiparthQuery
  | runwaysQuery
  | waypointByIdQuery
  | airwayWaypointByIdentQuery
  | airwayWaypointsQuery
  /-- The statement `query` local to `getBestStartPositionForAirport`. -/
  | bestStartPositionQuery
  /-- The statement `query` local to `getStartByNameAndPos`. -/
  | startByNameAndPosQuery
  deriving DecidableEq, Repr

/-- A value bound to a placeholder: a `double`, an `int` or a `QString`. -/
inductive SqlValue where
  | real (v : ℚ)
  | int (v : Int)
  | text (v : String)
  deriving DecidableEq

/-- A call made on a prepared statement. -/
inductive SqlCall where
  | bindValue (query : SqlQuery) (placeholder : String) (value : SqlValue)
  | exec (query : SqlQuery)
  | next (query : SqlQuery)
  | record (query : SqlQuery)
  | value (query : SqlQuery) (column : String)
  | isNull (query : SqlQuery) (column : String)
  | finish (query : SqlQuery)
  deriving DecidableEq

namespace SqlQuery

/-- The placeholders of the statement text prepared in `initQueries`. -/
def placeholders : SqlQuery → List String
  | airportByRectQuery => [":leftx", ":rightx", ":bottomy", ":topy", ":minlength"]
  | airspaceByRectQuery => [":leftx", ":rightx", ":bottomy", ":topy", ":type"]
  | airspaceByRectBelowAltQuery => [":leftx", ":rightx", ":bottomy", ":topy", ":type", ":alt"]
  | airspaceByRectAboveAltQuery => [":leftx", ":rightx", ":bottomy", ":topy", ":type", ":alt"]
  | airspaceByRectAtAltQuery => [":leftx", ":rightx", ":bottomy", ":topy", ":type", ":alt"]
  | airspaceLinesByIdQuery => [":id"]
  | runwayOverviewQuery => [":airportId"]
  | apronQuery => [":airportId"]
  | parkingQuery => [":airportId"]
  | startQuery => [":airportId"]
  | helipadQuery => [":airportId"]
  | taxiparthQuery => [":airportId"]
  | runwaysQuery => [":airportId"]
  | waypointByIdQuery => [":id"]
  | airwayWaypointByIdentQuery => [":waypoint", ":airway"]
  | airwayWaypointsQuery => [":name"]
  | bestStartPositionQuery => [":airportId"]
  | startByNameAndPosQuery => [":airportId", ":number", ":runwayName"]
  | _ => [":leftx", ":rightx", ":bottomy", ":topy"]

end SqlQuery

/-- The value `placeholder` of `query` holds after the calls `sql`: that of the
latest `bindValue` on it, if there was one.  A prepared statement keeps its
bindings from one execution to the next. -/
def boundValue (sql : List SqlCall) (query : SqlQuery) (placeholder : String) :
    Option SqlValue :=
  sql.foldl (fun cur c =>
    match c with
    | SqlCall.bindValue q p v => if q = query ∧ p = placeholder then some v else cur
    | _ => cur) none

/-- The values of all placeholders of `query` after the calls `sql`. -/
def boundValues (sql : List SqlCall) (query : SqlQuery) : List (Option SqlValue) :=
  query.placeholders.map (boundValue sql query)

/-- The database behind the prepared statements: the rows an execution of a
statement yields, in order, for the values its placeholders hold. -/
structure SqlDatabase (SqlRecord : Type) where
  select : SqlQuery → List (Option SqlValue) → List SqlRecord

/-- Number of `exec` calls in a sequence of calls. -/
def execCount (sql : List SqlCall) : Nat :=
  sql.countP fun c => match c with
    | SqlCall.exec _ => true
    | _ => false

/-! ### Keyed cache -/

/-- An entry of a `QCache<int, T>`: key, object and cost. -/
structure QCache.Node (V : Type) where
  key : Int
  t : V
  c : Int

/-- The Qt container `QCache<int, T>`: the maximum total cost `mx` and the
entries from the most recently used (first) to the least recently used (last).
A newly constructed cache has the maximum cost 100. -/
structure QCache (V : Type) where
  mx : Int := 100
  nodes : List (QCache.Node V) := []

namespace QCache

/-- The sum of the costs of all entries (`totalCost`). -/
def total {V : Type} (c : QCache V) : Int := (c.nodes.map fun n => n.c).sum

/-- `contains(key)`. -/
def contains {V : Type} (c : QCache V) (key : Int) : Bool := c.nodes.any fun n => n.key == key

/-- The object stored under `key`, without touching the order of use. -/
def peek {V : Type} (c : QCache V) (key : Int) : Option V :=
  (c.nodes.find? fun n => n.key == key).map fun n => n.t

/-- `object(key)`: the object stored under `key` (null if there is none); the
entry becomes the most recently used. -/
def object {V : Type} (c : QCache V) (key : Int) : Option V × QCache V :=
  match c.nodes.find? fun n => n.key == key with
  | none => (none, c)
  | some n => (some n.t, { c with nodes := n :: c.nodes.eraseP fun m => m.key == key })

/-- `remove(key)`. -/
def remove {V : Type} (c : QCache V) (key : Int) : QCache V :=
  { c with nodes := c.nodes.filter fun n => n.key != key }

/-- The loop of `trim(m)` over the entries from the least recently used on:
entries are dropped while the total cost exceeds `m`. -/
def trimFromLast {V : Type} (m : Int) : List (QCache.Node V) → Int → List (QCache.Node V)
  | [], _ => []
  | n :: rest, total => if total > m then trimFromLast m rest (total - n.c) else n :: rest

/-- `trim(m)`: drop least recently used entries until the total cost is at
most `m`. -/
def trim {V : Type} (c : QCache V) (m : Int) : QCache V :=
  { c with nodes := (trimFromLast m c.nodes.reverse c.total).reverse }

/-- `insert(key, object, cost)`: an entry with the same key is removed first.
If the cost exceeds the maximum cost the object is deleted at once and nothing
is inserted.  Otherwise least recently used entries are dropped until the new
entry fits, and the new entry becomes the most recently used. -/
def insert {V : Type} (c : QCache V) (key : Int) (obj : V) (cost : Int) : QCache V :=
  let c := c.remove key
  if cost > c.mx then c
  else
    let c := c.trim (c.mx - cost)
    { c with nodes := ⟨key, obj, cost⟩ :: c.nodes }

/-- `setMaxCost(m)`. -/
def setMaxCost {V : Type} (c : QCache V) (m : Int) : QCache V :=
  ({ c with mx := m } : QCache V).trim m

/-- `keys()`.  Qt leaves the order of the keys open; the model lists them from
the most recently used on. -/
def keys {V : Type} (c : QCache V) : List Int := c.nodes.map fun n => n.key

end QCache

/-! ### Collaborators of the range caches -/

/-- The types `mapquery.cpp` takes from other files: the row type of the
storage, the map layer and the map entities. -/
structure MapTypes where
  SqlRecord : Type
  MapLayer : Type
  MapAirport : Type
  MapWaypoint : Type
  MapVor : Type
  MapNdb : Type
  MapMarker : Type
  MapIls : Type
  MapAirway : Type
  MapAirspace : Type
  MapRunway : Type
  MapParking : Type
  MapStart : Type

namespace layer

/-- The airport data sources `getAirports` switches over. -/
inductive DataSource where
  | ALL
  | MEDIUM
  | LARGE
  deriving DecidableEq, Repr

end layer

/-- The constants of `map::MapAirspaceTypes` (bit masks) and
`map::MAP_AIRSPACE_TYPE_BITS`, declared outside the sources. -/
structure AirspaceFlags where
  AIRSPACE_NONE : Nat
  AIRSPACE_ALL : Nat
  AIRSPACE_AT_FLIGHTPLAN : Nat
  AIRSPACE_BELOW_10000 : Nat
  AIRSPACE_BELOW_18000 : Nat
  AIRSPACE_ABOVE_10000 : Nat
  AIRSPACE_ABOVE_18000 : Nat
  MAP_AIRSPACE_TYPE_BITS : Nat

/-- The constants of `map::MapObjectTypes` (bit masks) that `getNearestObjects`
tests, declared outside the sources. -/
structure MapObjectFlags where
  AIRPORT : Nat
  VOR : Nat
  NDB : Nat
  WAYPOINT : Nat
  AIRWAYV : Nat
  AIRWAYJ : Nat
  MARKER : Nat
  ILS : Nat

/-- Everything the fetches and the hit test call that lies outside
`mapquery.cpp`. -/
structure Collaborators (T : MapTypes) where
  /-- The static inflation settings. -/
  inflation : QueryRectInflation
  /-- The database. -/
  db : SqlDatabase T.SqlRecord
  /-- `GeoDataLatLonBox::contains(box)`. -/
  contains : GeoDataLatLonBox → GeoDataLatLonBox → Bool
  /-- `MapLayer::hasSameQueryParametersAirport` and its siblings. -/
  hasSameQueryParametersAirport : T.MapLayer → T.MapLayer → Bool
  hasSameQueryParametersWaypoint : T.MapLayer → T.MapLayer → Bool
  hasSameQueryParametersVor : T.MapLayer → T.MapLayer → Bool
  hasSameQueryParametersNdb : T.MapLayer → T.MapLayer → Bool
  hasSameQueryParametersMarker : T.MapLayer → T.MapLayer → Bool
  hasSameQueryParametersIls : T.MapLayer → T.MapLayer → Bool
  hasSameQueryParametersAirway : T.MapLayer → T.MapLayer → Bool
  hasSameQueryParametersAirspace : T.MapLayer → T.MapLayer → Bool
  /-- `MapLayer::getDataSource` and `MapLayer::getMinRunwayLength`. -/
  getDataSource : T.MapLayer → layer.DataSource
  getMinRunwayLength : T.MapLayer → Int
  /-- The `fill` functions of `MapTypesFactory`. -/
  fillAirport : T.SqlRecord → T.MapAirport
  fillAirportForOverview : T.SqlRecord → T.MapAirport
  fillWaypoint : T.SqlRecord → T.MapWaypoint
  fillVor : T.SqlRecord → T.MapVor
  fillNdb : T.SqlRecord → T.MapNdb
  fillMarker : T.SqlRecord → T.MapMarker
  fillIls : T.SqlRecord → T.MapIls
  fillAirway : T.SqlRecord → T.MapAirway
  fillAirspace : T.SqlRecord → T.MapAirspace
  /-- The airspace type constants, `map::airspaceTypeToDatabase` and
  `map::airspaceDrawingOrder` applied to the type of an airspace. -/
  flags : AirspaceFlags
  airspaceTypeToDatabase : Nat → String
  airspaceDrawingOrder : T.MapAirspace → Int
  /-- `atools::almostNotEqual` and `atools::roundToInt`. -/
  almostNotEqual : ℚ → ℚ → Bool
  roundToInt : ℚ → Int
  /-- The column reads on the current row: `value(column)` converted with
  `toString`, `toInt`, `toFloat` or `toByteArray`, and `isNull(column)`. -/
  valueString : T.SqlRecord → String → String
  valueInt : T.SqlRecord → String → Int
  valueFloat : T.SqlRecord → String → Float32
  valueByteArray : T.SqlRecord → String → QByteArray
  isNull : T.SqlRecord → String → Bool
  /-- The conversion `static_cast<int>(std::roundf(x))`. -/
  roundf : Float32 → Int
  /-- More `fill` functions of `MapTypesFactory`; `fillRunway` takes the
  `overview` flag. -/
  fillRunway : T.SqlRecord → Bool → T.MapRunway
  fillParking : T.SqlRecord → T.MapParking
  fillStart : T.SqlRecord → T.MapStart
  /-- The members `surface` and `length` of a runway and `map::surfaceQuality`. -/
  runwaySurface : T.MapRunway → String
  runwayLength : T.MapRunway → Int
  surfaceQuality : String → Int
  /-- The visibility tests `MapLayer::isAirport` and its siblings. -/
  isAirport : T.MapLayer → Bool
  isVor : T.MapLayer → Bool
  isNdb : T.MapLayer → Bool
  isWaypoint : T.MapLayer → Bool
  isAirwayWaypoint : T.MapLayer → Bool
  isMarker : T.MapLayer → Bool
  isIls : T.MapLayer → Bool
  /-- The object type constants. -/
  objectFlags : MapObjectFlags
  /-- The members of the map entities the hit test reads: positions, the tower
  coordinates of an airport, `MapAirport::isVisible(types)` and the airway
  flags of a waypoint. -/
  airportPosition : T.MapAirport → Pos
  airportTowerCoords : T.MapAirport → Pos
  airportIsVisible : T.MapAirport → Nat → Bool
  vorPosition : T.MapVor → Pos
  ndbPosition : T.MapNdb → Pos
  waypointPosition : T.MapWaypoint → Pos
  waypointHasVictorAirways : T.MapWaypoint → Bool
  waypointHasJetAirways : T.MapWaypoint → Bool
  markerPosition : T.MapMarker → Pos
  ilsPosition : T.MapIls → Pos
  parkingPosition : T.MapParking → Pos
  /-- `map::isHardSurface`. -/
  isHardSurface : String → Bool
  /-- The default start `map::MapStart()` and the member `position` of a
  start. -/
  defaultStart : T.MapStart
  startPosition : T.MapStart → Pos
  /-- `atools::geo::Pos::distanceMeterTo` and `map::INVALID_DISTANCE_VALUE`. -/
  distanceMeterTo : Pos → Pos → ℚ
  INVALID_DISTANCE_VALUE : ℚ
  /-- `QString::toInt` and `map::runwayNameSplit`, which yields the name and
  the designator when the string is a runway name. -/
  toInt : String → Int
  runwayNameSplit : String → Option (String × String)
  /-- The default waypoint `map::MapWaypoint()` and `MapWaypoint::isValid`. -/
  defaultWaypoint : T.MapWaypoint
  waypointIsValid : T.MapWaypoint → Bool

/-! ### Range cache -/

/-- The range cache `SimpleRectCache<TYPE>`: the rectangle and map layer it was
last filled for, and the list of entities. -/
structure SimpleRectCache (L α : Type) where
  curRect : Option GeoDataLatLonBox := none
  curMapLayer : Option L := none
  list : List α := []

namespace SimpleRectCache

/-- Modelled from the spec: the validity test of `SimpleRectCache::updateCache`,
which is declared in `mapgui/mapquery.h` and not part of the sources.  The
cache is valid for a request when the stored (inflated) rectangle covers the
requested one and the equivalence predicate of the entity kind holds between
the stored and the requested map layer; a cache that was never filled is not
valid. -/
def isValid {L α : Type} (c : SimpleRectCache L α)
    (contains : GeoDataLatLonBox → GeoDataLatLonBox → Bool)
    (rect : GeoDataLatLonBox) (mapLayer : L) (funcSameLayer : L → L → Bool) : Bool :=
  match c.curRect, c.curMapLayer with
  | some cur, some curLayer => contains cur rect && funcSameLayer curLayer mapLayer
  | _, _ => false

/-- Modelled from the spec: `SimpleRectCache::updateCache`, declared in
`mapgui/mapquery.h` and not part of the sources.  A lazy call changes nothing.
A call that finds the cache valid changes nothing.  Any other call clears the
list and stores the new (inflated) rectangle and the new map layer. -/
def updateCache {L α : Type} (c : SimpleRectCache L α)
    (contains : GeoDataLatLonBox → GeoDataLatLonBox → Bool) (cfg : QueryRectInflation)
    (rect : GeoDataLatLonBox) (mapLayer : L) (lazy : Bool) (funcSameLayer : L → L → Bool) :
    SimpleRectCache L α :=
  if lazy then c
  else if c.isValid contains rect mapLayer funcSameLayer then c
  else { curRect := some (MapQuery.inflatedRect cfg rect), curMapLayer := some mapLayer, list := [] }

/-- Modelled from the spec: `SimpleRectCache::validate`, declared in
`mapgui/mapquery.h` and not part of the sources.  The spec gives the range
cache no step after the fetch that changes the stored rectangle, map layer or
list, so the call leaves the cache as it is. -/
def validate {L α : Type} (c : SimpleRectCache L α) : SimpleRectCache L α := c

end SimpleRectCache

/-- An apron `map::MapApron`, as `getAprons` fills it. -/
structure MapApron where
  surface : String
  drawSurface : Bool
  vertices : LineString
  deriving DecidableEq

/-- A helipad `map::MapHelipad`, as `getHelipads` fills it. -/
structure MapHelipad where
  position : Pos
  start : Int
  width : Int
  length : Int
  heading : Int
  surface : String
  type : String
  transparent : Bool
  closed : Bool
  deriving DecidableEq

/-- A taxi path `map::MapTaxiPath`, as `getTaxiPaths` fills it; `endPos` is
the member `end`. -/
structure MapTaxiPath where
  closed : Bool
  drawSurface : Bool
  start : Pos
  endPos : Pos
  surface : String
  name : String
  width : Int
  deriving DecidableEq

/-- The state of a `MapQuery` object the fetches work on: the eight range
caches, the airspace filter remembered from the last call, the calls made so
far on the prepared statements, and the keyed caches with the maximum costs
the constructor sets by default. -/
structure MapQuery (T : MapTypes) where
  airportCache : SimpleRectCache T.MapLayer T.MapAirport := {}
  waypointCache : SimpleRectCache T.MapLayer T.MapWaypoint := {}
  vorCache : SimpleRectCache T.MapLayer T.MapVor := {}
  ndbCache : SimpleRectCache T.MapLayer T.MapNdb := {}
  markerCache : SimpleRectCache T.MapLayer T.MapMarker := {}
  ilsCache : SimpleRectCache T.MapLayer T.MapIls := {}
  airwayCache : SimpleRectCache T.MapLayer T.MapAirway := {}
  airspaceCache : SimpleRectCache T.MapLayer T.MapAirspace := {}
  lastAirspaceTypes : Nat := 0
  lastFlightplanAltitude : ℚ := 0
  sql : List SqlCall := []
  runwayCache : QCache (List T.MapRunway) := { mx := 2000 }
  runwayOverwiewCache : QCache (List T.MapRunway) := { mx := 1000 }
  apronCache : QCache (List MapApron) := { mx := 1000 }
  taxipathCache : QCache (List MapTaxiPath) := { mx := 1000 }
  parkingCache : QCache (List T.MapParking) := { mx := 1000 }
  startCache : QCache (List T.MapStart) := { mx := 1000 }
  helipadCache : QCache (List MapHelipad) := { mx := 1000 }
  airspaceLineCache : QCache LineString := { mx := 10000 }

namespace MapQuery

/-- `MapQuery::bindCoordinatePointInRect` with the empty default prefix: the
four `bindValue` calls for the edges of `rect`. -/
def bindCoordinatePointInRect (rect : GeoDataLatLonBox) (query : SqlQuery) : List SqlCall :=
  [SqlCall.bindValue query ":leftx" (SqlValue.real rect.west),
    SqlCall.bindValue query ":rightx" (SqlValue.real rect.east),
    SqlCall.bindValue query ":bottomy" (SqlValue.real rect.south),
    SqlCall.bindValue query ":topy" (SqlValue.real rect.north)]

/-- The row loop `while(query->next()) { fill(query->record(), x); add x }`
over the rows of the last execution: one `next` and one `record` per row, and
the `next` that returns false.  `add` puts the row's entity into the list. -/
def whileNext {R α : Type} (query : SqlQuery) (add : List α → R → List α) (rows : List R)
    (st : List SqlCall × List α) : List SqlCall × List α :=
  let st := rows.foldl
    (fun st row => (st.1 ++ [SqlCall.next query, SqlCall.record query], add st.2 row)) st
  (st.1 ++ [SqlCall.next query], st.2)

/-- One round of the loop over the rectangles of `splitAtAntiMeridian`: bind
the edges of `r`, execute, and append the entity of every row. -/
def queryRect {R α : Type} (db : SqlDatabase R) (query : SqlQuery) (fill : R → α)
    (st : List SqlCall × List α) (r : GeoDataLatLonBox) : List SqlCall × List α :=
  let sql := st.1 ++ bindCoordinatePointInRect r query ++ [SqlCall.exec query]
  whileNext query (fun list row => list ++ [fill row]) (db.select query (boundValues sql query))
    (sql, st.2)

/-- The body shared by `getWaypoints`, `getVors`, `getNdbs`, `getMarkers`,
`getIls` and `getAirways`: `updateCache`, then the refetch
`if(cache.list.isEmpty() && !lazy)` over the rectangles of
`splitAtAntiMeridian`, then `validate`.  Yields the cache and the calls made
on prepared statements. -/
def fetchByRect {T : MapTypes} {α : Type} (env : Collaborators T)
    (cache : SimpleRectCache T.MapLayer α) (sql : List SqlCall)
    (rect : GeoDataLatLonBox) (mapLayer : T.MapLayer) (lazy : Bool)
    (funcSameLayer : T.MapLayer → T.MapLayer → Bool) (query : SqlQuery)
    (fill : T.SqlRecord → α) : SimpleRectCache T.MapLayer α × List SqlCall :=
  let cache := cache.updateCache env.contains env.inflation rect mapLayer lazy funcSameLayer
  let st :=
    if cache.list.isEmpty && !lazy then
      (splitAtAntiMeridian env.inflation rect).foldl (queryRect env.db query fill)
        (sql, cache.list)
    else (sql, cache.list)
  (({ cache with list := st.2 } : SimpleRectCache T.MapLayer α).validate, st.1)

/-- `MapQuery::getWaypoints`. -/
def getWaypoints {T : MapTypes} (env : Collaborators T) (s : MapQuery T)
    (rect : GeoDataLatLonBox) (mapLayer : T.MapLayer) (lazy : Bool) :
    List T.MapWaypoint × MapQuery T :=
  let r := fetchByRect env s.waypointCache s.sql rect mapLayer lazy
    env.hasSameQueryParametersWaypoint SqlQuery.waypointsByRectQuery env.fillWaypoint
  (r.1.list, { s with waypointCache := r.1, sql := r.2 })

/-- `MapQuery::getVors`. -/
def getVors {T : MapTypes} (env : Collaborators T) (s : MapQuery T)
    (rect : GeoDataLatLonBox) (mapLayer : T.MapLayer) (lazy : Bool) :
    List T.MapVor × MapQuery T :=
  let r := fetchByRect env s.vorCache s.sql rect mapLayer lazy
    env.hasSameQueryParametersVor SqlQuery.vorsByRectQuery env.fillVor
  (r.1.list, { s with vorCache := r.1, sql := r.2 })

/-- `MapQuery::getNdbs`. -/
def getNdbs {T : MapTypes} (env : Collaborators T) (s : MapQuery T)
    (rect : GeoDataLatLonBox) (mapLayer : T.MapLayer) (lazy : Bool) :
    List T.MapNdb × MapQuery T :=
  let r := fetchByRect env s.ndbCache s.sql rect mapLayer lazy
    env.hasSameQueryParametersNdb SqlQuery.ndbsByRectQuery env.fillNdb
  (r.1.list, { s with ndbCache := r.1, sql := r.2 })

/-- `MapQuery::getMarkers`. -/
def getMarkers {T : MapTypes} (env : Collaborators T) (s : MapQuery T)
    (rect : GeoDataLatLonBox) (mapLayer : T.MapLayer) (lazy : Bool) :
    List T.MapMarker × MapQuery T :=
  let r := fetchByRect env s.markerCache s.sql rect mapLayer lazy
    env.hasSameQueryParametersMarker SqlQuery.markersByRectQuery env.fillMarker
  (r.1.list, { s with markerCache := r.1, sql := r.2 })

/-- `MapQuery::getIls`. -/
def getIls {T : MapTypes} (env : Collaborators T) (s : MapQuery T)
    (rect : GeoDataLatLonBox) (mapLayer : T.MapLayer) (lazy : Bool) :
    List T.MapIls × MapQuery T :=
  let r := fetchByRect env s.ilsCache s.sql rect mapLayer lazy
    env.hasSameQueryParametersIls SqlQuery.ilsByRectQuery env.fillIls
  (r.1.list, { s with ilsCache := r.1, sql := r.2 })

/-- `MapQuery::getAirways`. -/
def getAirways {T : MapTypes} (env : Collaborators T) (s : MapQuery T)
    (rect : GeoDataLatLonBox) (mapLayer : T.MapLayer) (lazy : Bool) :
    List T.MapAirway × MapQuery T :=
  let r := fetchByRect env s.airwayCache s.sql rect mapLayer lazy
    env.hasSameQueryParametersAirway SqlQuery.airwayByRectQuery env.fillAirway
  (r.1.list, { s with airwayCache := r.1, sql := r.2 })

end MapQuery

namespace MapQuery

/-- `MapQuery::fetchAirports`: refetch `if(airportCache.list.isEmpty() && !lazy)`
with `query`, filling complete or overview airports and prepending
(`reverse`) or appending them, then `validate`. -/
def fetchAirports {T : MapTypes} (env : Collaborators T) (s : MapQuery T)
    (rect : GeoDataLatLonBox) (query : SqlQuery) (reverse lazy overview : Bool) :
    List T.MapAirport × MapQuery T :=
  let st :=
    if s.airportCache.list.isEmpty && !lazy then
      (splitAtAntiMeridian env.inflation rect).foldl
        (fun st r =>
          let sql := st.1 ++ bindCoordinatePointInRect r query ++ [SqlCall.exec query]
          whileNext query
            (fun list row =>
              let ap := if overview then env.fillAirportForOverview row else env.fillAirport row
              if reverse then ap :: list else list ++ [ap])
            (env.db.select query (boundValues sql query)) (sql, st.2))
        (s.sql, s.airportCache.list)
    else (s.sql, s.airportCache.list)
  let cache := ({ s.airportCache with list := st.2 } :
    SimpleRectCache T.MapLayer T.MapAirport).validate
  (cache.list, { s with airportCache := cache, sql := st.1 })

/-- `MapQuery::getAirports`: `updateCache`, then the fetch for the data source
of the map layer.  For `layer::ALL` the minimum runway length is bound before
`fetchAirports` is entered. -/
def getAirports {T : MapTypes} (env : Collaborators T) (s : MapQuery T)
    (rect : GeoDataLatLonBox) (mapLayer : T.MapLayer) (lazy : Bool) :
    List T.MapAirport × MapQuery T :=
  let cache := s.airportCache.updateCache env.contains env.inflation rect mapLayer lazy
    env.hasSameQueryParametersAirport
  let s := { s with airportCache := cache }
  match env.getDataSource mapLayer with
  | layer.DataSource.ALL =>
    let minlength := SqlValue.int (env.getMinRunwayLength mapLayer)
    let s := { s with
      sql := s.sql ++ [SqlCall.bindValue SqlQuery.airportByRectQuery ":minlength" minlength] }
    fetchAirports env s rect SqlQuery.airportByRectQuery true lazy false
  | layer.DataSource.MEDIUM =>
    fetchAirports env s rect SqlQuery.airportMediumByRectQuery false lazy true
  | layer.DataSource.LARGE =>
    fetchAirports env s rect SqlQuery.airportLargeByRectQuery false lazy true

/-- The type strings `getAirspaces` queries for a type mask: the wildcard for
`AIRSPACE_ALL`, else the database name of every set bit `1 << i`,
`0 <= i <= MAP_AIRSPACE_TYPE_BITS`. -/
def airspaceTypeStrings {T : MapTypes} (env : Collaborators T) (types : Nat) : List String :=
  if types = env.flags.AIRSPACE_ALL then ["%"]
  else
    (List.range (env.flags.MAP_AIRSPACE_TYPE_BITS + 1)).filterMap fun i =>
      if types &&& (1 <<< i) ≠ 0 then some (env.airspaceTypeToDatabase (1 <<< i)) else none

/-- The statement and the altitude `getAirspaces` selects from the altitude
flags of the type mask. -/
def airspaceQueryAndAlt {T : MapTypes} (env : Collaborators T) (types : Nat)
    (flightPlanAltitude : ℚ) : SqlQuery × Int :=
  if types &&& env.flags.AIRSPACE_AT_FLIGHTPLAN ≠ 0 then
    (SqlQuery.airspaceByRectAtAltQuery, env.roundToInt flightPlanAltitude)
  else if types &&& env.flags.AIRSPACE_BELOW_10000 ≠ 0 then
    (SqlQuery.airspaceByRectBelowAltQuery, 10000)
  else if types &&& env.flags.AIRSPACE_BELOW_18000 ≠ 0 then
    (SqlQuery.airspaceByRectBelowAltQuery, 18000)
  else if types &&& env.flags.AIRSPACE_ABOVE_10000 ≠ 0 then
    (SqlQuery.airspaceByRectAboveAltQuery, 10000)
  else if types &&& env.flags.AIRSPACE_ABOVE_18000 ≠ 0 then
    (SqlQuery.airspaceByRectAboveAltQuery, 18000)
  else (SqlQuery.airspaceByRectQuery, 0)

/-- `MapQuery::getAirspaces`.  The list is cleared when the type mask or the
flight plan altitude differs from the remembered one, whatever `lazy` is.  The
refetch queries every rectangle of `splitAtAntiMeridian` once per type string
and sorts the list by drawing order (`std::sort`; the model keeps the order of
airspaces of equal drawing order). -/
def getAirspaces {T : MapTypes} (env : Collaborators T) (s : MapQuery T)
    (rect : GeoDataLatLonBox) (mapLayer : T.MapLayer) (types : Nat) (flightPlanAltitude : ℚ)
    (lazy : Bool) : List T.MapAirspace × MapQuery T :=
  let cache := s.airspaceCache.updateCache env.contains env.inflation rect mapLayer lazy
    env.hasSameQueryParametersAirspace
  let changed : Bool :=
    types != s.lastAirspaceTypes || env.almostNotEqual s.lastFlightplanAltitude flightPlanAltitude
  let cache : SimpleRectCache T.MapLayer T.MapAirspace :=
    if changed then { cache with list := [] } else cache
  let lastAirspaceTypes := if changed then types else s.lastAirspaceTypes
  let lastFlightplanAltitude := if changed then flightPlanAltitude else s.lastFlightplanAltitude
  let st :=
    if cache.list.isEmpty && !lazy then
      if types ≠ env.flags.AIRSPACE_NONE then
        let typeStrings := airspaceTypeStrings env types
        let qa := airspaceQueryAndAlt env types flightPlanAltitude
        let st := (splitAtAntiMeridian env.inflation rect).foldl
          (fun st r =>
            typeStrings.foldl
              (fun st typeStr =>
                let sql := st.1 ++ bindCoordinatePointInRect r qa.1 ++
                  [SqlCall.bindValue qa.1 ":type" (SqlValue.text typeStr)] ++
                  (if qa.2 > 0 then [SqlCall.bindValue qa.1 ":alt" (SqlValue.int qa.2)] else []) ++
                  [SqlCall.exec qa.1]
                whileNext qa.1 (fun list row => list ++ [env.fillAirspace row])
                  (env.db.select qa.1 (boundValues sql qa.1)) (sql, st.2))
              st)
          (s.sql, cache.list)
        (st.1, st.2.insertionSort
          (fun a b => env.airspaceDrawingOrder a ≤ env.airspaceDrawingOrder b))
      else (s.sql, cache.list)
    else (s.sql, cache.list)
  let cache := ({ cache with list := st.2 } : SimpleRectCache T.MapLayer T.MapAirspace).validate
  (cache.list,
    { s with airspaceCache := cache, lastAirspaceTypes := lastAirspaceTypes,
             lastFlightplanAltitude := lastFlightplanAltitude, sql := st.1 })

end MapQuery

/-! ### Per-airport fetches through the keyed caches -/

namespace MapQuery

/-- The row loop `while(query->next()) { ...; list->append(x); }` of the
per-airport fetches: per row one `next` and the reads `reads row`, at the end
the `next` that returns false. -/
def whileNextReading {R α : Type} (query : SqlQuery) (reads : R → List SqlCall) (fill : R → α)
    (rows : List R) (st : List SqlCall × List α) : List SqlCall × List α :=
  let st := rows.foldl
    (fun st row => (st.1 ++ SqlCall.next query :: reads row, st.2 ++ [fill row])) st
  (st.1 ++ [SqlCall.next query], st.2)

/-- The body shared by `getRunways`, `getRunwaysForOverview`, `getAprons`,
`getParkingsForAirport`, `getStartPositionsForAirport`, `getHelipads` and
`getTaxiPaths`: a cached list is returned through `object`; otherwise the
statement is bound to the airport id and executed, the rows are filled into a
new list, `finish` is applied (the sort of `getRunways`), and the list is
inserted with the default cost 1 and returned.  The first component is the
pointer returned (`none` for null). -/
def fetchByAirportId {R α : Type} (db : SqlDatabase R) (cache : QCache (List α))
    (sql : List SqlCall) (query : SqlQuery) (airportId : Int) (reads : R → List SqlCall)
    (fill : R → α) (finish : List α → List α) :
    Option (List α) × QCache (List α) × List SqlCall :=
  if cache.contains airportId then
    let r := cache.object airportId
    (r.1, r.2, sql)
  else
    let sql := sql ++
      [SqlCall.bindValue query ":airportId" (SqlValue.int airportId), SqlCall.exec query]
    let st := whileNextReading query reads fill (db.select query (boundValues sql query)) (sql, [])
    let list := finish st.2
    (some list, cache.insert airportId list 1, st.1)

/-- `MapQuery::runwayCompare`: whether `r1` goes before `r2`, by surface
quality and, for equal quality, by length. -/
def runwayCompare {T : MapTypes} (env : Collaborators T) (r1 r2 : T.MapRunway) : Bool :=
  let s1 := env.surfaceQuality (env.runwaySurface r1)
  let s2 := env.surfaceQuality (env.runwaySurface r2)
  if s1 = s2 then decide (env.runwayLength r1 < env.runwayLength r2) else decide (s1 < s2)

/-- `MapQuery::getRunways`.  `std::sort` with `runwayCompare` is modelled by
an insertion sort that puts `a` before `b` unless `b` goes before `a`. -/
def getRunways {T : MapTypes} (env : Collaborators T) (s : MapQuery T) (airportId : Int) :
    Option (List T.MapRunway) × MapQuery T :=
  let r := fetchByAirportId env.db s.runwayCache s.sql SqlQuery.runwaysQuery airportId
    (fun _ => [SqlCall.record SqlQuery.runwaysQuery]) (fun row => env.fillRunway row false)
    (fun rs => rs.insertionSort fun a b => runwayCompare env b a = false)
  (r.1, { s with runwayCache := r.2.1, sql := r.2.2 })

/-- `MapQuery::getRunwaysForOverview`. -/
def getRunwaysForOverview {T : MapTypes} (env : Collaborators T) (s : MapQuery T)
    (airportId : Int) : Option (List T.MapRunway) × MapQuery T :=
  let r := fetchByAirportId env.db s.runwayOverwiewCache s.sql SqlQuery.runwayOverviewQuery
    airportId (fun _ => [SqlCall.record SqlQuery.runwayOverviewQuery])
    (fun row => env.fillRunway row true) (fun rws => rws)
  (r.1, { s with runwayOverwiewCache := r.2.1, sql := r.2.2 })

/-- `MapQuery::getAprons`: surface and draw flag are read from the row, the
column `vertices` is decoded into the vertex list. -/
def getAprons {T : MapTypes} (env : Collaborators T) (s : MapQuery T) (airportId : Int) :
    Option (List MapApron) × MapQuery T :=
  let r := fetchByAirportId env.db s.apronCache s.sql SqlQuery.apronQuery airportId
    (fun _ => [SqlCall.value SqlQuery.apronQuery "surface",
      SqlCall.value SqlQuery.apronQuery "is_draw_surface",
      SqlCall.value SqlQuery.apronQuery "vertices"])
    (fun row =>
      { surface := env.valueString row "surface"
        drawSurface := decide (env.valueInt row "is_draw_surface" > 0)
        vertices := decodeVertices (env.valueByteArray row "vertices") })
    (fun aprons => aprons)
  (r.1, { s with apronCache := r.2.1, sql := r.2.2 })

/-- `MapQuery::getParkingsForAirport`. -/
def getParkingsForAirport {T : MapTypes} (env : Collaborators T) (s : MapQuery T)
    (airportId : Int) : Option (List T.MapParking) × MapQuery T :=
  let r := fetchByAirportId env.db s.parkingCache s.sql SqlQuery.parkingQuery airportId
    (fun _ => [SqlCall.record SqlQuery.parkingQuery]) env.fillParking (fun ps => ps)
  (r.1, { s with parkingCache := r.2.1, sql := r.2.2 })

/-- `MapQuery::getStartPositionsForAirport`. -/
def getStartPositionsForAirport {T : MapTypes} (env : Collaborators T) (s : MapQuery T)
    (airportId : Int) : Option (List T.MapStart) × MapQuery T :=
  let r := fetchByAirportId env.db s.startCache s.sql SqlQuery.startQuery airportId
    (fun _ => [SqlCall.record SqlQuery.startQuery]) env.fillStart (fun ps => ps)
  (r.1, { s with startCache := r.2.1, sql := r.2.2 })

/-- `MapQuery::getHelipads`: every member is read from a column of the row;
`start` is -1 when `start_number` is null. -/
def getHelipads {T : MapTypes} (env : Collaborators T) (s : MapQuery T) (airportId : Int) :
    Option (List MapHelipad) × MapQuery T :=
  let r := fetchByAirportId env.db s.helipadCache s.sql SqlQuery.helipadQuery airportId
    (fun row =>
      [SqlCall.value SqlQuery.helipadQuery "lonx", SqlCall.value SqlQuery.helipadQuery "laty",
        SqlCall.isNull SqlQuery.helipadQuery "start_number"] ++
      (if env.isNull row "start_number" then []
        else [SqlCall.value SqlQuery.helipadQuery "start_number"]) ++
      [SqlCall.value SqlQuery.helipadQuery "width", SqlCall.value SqlQuery.helipadQuery "length",
        SqlCall.value SqlQuery.helipadQuery "heading",
        SqlCall.value SqlQuery.helipadQuery "surface", SqlCall.value SqlQuery.helipadQuery "type",
        SqlCall.value SqlQuery.helipadQuery "is_transparent",
        SqlCall.value SqlQuery.helipadQuery "is_closed"])
    (fun row =>
      { position := ⟨env.valueFloat row "lonx", env.valueFloat row "laty"⟩
        start := if env.isNull row "start_number" then -1 else env.valueInt row "start_number"
        width := env.valueInt row "width"
        length := env.valueInt row "length"
        heading := env.roundf (env.valueFloat row "heading")
        surface := env.valueString row "surface"
        type := env.valueString row "type"
        transparent := decide (env.valueInt row "is_transparent" > 0)
        closed := decide (env.valueInt row "is_closed" > 0) })
    (fun hs => hs)
  (r.1, { s with helipadCache := r.2.1, sql := r.2.2 })

/-- `MapQuery::getTaxiPaths`: every member is read from a column of the row. -/
def getTaxiPaths {T : MapTypes} (env : Collaborators T) (s : MapQuery T) (airportId : Int) :
    Option (List MapTaxiPath) × MapQuery T :=
  let r := fetchByAirportId env.db s.taxipathCache s.sql SqlQuery.taxiparthQuery airportId
    (fun _ =>
      [SqlCall.value SqlQuery.taxiparthQuery "type",
        SqlCall.value SqlQuery.taxiparthQuery "is_draw_surface",
        SqlCall.value SqlQuery.taxiparthQuery "start_lonx",
        SqlCall.value SqlQuery.taxiparthQuery "start_laty",
        SqlCall.value SqlQuery.taxiparthQuery "end_lonx",
        SqlCall.value SqlQuery.taxiparthQuery "end_laty",
        SqlCall.value SqlQuery.taxiparthQuery "surface",
        SqlCall.value SqlQuery.taxiparthQuery "name",
        SqlCall.value SqlQuery.taxiparthQuery "width"])
    (fun row =>
      { closed := decide (env.valueString row "type" = "CLOSED")
        drawSurface := decide (env.valueInt row "is_draw_surface" > 0)
        start := ⟨env.valueFloat row "start_lonx", env.valueFloat row "start_laty"⟩
        endPos := ⟨env.valueFloat row "end_lonx", env.valueFloat row "end_laty"⟩
        surface := env.valueString row "surface"
        name := env.valueString row "name"
        width := env.valueInt row "width" })
    (fun tps => tps)
  (r.1, { s with taxipathCache := r.2.1, sql := r.2.2 })

/-- `MapQuery::getAirspaceGeometry`: a cached shape is returned through
`object`; otherwise a new, empty shape is made, the statement is bound to the
boundary id and executed, the column `geometry` of the first row, if there is
one, is decoded into the shape, and the shape is inserted with the default
cost 1 and returned. -/
def getAirspaceGeometry {T : MapTypes} (env : Collaborators T) (s : MapQuery T)
    (boundaryId : Int) : Option LineString × MapQuery T :=
  if s.airspaceLineCache.contains boundaryId then
    let r := s.airspaceLineCache.object boundaryId
    (r.1, { s with airspaceLineCache := r.2 })
  else
    let sql := s.sql ++
      [SqlCall.bindValue SqlQuery.airspaceLinesByIdQuery ":id" (SqlValue.int boundaryId),
        SqlCall.exec SqlQuery.airspaceLinesByIdQuery, SqlCall.next SqlQuery.airspaceLinesByIdQuery]
    let rows := env.db.select SqlQuery.airspaceLinesByIdQuery
      (boundValues sql SqlQuery.airspaceLinesByIdQuery)
    let st : List SqlCall × LineString :=
      match rows with
      | row :: _ =>
        (sql ++ [SqlCall.value SqlQuery.airspaceLinesByIdQuery "geometry"],
          decodeVertices (env.valueByteArray row "geometry"))
      | [] => (sql, [])
    (some st.2, { s with airspaceLineCache := s.airspaceLineCache.insert boundaryId st.2 1,
                         sql := st.1 })

/-- The keyed caches of a state, as one value. -/
def keyedCaches {T : MapTypes} (s : MapQuery T) :
    QCache (List T.MapRunway) × QCache (List T.MapRunway) × QCache (List MapApron) ×
      QCache (List MapTaxiPath) × QCache (List T.MapParking) × QCache (List T.MapStart) ×
      QCache (List MapHelipad) × QCache LineString :=
  (s.runwayCache, s.runwayOverwiewCache, s.apronCache, s.taxipathCache, s.parkingCache,
    s.startCache, s.helipadCache, s.airspaceLineCache)

end MapQuery

/-! ### Hit test -/

/-- `atools::geo::manhattanDistance(x1, y1, x2, y2)`. -/
def manhattanDistance (x1 y1 x2 y2 : Int) : Int :=
  ((x1 - x2).natAbs : Int) + ((y1 - y2).natAbs : Int)

/-- `CoordinateConverter::wToS(pos, x, y)`: whether the position is visible,
and its screen coordinates. -/
abbrev CoordinateConverter := Pos → Bool × Int × Int

/-- The Manhattan distance on the screen from a position to `(xs, ys)`. -/
def screenDistanceTo (conv : CoordinateConverter) (xs ys : Int) (pos : Pos) : Int :=
  manhattanDistance (conv pos).2.1 (conv pos).2.2 xs ys

/-- The test of the hit loops: `conv.wToS(pos, x, y)` holds and
`manhattanDistance(x, y, xs, ys) < screenDistance`. -/
def isHit (conv : CoordinateConverter) (xs ys screenDistance : Int) (pos : Pos) : Bool :=
  (conv pos).1 && decide (screenDistanceTo conv xs ys pos < screenDistance)

/-- Modelled from the spec: `maptools::insertSortedByDistance`, declared in
`common/maptools.h`, which is not part of the sources (and
`insertSortedByTowerDistance`, the same with the tower coordinates as
position).  The object is inserted into a list ordered by ascending screen
distance, ties broken by discovery order: it goes in front of the first entry
that is farther away.  The id set some callers pass is not described by the
spec and is left out. -/
def insertSortedByDistance {α : Type} (conv : CoordinateConverter) (position : α → Pos)
    (xs ys : Int) : List α → α → List α
  | [], obj => [obj]
  | a :: rest, obj =>
    if screenDistanceTo conv xs ys (position obj) < screenDistanceTo conv xs ys (position a) then
      obj :: a :: rest
    else a :: insertSortedByDistance conv position xs ys rest obj

/-- `QFlags::testFlag(flag)` on a bit mask. -/
def testFlag (types flag : Nat) : Bool :=
  (types &&& flag == flag) && (flag != 0 || types == flag)

/-- The result lists of `map::MapSearchResult` that `getNearestObjects` fills. -/
structure MapSearchResult (T : MapTypes) where
  airports : List T.MapAirport := []
  towers : List T.MapAirport := []
  vors : List T.MapVor := []
  ndbs : List T.MapNdb := []
  waypoints : List T.MapWaypoint := []
  markers : List T.MapMarker := []
  ils : List T.MapIls := []
  parkings : List T.MapParking := []
  helipads : List MapHelipad := []

namespace MapQuery

/-- A hit loop over a range cache,
`for(int i = list.size() - 1; i >= 0; i--)`: the entities are tested from the
last to the first; one that passes `cond` and is a hit is inserted into
`found`. -/
def nearestInList {α : Type} (conv : CoordinateConverter) (position : α → Pos)
    (cond : α → Bool) (xs ys screenDistance : Int) (list found : List α) : List α :=
  list.reverse.foldl
    (fun found e =>
      if cond e && isHit conv xs ys screenDistance (position e) then
        insertSortedByDistance conv position xs ys found e
      else found)
    found

/-- A hit loop over the lists of a keyed cache,
`for(int id : cache.keys()) { list = cache.object(id); for(const T& p : *list) ... }`:
the lists are read through `object`, and each list is tested from the first
entity to the last. -/
def nearestInCache {α : Type} (conv : CoordinateConverter) (position : α → Pos)
    (xs ys screenDistance : Int) (cache : QCache (List α)) (found : List α) :
    List α × QCache (List α) :=
  cache.keys.foldl
    (fun st id =>
      let r := st.2.object id
      match r.1 with
      | some list =>
        (list.foldl
          (fun found p =>
            if isHit conv xs ys screenDistance (position p) then
              insertSortedByDistance conv position xs ys found p
            else found)
          st.1, r.2)
      | none => (st.1, r.2))
    (found, cache)

/-- The airport loop of `getNearestObjects`: every visible airport of the
airport cache is tested at its position and, for an airport diagram, at its
tower. -/
def nearestAirports {T : MapTypes} (env : Collaborators T) (s : MapQuery T)
    (conv : CoordinateConverter) (mapLayer : T.MapLayer) (airportDiagram : Bool) (types : Nat)
    (xs ys screenDistance : Int) (result : MapSearchResult T) : MapSearchResult T :=
  if env.isAirport mapLayer && testFlag types env.objectFlags.AIRPORT then
    s.airportCache.list.reverse.foldl
      (fun (result : MapSearchResult T) airport =>
        if env.airportIsVisible airport types then
          let result :=
            if isHit conv xs ys screenDistance (env.airportPosition airport) then
              let found :=
                insertSortedByDistance conv env.airportPosition xs ys result.airports airport
              { result with airports := found }
            else result
          if airportDiagram &&
              isHit conv xs ys screenDistance (env.airportTowerCoords airport) then
            let found :=
              insertSortedByDistance conv env.airportTowerCoords xs ys result.towers airport
            { result with towers := found }
          else result
        else result)
      result
  else result

/-- The VOR loop of `getNearestObjects`. -/
def nearestVors {T : MapTypes} (env : Collaborators T) (s : MapQuery T)
    (conv : CoordinateConverter) (mapLayer : T.MapLayer) (types : Nat)
    (xs ys screenDistance : Int) (result : MapSearchResult T) : MapSearchResult T :=
  if env.isVor mapLayer && testFlag types env.objectFlags.VOR then
    let found := nearestInList conv env.vorPosition (fun _ => true) xs ys screenDistance
      s.vorCache.list result.vors
    { result with vors := found }
  else result

/-- The NDB loop of `getNearestObjects`. -/
def nearestNdbs {T : MapTypes} (env : Collaborators T) (s : MapQuery T)
    (conv : CoordinateConverter) (mapLayer : T.MapLayer) (types : Nat)
    (xs ys screenDistance : Int) (result : MapSearchResult T) : MapSearchResult T :=
  if env.isNdb mapLayer && testFlag types env.objectFlags.NDB then
    let found := nearestInList conv env.ndbPosition (fun _ => true) xs ys screenDistance
      s.ndbCache.list result.ndbs
    { result with ndbs := found }
  else result

/-- The waypoint loop of `getNearestObjects`. -/
def nearestWaypoints {T : MapTypes} (env : Collaborators T) (s : MapQuery T)
    (conv : CoordinateConverter) (mapLayer : T.MapLayer) (types : Nat)
    (xs ys screenDistance : Int) (result : MapSearchResult T) : MapSearchResult T :=
  if env.isWaypoint mapLayer && testFlag types env.objectFlags.WAYPOINT then
    let found := nearestInList conv env.waypointPosition (fun _ => true) xs ys screenDistance
      s.waypointCache.list result.waypoints
    { result with waypoints := found }
  else result

/-- The airway waypoint loop of `getNearestObjects`: the waypoints of the
waypoint cache that have a Victor airway or a jet airway of a requested
type. -/
def nearestAirwayWaypoints {T : MapTypes} (env : Collaborators T) (s : MapQuery T)
    (conv : CoordinateConverter) (mapLayer : T.MapLayer) (types : Nat)
    (xs ys screenDistance : Int) (result : MapSearchResult T) : MapSearchResult T :=
  if env.isAirwayWaypoint mapLayer then
    let found := nearestInList conv env.waypointPosition
      (fun wp =>
        (env.waypointHasVictorAirways wp && testFlag types env.objectFlags.AIRWAYV) ||
          (env.waypointHasJetAirways wp && testFlag types env.objectFlags.AIRWAYJ))
      xs ys screenDistance s.waypointCache.list result.waypoints
    { result with waypoints := found }
  else result

/-- The marker loop of `getNearestObjects`. -/
def nearestMarkers {T : MapTypes} (env : Collaborators T) (s : MapQuery T)
    (conv : CoordinateConverter) (mapLayer : T.MapLayer) (types : Nat)
    (xs ys screenDistance : Int) (result : MapSearchResult T) : MapSearchResult T :=
  if env.isMarker mapLayer && testFlag types env.objectFlags.MARKER then
    let found := nearestInList conv env.markerPosition (fun _ => true) xs ys screenDistance
      s.markerCache.list result.markers
    { result with markers := found }
  else result

/-- The ILS loop of `getNearestObjects`. -/
def nearestIls {T : MapTypes} (env : Collaborators T) (s : MapQuery T)
    (conv : CoordinateConverter) (mapLayer : T.MapLayer) (types : Nat)
    (xs ys screenDistance : Int) (result : MapSearchResult T) : MapSearchResult T :=
  if env.isIls mapLayer && testFlag types env.objectFlags.ILS then
    let found := nearestInList conv env.ilsPosition (fun _ => true) xs ys screenDistance
      s.ilsCache.list result.ils
    { result with ils := found }
  else result

/-- The last block of `getNearestObjects`, for an airport diagram: the
parking spots and the helipads of every list in the parking cache and in the
helipad cache. -/
def nearestParkingsAndHelipads {T : MapTypes} (env : Collaborators T) (s : MapQuery T)
    (conv : CoordinateConverter) (mapLayer : T.MapLayer) (airportDiagram : Bool) (types : Nat)
    (xs ys screenDistance : Int) (result : MapSearchResult T) :
    MapSearchResult T × MapQuery T :=
  if env.isAirport mapLayer && testFlag types env.objectFlags.AIRPORT && airportDiagram then
    let ps := nearestInCache conv env.parkingPosition xs ys screenDistance s.parkingCache
      result.parkings
    let hs := nearestInCache conv (fun (h : MapHelipad) => h.position) xs ys screenDistance
      s.helipadCache result.helipads
    ({ result with parkings := ps.1, helipads := hs.1 },
      { s with parkingCache := ps.2, helipadCache := hs.2 })
  else (result, s)

/-- `MapQuery::getNearestObjects`: the cached entities near the screen point
`(xs, ys)`, added to `result`, block by block in the order of the source. -/
def getNearestObjects {T : MapTypes} (env : Collaborators T) (s : MapQuery T)
    (conv : CoordinateConverter) (mapLayer : T.MapLayer) (airportDiagram : Bool) (types : Nat)
    (xs ys screenDistance : Int) (result : MapSearchResult T) :
    MapSearchResult T × MapQuery T :=
  let result := nearestAirports env s conv mapLayer airportDiagram types xs ys screenDistance
    result
  let result := nearestVors env s conv mapLayer types xs ys screenDistance result
  let result := nearestNdbs env s conv mapLayer types xs ys screenDistance result
  let result := nearestWaypoints env s conv mapLayer types xs ys screenDistance result
  let result := nearestAirwayWaypoints env s conv mapLayer types xs ys screenDistance result
  let result := nearestMarkers env s conv mapLayer types xs ys screenDistance result
  let result := nearestIls env s conv mapLayer types xs ys screenDistance result
  nearestParkingsAndHelipads env s conv mapLayer airportDiagram types xs ys screenDistance result

end MapQuery

/-! ### A small concrete instance -/

namespace Sample

/-- Rows, map layers and entities are natural numbers; a runway is its surface
and its length. -/
@[reducible] def types : MapTypes :=
  { SqlRecord := Nat, MapLayer := Nat, MapAirport := Nat, MapWaypoint := Nat, MapVor := Nat,
    MapNdb := Nat, MapMarker := Nat, MapIls := Nat, MapAirway := Nat, MapAirspace := Nat,
    MapRunway := String × Int, MapParking := Nat, MapStart := Nat }

/-- Containment of rectangles that do not cross the date line. -/
def contains (a b : GeoDataLatLonBox) : Bool :=
  decide (a.west ≤ b.west ∧ b.east ≤ a.east ∧ a.south ≤ b.south ∧ b.north ≤ a.north)

/-- Airspace type constants for the instance: 8 type bits (0 to 7) and the
altitude flags above them. -/
def flags : AirspaceFlags :=
  { AIRSPACE_NONE := 0, AIRSPACE_ALL := 255, AIRSPACE_AT_FLIGHTPLAN := 256,
    AIRSPACE_BELOW_10000 := 512, AIRSPACE_BELOW_18000 := 1024, AIRSPACE_ABOVE_10000 := 2048,
    AIRSPACE_ABOVE_18000 := 4096, MAP_AIRSPACE_TYPE_BITS := 7 }

/-- The runway of a row of the instance: row 0 is a grass runway of 3000 ft,
row 1 an asphalt runway of 2000 ft, every other row an asphalt runway of
5000 ft. -/
def runway (r : Nat) (_overview : Bool) : String × Int :=
  if r = 0 then ("G", 3000) else if r = 1 then ("A", 2000) else ("A", 5000)

/-- Surface quality in the instance: asphalt ("A") above grass ("G") above
anything else. -/
def surfaceQuality (surface : String) : Int :=
  if surface = "A" then 20 else if surface = "G" then 5 else 0

/-- Object type constants for the instance. -/
def objectFlags : MapObjectFlags :=
  { AIRPORT := 1, VOR := 2, NDB := 4, WAYPOINT := 8, AIRWAYV := 16, AIRWAYJ := 32, MARKER := 64,
    ILS := 128 }

/-- Collaborators over a database in which every execution yields `rows`:
entities are the rows themselves, two map layers are equivalent when equal,
every layer has the data source `source` and its own number as minimum runway
length and shows every kind of object; an entity lies at the position whose
longitude word is its number; the distance of two positions is the sum of the
differences of their words, asphalt is the hard surface, and the entity 0 is
the default start and the default (invalid) waypoint. -/
def env (rows : List Nat) (source : layer.DataSource) : Collaborators types :=
  { inflation := {}
    db := { select := fun _ _ => rows }
    contains := contains
    hasSameQueryParametersAirport := fun a b => a == b
    hasSameQueryParametersWaypoint := fun a b => a == b
    hasSameQueryParametersVor := fun a b => a == b
    hasSameQueryParametersNdb := fun a b => a == b
    hasSameQueryParametersMarker := fun a b => a == b
    hasSameQueryParametersIls := fun a b => a == b
    hasSameQueryParametersAirway := fun a b => a == b
    hasSameQueryParametersAirspace := fun a b => a == b
    getDataSource := fun _ => source
    getMinRunwayLength := fun l => (l : Int)
    fillAirport := fun r => r
    fillAirportForOverview := fun r => r
    fillWaypoint := fun r => r
    fillVor := fun r => r
    fillNdb := fun r => r
    fillMarker := fun r => r
    fillIls := fun r => r
    fillAirway := fun r => r
    fillAirspace := fun r => r
    flags := flags
    airspaceTypeToDatabase := fun _ => "C"
    airspaceDrawingOrder := fun a => (a : Int)
    almostNotEqual := fun a b => decide (a ≠ b)
    roundToInt := fun q => Rat.floor (q + 1 / 2)
    valueString := fun _ _ => "A"
    valueInt := fun r _ => (r : Int)
    valueFloat := fun r _ => r
    valueByteArray := fun r _ => wordBytes 1 ++ wordBytes r ++ wordBytes r
    isNull := fun _ _ => false
    roundf := fun x => (x : Int)
    fillRunway := runway
    fillParking := fun r => r
    fillStart := fun r => r
    runwaySurface := fun r => r.1
    runwayLength := fun r => r.2
    surfaceQuality := surfaceQuality
    isAirport := fun _ => true
    isVor := fun _ => true
    isNdb := fun _ => true
    isWaypoint := fun _ => true
    isAirwayWaypoint := fun _ => true
    isMarker := fun _ => true
    isIls := fun _ => true
    objectFlags := objectFlags
    airportPosition := fun e => ⟨e, 0⟩
    airportTowerCoords := fun e => ⟨e, 1⟩
    airportIsVisible := fun _ _ => true
    vorPosition := fun e => ⟨e, 0⟩
    ndbPosition := fun e => ⟨e, 0⟩
    waypointPosition := fun e => ⟨e, 0⟩
    waypointHasVictorAirways := fun _ => false
    waypointHasJetAirways := fun _ => false
    markerPosition := fun e => ⟨e, 0⟩
    ilsPosition := fun e => ⟨e, 0⟩
    parkingPosition := fun e => ⟨e, 0⟩
    isHardSurface := fun surface => surface == "A"
    defaultStart := 0
    startPosition := fun e => ⟨e, 0⟩
    distanceMeterTo := fun a b => |(a.lonX : ℚ) - b.lonX| + |(a.latY : ℚ) - b.latY|
    INVALID_DISTANCE_VALUE := 1000000
    toInt := fun str => if str = "9" then 9 else 0
    runwayNameSplit := fun _ => none
    defaultWaypoint := 0
    waypointIsValid := fun e => decide (e ≠ 0) }

/-- The viewport from the equator to 10 north and from Greenwich to 10 east. -/
def rect : GeoDataLatLonBox := ⟨10, 0, 10, 0⟩

end Sample

namespace Sample

/-- Collaborators whose database holds three airports around the date line:
the airports of importance 3 and 1 west of it and the airport of importance 2
east of it.  An execution yields, in descending importance, the airports of
the side its `:leftx` value lies on (`:leftx = -180` is the eastern side).  The
data source is `ALL`. -/
def dateLineEnv : Collaborators types :=
  { env [] layer.DataSource.ALL with
    db := { select := fun _ args =>
      if args.head? = some (some (SqlValue.real (-180))) then [2] else [3, 1] } }

/-- A viewport across the date line, from 170 east to 170 west. -/
def dateLineRect : GeoDataLatLonBox := ⟨10, 0, -170, 170⟩

end Sample

/-! ### Sequences of airspace fetches and the rows a refetch reads -/

/-- The arguments of one `getAirspaces` call. -/
structure AirspaceRequest (T : MapTypes) where
  rect : GeoDataLatLonBox
  mapLayer : T.MapLayer
  types : Nat
  flightPlanAltitude : ℚ
  lazy : Bool

namespace MapQuery

/-- The state after a sequence of `getAirspaces` calls. -/
def getAirspacesSeq {T : MapTypes} (env : Collaborators T) (s : MapQuery T)
    (reqs : List (AirspaceRequest T)) : MapQuery T :=
  reqs.foldl
    (fun s r => (getAirspaces env s r.rect r.mapLayer r.types r.flightPlanAltitude r.lazy).2) s

/-- The values the placeholders of the airspace statement `query` hold when a
refetch that started after the calls `sql` executes it for the rectangle `r`
and the type string `typeStr`: the four edges, the type string and, for a
statement with an `:alt` placeholder, the altitude if it is positive and
otherwise whatever `:alt` was bound to before the refetch. -/
def airspaceValues (sql : List SqlCall) (query : SqlQuery) (alt : Int) (r : GeoDataLatLonBox)
    (typeStr : String) : List (Option SqlValue) :=
  [some (SqlValue.real r.west), some (SqlValue.real r.east), some (SqlValue.real r.south),
    some (SqlValue.real r.north), some (SqlValue.text typeStr)] ++
  (if ":alt" ∈ query.placeholders then
    [if alt > 0 then some (SqlValue.int alt) else boundValue sql query ":alt"]
  else [])

/-- The rows a refetch of `getAirspaces` that started after the calls `sql`
reads, in the order it reads them: for every rectangle of
`splitAtAntiMeridian(rect)` and every type string, the rows of one execution. -/
def airspaceRowsFetched {T : MapTypes} (env : Collaborators T) (sql : List SqlCall)
    (rect : GeoDataLatLonBox) (types : Nat) (flightPlanAltitude : ℚ) : List T.SqlRecord :=
  ((splitAtAntiMeridian env.inflation rect).map fun r =>
    ((airspaceTypeStrings env types).map fun typeStr =>
      env.db.select (airspaceQueryAndAlt env types flightPlanAltitude).1
        (airspaceValues sql (airspaceQueryAndAlt env types flightPlanAltitude).1
          (airspaceQueryAndAlt env types flightPlanAltitude).2 r typeStr)).flatten).flatten

end MapQuery

namespace MapQuery

/-- The innermost block of the refetch loop of `getAirspaces`, as a function:
bind the edges of `r`, the type string and, if positive, the altitude on the
statement `qa.1`, execute it and append the airspace of every row. -/
def airspaceQueryStep {T : MapTypes} (env : Collaborators T) (qa : SqlQuery × Int)
    (r : GeoDataLatLonBox) (st : List SqlCall × List T.MapAirspace) (typeStr : String) :
    List SqlCall × List T.MapAirspace :=
  let sql := st.1 ++ bindCoordinatePointInRect r qa.1 ++
    [SqlCall.bindValue qa.1 ":type" (SqlValue.text typeStr)] ++
    (if qa.2 > 0 then [SqlCall.bindValue qa.1 ":alt" (SqlValue.int qa.2)] else []) ++
    [SqlCall.exec qa.1]
  whileNext qa.1 (fun list row => list ++ [env.fillAirspace row])
    (env.db.select qa.1 (boundValues sql qa.1)) (sql, st.2)

/-- The two nested loops of the refetch of `getAirspaces`, as a function of
the calls made and the list held when the loops start. -/
def airspaceRefetch {T : MapTypes} (env : Collaborators T) (st : List SqlCall × List T.MapAirspace)
    (rect : GeoDataLatLonBox) (types : Nat) (flightPlanAltitude : ℚ) :
    List SqlCall × List T.MapAirspace :=
  (splitAtAntiMeridian env.inflation rect).foldl
    (fun st r =>
      (airspaceTypeStrings env types).foldl
        (airspaceQueryStep env (airspaceQueryAndAlt env types flightPlanAltitude) r) st)
    st

end MapQuery

namespace MapQuery

/-- The list a fetch of `getRunways` builds for an airport id: the runways of
the rows of `runwaysQuery` for that id, sorted. -/
def runwaysSorted {T : MapTypes} (env : Collaborators T) (airportId : Int) : List T.MapRunway :=
  ((env.db.select SqlQuery.runwaysQuery [some (SqlValue.int airportId)]).map
    fun row => env.fillRunway row false).insertionSort fun a b => runwayCompare env b a = false

end MapQuery

namespace MapQuery

/-- The state after `getStartPositionsForAirport` has been called for the
airport ids `ids`, one after the other. -/
def requestStarts {T : MapTypes} (env : Collaborators T) (s : MapQuery T) (ids : List Int) :
    MapQuery T :=
  ids.foldl (fun s airportId => (getStartPositionsForAirport env s airportId).2) s

end MapQuery

/-! ### Single-record lookups of `src/info/infoquery.cpp` -/

/-- A record `atools::sql::SqlRecord`, as the list of its fields.  A row of a
result has one field per selected column; `SqlRecord()` has none. -/
structure SqlRecord where
  fields : List (String × SqlValue)
  deriving DecidableEq

namespace SqlRecord

/-- `SqlRecord::isEmpty`: the record has no fields. -/
def isEmpty (r : SqlRecord) : Bool := r.fields.isEmpty

/-- The record `SqlRecord()` that `cachedRecord` inserts for an id without a
row. -/
def empty : SqlRecord := ⟨[]⟩

end SqlRecord

namespace InfoQuery

/-- The prepared statements of `InfoQuery`; each has the one placeholder
`:id`. -/
inductive Query where
  | airportQuery
  | comQuery
  | vorQuery
  | ndbQuery
  | waypointQuery
  | airwayQuery
  | runwayQuery
  | runwayEndQuery
  deriving DecidableEq, Repr

/-- A call made on a prepared statement of `InfoQuery`. -/
inductive Call where
  | bindValue (query : Query) (placeholder : String) (value : Int)
  | exec (query : Query)
  | next (query : Query)
  | record (query : Query)
  deriving DecidableEq, Repr

/-- `InfoQuery::cachedRecord`.  `db query id` are the rows the statement
yields when `:id` is bound to `id`.  The first component is the pointer
returned (`none` for null), the second the cache, the third the calls made on
prepared statements. -/
def cachedRecord (db : Query → Int → List SqlRecord) (cache : QCache SqlRecord)
    (sql : List Call) (query : Query) (id : Int) :
    Option SqlRecord × QCache SqlRecord × List Call :=
  let r := cache.object id
  match r.1 with
  | some rec => if rec.isEmpty then (none, r.2, sql) else (some rec, r.2, sql)
  | none =>
    let sql := sql ++ [Call.bindValue query ":id" id, Call.exec query, Call.next query]
    match db query id with
    | row :: _ => (some row, r.2.insert id row 1, sql ++ [Call.record query])
    | [] => (none, r.2.insert id SqlRecord.empty 1, sql)

end InfoQuery

/-! ### Order of a hit list -/

/-- The list `found` holds the entities `discovered`, by ascending screen
distance of their `position` to `(xs, ys)`, those at equal distance in the
order in which `discovered` lists them. -/
def NearestFirst {α : Type} (conv : CoordinateConverter) (position : α → Pos) (xs ys : Int)
    (discovered found : List α) : Prop :=
  found.Sorted (fun a b =>
      screenDistanceTo conv xs ys (position a) ≤ screenDistanceTo conv xs ys (position b)) ∧
    found.Perm discovered ∧
    ∀ k : Int, found.filter (fun e => decide (screenDistanceTo conv xs ys (position e) = k)) =
      discovered.filter (fun e => decide (screenDistanceTo conv xs ys (position e) = k))

namespace Sample

/-- A converter that shows every position, at the screen point given by its
two coordinate words. -/
def conv : CoordinateConverter := fun pos => (true, (pos.lonX : Int), (pos.latY : Int))

end Sample

namespace Sample

/-- The collaborators of `env` with waypoints that all lie on a Victor
airway. -/
def airwayEnv : Collaborators types :=
  { env [] layer.DataSource.ALL with waypointHasVictorAirways := fun _ => true }

end Sample

/-! ### Executions in a trace of storage calls -/

/-- The executions among the calls `sql` that follow the calls `pre`, in
order: for every `exec`, the statement and the values its placeholders hold
when it is executed. -/
def executionsFrom (pre : List SqlCall) : List SqlCall → List (SqlQuery × List (Option SqlValue))
  | [] => []
  | SqlCall.exec q :: rest =>
    (q, boundValues pre q) :: executionsFrom (pre ++ [SqlCall.exec q]) rest
  | c :: rest => executionsFrom (pre ++ [c]) rest

/-- The executions in a sequence of calls. -/
def executions (sql : List SqlCall) : List (SqlQuery × List (Option SqlValue)) :=
  executionsFrom [] sql

namespace SqlQuery

end SqlQuery

/-! ### Start positions -/

namespace MapQuery

/-- The row loop of `getBestStartPositionForAirport`, from the rows not yet
read: `while(query.next())` reads the surface of the row, takes the row as
the start when its quality is above `bestSurfaceQuality` or
`bestSurfaceQuality` is still -1, and leaves the loop (`break`) on a hard
surface. -/
def bestStartLoop {T : MapTypes} (env : Collaborators T) :
    List T.SqlRecord → Int → T.MapStart → List SqlCall → T.MapStart × List SqlCall
  | [], _, start, sql => (start, sql ++ [SqlCall.next SqlQuery.bestStartPositionQuery])
  | row :: rest, bestSurfaceQuality, start, sql =>
    let sql := sql ++ [SqlCall.next SqlQuery.bestStartPositionQuery,
      SqlCall.value SqlQuery.bestStartPositionQuery "surface"]
    let surface := env.valueString row "surface"
    let quality := env.surfaceQuality surface
    let better : Bool := decide (quality > bestSurfaceQuality) || decide (bestSurfaceQuality = -1)
    let bestSurfaceQuality := if better then quality else bestSurfaceQuality
    let start := if better then env.fillStart row else start
    let sql := if better then sql ++ [SqlCall.record SqlQuery.bestStartPositionQuery] else sql
    if env.isHardSurface surface then (start, sql)
    else bestStartLoop env rest bestSurfaceQuality start sql

/-- `MapQuery::getBestStartPositionForAirport`: `start` is the out-parameter,
the statement yields the start rows of the airport with the surface of their
runway, longest runway first. -/
def getBestStartPositionForAirport {T : MapTypes} (env : Collaborators T) (s : MapQuery T)
    (start : T.MapStart) (airportId : Int) : T.MapStart × MapQuery T :=
  let sql := s.sql ++
    [SqlCall.bindValue SqlQuery.bestStartPositionQuery ":airportId" (SqlValue.int airportId),
      SqlCall.exec SqlQuery.bestStartPositionQuery]
  let r := bestStartLoop env
    (env.db.select SqlQuery.bestStartPositionQuery
      (boundValues sql SqlQuery.bestStartPositionQuery)) (-1) start sql
  (r.1, { s with sql := r.2 })

/-- The search for the nearest start in `getStartByNameAndPos`:
`minDistance` starts as `INVALID_DISTANCE_VALUE` and `minStart` as the default
start; a start whose distance is below `minDistance` replaces them. -/
def nearestStart {T : MapTypes} (env : Collaborators T) (position : Pos)
    (starts : List T.MapStart) : ℚ × T.MapStart :=
  starts.foldl
    (fun (m : ℚ × T.MapStart) s =>
      let dist := env.distanceMeterTo position (env.startPosition s)
      if dist < m.1 then (dist, s) else m)
    (env.INVALID_DISTANCE_VALUE, env.defaultStart)

/-- `MapQuery::getStartByNameAndPos`: the start among the rows for the runway
number or runway end name that is nearest to `position`, or the default
start. -/
def getStartByNameAndPos {T : MapTypes} (env : Collaborators T) (s : MapQuery T)
    (airportId : Int) (runwayEndName : String) (position : Pos) : T.MapStart × MapQuery T :=
  let number := env.toInt runwayEndName
  let endName :=
    match env.runwayNameSplit runwayEndName with
    | some (name, designator) => name ++ designator
    | none => runwayEndName
  let sql := s.sql ++
    [SqlCall.bindValue SqlQuery.startByNameAndPosQuery ":number" (SqlValue.int number),
      SqlCall.bindValue SqlQuery.startByNameAndPosQuery ":runwayName" (SqlValue.text endName),
      SqlCall.bindValue SqlQuery.startByNameAndPosQuery ":airportId" (SqlValue.int airportId),
      SqlCall.exec SqlQuery.startByNameAndPosQuery]
  let st := whileNext SqlQuery.startByNameAndPosQuery
    (fun list row => list ++ [env.fillStart row])
    (env.db.select SqlQuery.startByNameAndPosQuery
      (boundValues sql SqlQuery.startByNameAndPosQuery)) (sql, [])
  let start :=
    if !st.2.isEmpty then (nearestStart env position st.2).2 else env.defaultStart
  (start, { s with sql := st.1 })

/-- The rows `getBestStartPositionForAirport` reads: those before the first
row with a hard surface, and that row. -/
def rowsScanned {T : MapTypes} (env : Collaborators T) : List T.SqlRecord → List T.SqlRecord
  | [] => []
  | row :: rest =>
    if env.isHardSurface (env.valueString row "surface") then [row]
    else row :: rowsScanned env rest

end MapQuery

namespace Sample

/-- The collaborators of `env rows` with rows of different surfaces: row 0
has a grass surface, row 1 an asphalt surface and every other row the
unknown surface "X". -/
def startEnv (rows : List Nat) : Collaborators types :=
  { env rows layer.DataSource.ALL with
    valueString := fun r _ => if r = 0 then "G" else if r = 1 then "A" else "X" }

end Sample

/-! ### Airway waypoints -/

/-- A row of the table `airway`, with the columns the airway waypoint
statements name. -/
structure AirwayRow where
  airway_id : Int
  airway_name : String
  airway_fragment_no : Int
  sequence_no : Int
  from_waypoint_id : Int
  to_waypoint_id : Int
  deriving DecidableEq

/-- The tables `waypoint` and `airway`: the waypoint rows as the records the
statement returns, with their columns `waypoint_id` and `ident`. -/
structure NavTables (R : Type) where
  waypoint : List R
  waypoint_id : R → Int
  ident : R → String
  airway : List AirwayRow

namespace NavTables

/-- The rows of the statement prepared for `airwayWaypointByIdentQuery`,
`select .. from waypoint w join airway a on w.waypoint_id = a.from_waypoint_id
where w.ident = :waypoint and a.airway_name = :airway union select .. join
airway a on w.waypoint_id = a.to_waypoint_id where ..`: the comparisons are
`=`, and `union` drops repeated rows. -/
def airwayWaypointByIdent {R : Type} [DecidableEq R] (t : NavTables R)
    (waypoint airway : String) : List R :=
  ((t.waypoint.flatMap fun w =>
      (t.airway.filter fun a =>
        decide (t.waypoint_id w = a.from_waypoint_id) && decide (t.ident w = waypoint) &&
          decide (a.airway_name = airway)).map fun _ => w) ++
    (t.waypoint.flatMap fun w =>
      (t.airway.filter fun a =>
        decide (t.waypoint_id w = a.to_waypoint_id) && decide (t.ident w = waypoint) &&
          decide (a.airway_name = airway)).map fun _ => w)).dedup

end NavTables

/-- `map::MapAirwayWaypoint`. -/
structure MapAirwayWaypoint (T : MapTypes) where
  airwayFragmentId : Int
  seqNum : Int
  airwayId : Int
  waypoint : T.MapWaypoint

namespace MapQuery

/-- `MapQuery::getWaypointsForAirway`: an empty filter is bound as `"%"`. -/
def getWaypointsForAirway {T : MapTypes} (env : Collaborators T) (s : MapQuery T)
    (waypoints : List T.MapWaypoint) (airwayName waypointIdent : String) :
    List T.MapWaypoint × MapQuery T :=
  let sql := s.sql ++
    [SqlCall.bindValue SqlQuery.airwayWaypointByIdentQuery ":waypoint"
        (SqlValue.text (if waypointIdent.isEmpty then "%" else waypointIdent)),
      SqlCall.bindValue SqlQuery.airwayWaypointByIdentQuery ":airway"
        (SqlValue.text (if airwayName.isEmpty then "%" else airwayName)),
      SqlCall.exec SqlQuery.airwayWaypointByIdentQuery]
  let st := whileNext SqlQuery.airwayWaypointByIdentQuery
    (fun list row => list ++ [env.fillWaypoint row])
    (env.db.select SqlQuery.airwayWaypointByIdentQuery
      (boundValues sql SqlQuery.airwayWaypointByIdentQuery)) (sql, waypoints)
  (st.2, { s with sql := st.1 })

/-- `MapQuery::getWaypointById`: the waypoint of the first row, or the default
waypoint. -/
def getWaypointById {T : MapTypes} (env : Collaborators T) (s : MapQuery T) (id : Int) :
    T.MapWaypoint × MapQuery T :=
  let sql := s.sql ++
    [SqlCall.bindValue SqlQuery.waypointByIdQuery ":id" (SqlValue.int id),
      SqlCall.exec SqlQuery.waypointByIdQuery, SqlCall.next SqlQuery.waypointByIdQuery]
  match env.db.select SqlQuery.waypointByIdQuery (boundValues sql SqlQuery.waypointByIdQuery) with
  | row :: _ =>
    (env.fillWaypoint row,
      { s with sql := sql ++
          [SqlCall.record SqlQuery.waypointByIdQuery, SqlCall.finish SqlQuery.waypointByIdQuery] })
  | [] => (env.defaultWaypoint, { s with sql := sql ++ [SqlCall.finish SqlQuery.waypointByIdQuery] })

/-- `MapQuery::getMapObjectById` for `type == map::WAYPOINT`: the waypoint of
the id is appended to the waypoints of `result` if it is valid. -/
def getMapObjectById {T : MapTypes} (env : Collaborators T) (s : MapQuery T)
    (result : MapSearchResult T) (id : Int) : MapSearchResult T × MapQuery T :=
  let r := getWaypointById env s id
  if env.waypointIsValid r.1 then
    let waypoints := result.waypoints ++ [r.1]
    ({ result with waypoints := waypoints }, r.2)
  else (result, r.2)

/-- The loop `for(int i = 0; i < records.size(); i++)` of
`getWaypointListForAirwayName`, from the records not yet visited: an entry
with the from-waypoint for the record and, if the record is the last one or
the next record has another fragment number, an entry with the
to-waypoint. -/
def airwayWaypointLoop {T : MapTypes} (env : Collaborators T) :
    List T.SqlRecord → List (MapAirwayWaypoint T) × MapQuery T →
      List (MapAirwayWaypoint T) × MapQuery T
  | [], st => st
  | rec :: rest, st =>
    let fragment := env.valueInt rec "airway_fragment_no"
    let nextFragment :=
      match rest with
      | next :: _ => env.valueInt next "airway_fragment_no"
      | [] => -1
    let aw : MapAirwayWaypoint T :=
      { airwayFragmentId := fragment, seqNum := env.valueInt rec "sequence_no",
        airwayId := env.valueInt rec "airway_id", waypoint := env.defaultWaypoint }
    let r := getMapObjectById env st.2 {} (env.valueInt rec "from_waypoint_id")
    let aw : MapAirwayWaypoint T :=
      match r.1.waypoints with
      | wp :: _ => { aw with waypoint := wp }
      | [] => aw
    let waypoints := st.1 ++ [aw]
    if rest.isEmpty || fragment != nextFragment then
      let r2 := getMapObjectById env r.2 { r.1 with waypoints := [] }
        (env.valueInt rec "to_waypoint_id")
      let aw : MapAirwayWaypoint T :=
        match r2.1.waypoints with
        | wp :: _ => { aw with waypoint := wp }
        | [] => aw
      airwayWaypointLoop env rest (waypoints ++ [aw], r2.2)
    else airwayWaypointLoop env rest (waypoints, r.2)

/-- `MapQuery::getWaypointListForAirwayName`: the records of the airway are
collected first, in the order of the statement (by fragment number and
sequence number). -/
def getWaypointListForAirwayName {T : MapTypes} (env : Collaborators T) (s : MapQuery T)
    (waypoints : List (MapAirwayWaypoint T)) (airwayName : String) :
    List (MapAirwayWaypoint T) × MapQuery T :=
  let sql := s.sql ++
    [SqlCall.bindValue SqlQuery.airwayWaypointsQuery ":name" (SqlValue.text airwayName),
      SqlCall.exec SqlQuery.airwayWaypointsQuery]
  let st := whileNext SqlQuery.airwayWaypointsQuery (fun records row => records ++ [row])
    (env.db.select SqlQuery.airwayWaypointsQuery
      (boundValues sql SqlQuery.airwayWaypointsQuery)) (sql, [])
  airwayWaypointLoop env st.2 (waypoints, { s with sql := st.1 })

/-- The valid waypoint the database has for an id: that of the first row of
`waypointByIdQuery`, if there is a row and its waypoint is valid. -/
def waypointOfId {T : MapTypes} (env : Collaborators T) (id : Int) : Option T.MapWaypoint :=
  match env.db.select SqlQuery.waypointByIdQuery [some (SqlValue.int id)] with
  | row :: _ => if env.waypointIsValid (env.fillWaypoint row) then some (env.fillWaypoint row) else none
  | [] => if env.waypointIsValid env.defaultWaypoint then some env.defaultWaypoint else none

/-- The entry for the from-waypoint of an airway record: the numbers of the
record, and the waypoint of `from_waypoint_id` or else the default waypoint. -/
def fromEntry {T : MapTypes} (env : Collaborators T) (rec : T.SqlRecord) : MapAirwayWaypoint T :=
  { airwayFragmentId := env.valueInt rec "airway_fragment_no",
    seqNum := env.valueInt rec "sequence_no", airwayId := env.valueInt rec "airway_id",
    waypoint := (waypointOfId env (env.valueInt rec "from_waypoint_id")).getD env.defaultWaypoint }

/-- The entry for the to-waypoint of an airway record: the numbers of the
record, and the waypoint of `to_waypoint_id` or else the waypoint of the
from-entry. -/
def toEntry {T : MapTypes} (env : Collaborators T) (rec : T.SqlRecord) : MapAirwayWaypoint T :=
  { airwayFragmentId := env.valueInt rec "airway_fragment_no",
    seqNum := env.valueInt rec "sequence_no", airwayId := env.valueInt rec "airway_id",
    waypoint := (waypointOfId env (env.valueInt rec "to_waypoint_id")).getD
      (fromEntry env rec).waypoint }

end MapQuery

namespace Sample

/-- The collaborators of `env` over a database with the tables `t`, for the
statement of `airwayWaypointByIdentQuery`. -/
def navEnv (t : NavTables Nat) : Collaborators types :=
  { env [] layer.DataSource.ALL with
    db := { select := fun query args =>
      match query, args with
      | SqlQuery.airwayWaypointByIdentQuery,
          [some (SqlValue.text waypoint), some (SqlValue.text airway)] =>
        t.airwayWaypointByIdent waypoint airway
      | _, _ => [] } }

/-- The waypoints 1 (`ABC`) and 2 (`DEF`) and the airway `V1` with one segment
from waypoint 1 to waypoint 2. -/
def navTables : NavTables Nat :=
  { waypoint := [1, 2]
    waypoint_id := fun r => (r : Int)
    ident := fun r => if r = 1 then "ABC" else "DEF"
    airway := [{ airway_id := 1, airway_name := "V1", airway_fragment_no := 1, sequence_no := 1,
                 from_waypoint_id := 1, to_waypoint_id := 2 }] }

/-- The collaborators of `env rows` for airway records: the fragment number
of a record is its tens digit and the waypoint ids are the record and its
successor; only the odd waypoints are in the database. -/
def airwayEnvOf (rows : List Nat) : Collaborators types :=
  { env rows layer.DataSource.ALL with
    valueInt := fun r column =>
      if column = "airway_fragment_no" then ((r / 10 : Nat) : Int)
      else if column = "to_waypoint_id" then ((r + 1 : Nat) : Int)
      else (r : Int)
    db := { select := fun query args =>
      match query, args with
      | SqlQuery.waypointByIdQuery, [some (SqlValue.int id)] =>
        if id % 2 = 1 then [id.toNat] else []
      | SqlQuery.airwayWaypointsQuery, _ => rows
      | _, _ => [] } }

end Sample

/-! ### Order of use of a request sequence -/

/-- The keys of a sequence of requests, from the most recently requested to
the least recently requested: every request puts its key in front. -/
def recentFirst (ids : List Int) : List Int :=
  ids.foldl (fun order id => id :: order.erase id) []

/-! ## Part 2: properties -/

/-! ### Bounding-box utilities -/

theorem GeoDataLatLonBox.width_nonneg (b : GeoDataLatLonBox) : 0 ≤ b.width := by
  unfold GeoDataLatLonBox.width
  exact le_min (abs_nonneg _) (by norm_num)

theorem GeoDataLatLonBox.height_nonneg (b : GeoDataLatLonBox) : 0 ≤ b.height := by
  unfold GeoDataLatLonBox.height
  exact abs_nonneg _

theorem MapQuery.inflateRect_north (rect : GeoDataLatLonBox) (w h : ℚ) :
    (MapQuery.inflateRect rect w h).north = min (rect.north + h) 89 := rfl

theorem MapQuery.inflateRect_south (rect : GeoDataLatLonBox) (w h : ℚ) :
    (MapQuery.inflateRect rect w h).south = max (rect.south - h) (-89) := rfl

theorem MapQuery.inflateRect_west (rect : GeoDataLatLonBox) (w h : ℚ) :
    (MapQuery.inflateRect rect w h).west = max (rect.west - w) (-179) := rfl

theorem MapQuery.inflateRect_east (rect : GeoDataLatLonBox) (w h : ℚ) :
    (MapQuery.inflateRect rect w h).east = min (rect.east + w) 179 := rfl

/-- C6: `inflateRect` moves every edge outward by the given amount and clamps
it: north at 89, south at -89, west at -179, east at 179.  Hence the inflated
box never leaves these limits, and a north edge of 88 inflated by 5 becomes
exactly 89. -/
theorem MapQuery.inflateRect_clamped (rect : GeoDataLatLonBox) (width height : ℚ) :
    ((MapQuery.inflateRect rect width height).north = min (rect.north + height) 89 ∧
      (MapQuery.inflateRect rect width height).south = max (rect.south - height) (-89) ∧
      (MapQuery.inflateRect rect width height).west = max (rect.west - width) (-179) ∧
      (MapQuery.inflateRect rect width height).east = min (rect.east + width) 179) ∧
    ((MapQuery.inflateRect rect width height).north ≤ 89 ∧
      -89 ≤ (MapQuery.inflateRect rect width height).south ∧
      (MapQuery.inflateRect rect width height).east ≤ 179 ∧
      -179 ≤ (MapQuery.inflateRect rect width height).west) ∧
    (MapQuery.inflateRect { rect with north := 88 } width 5).north = 89 := by
  refine ⟨⟨rfl, rfl, rfl, rfl⟩, ⟨?_, ?_, ?_, ?_⟩, ?_⟩
  · rw [MapQuery.inflateRect_north]; exact min_le_right _ _
  · rw [MapQuery.inflateRect_south]; exact le_max_right _ _
  · rw [MapQuery.inflateRect_east]; exact min_le_right _ _
  · rw [MapQuery.inflateRect_west]; exact le_max_right _ _
  · rw [MapQuery.inflateRect_north]; norm_num

theorem MapQuery.splitAtAntiMeridian_eq (cfg : QueryRectInflation) (b : GeoDataLatLonBox) :
    MapQuery.splitAtAntiMeridian cfg b =
      if (MapQuery.inflatedRect cfg b).east < (MapQuery.inflatedRect cfg b).west then
        [⟨(MapQuery.inflatedRect cfg b).north, (MapQuery.inflatedRect cfg b).south, 180,
            (MapQuery.inflatedRect cfg b).west⟩,
          ⟨(MapQuery.inflatedRect cfg b).north, (MapQuery.inflatedRect cfg b).south,
            (MapQuery.inflatedRect cfg b).east, -180⟩]
      else [MapQuery.inflatedRect cfg b] := by
  unfold MapQuery.splitAtAntiMeridian MapQuery.inflatedRect GeoDataLatLonBox.crossesDateLine
    GeoDataLatLonBox.setBoundaries
  by_cases h : (MapQuery.inflateRect b
      (b.width * cfg.queryRectInflationFactor + cfg.queryRectInflationIncrement)
      (b.height * cfg.queryRectInflationFactor + cfg.queryRectInflationIncrement)).east <
    (MapQuery.inflateRect b
      (b.width * cfg.queryRectInflationFactor + cfg.queryRectInflationIncrement)
      (b.height * cfg.queryRectInflationFactor + cfg.queryRectInflationIncrement)).west
  · simp [h]
  · simp [h]

theorem MapQuery.inflation_width_nonneg (cfg : QueryRectInflation) (b : GeoDataLatLonBox)
    (hf : 0 ≤ cfg.queryRectInflationFactor) (hi : 0 ≤ cfg.queryRectInflationIncrement) :
    0 ≤ b.width * cfg.queryRectInflationFactor + cfg.queryRectInflationIncrement :=
  add_nonneg (mul_nonneg b.width_nonneg hf) hi

theorem MapQuery.inflation_height_nonneg (cfg : QueryRectInflation) (b : GeoDataLatLonBox)
    (hf : 0 ≤ cfg.queryRectInflationFactor) (hi : 0 ≤ cfg.queryRectInflationIncrement) :
    0 ≤ b.height * cfg.queryRectInflationFactor + cfg.queryRectInflationIncrement :=
  add_nonneg (mul_nonneg b.height_nonneg hf) hi

/-- C4: with `i` the box inflated by `factor * width + increment` and
`factor * height + increment`: if the east edge of `i` is less than its west
edge, `splitAtAntiMeridian` returns exactly the two boxes `[west i, 180]` and
`[-180, east i]` with the north and south edges of `i`, neither of them
crosses the date line and together they hold exactly the points of `i`;
otherwise it returns `[i]`.  With the initial settings a box with west 170 and
east -170 is split into `[163.9, 180]` and `[-180, -163.9]`. -/
theorem MapQuery.splitAtAntiMeridian_spec (cfg : QueryRectInflation) (b : GeoDataLatLonBox)
    (hf : 0 ≤ cfg.queryRectInflationFactor) (hi : 0 ≤ cfg.queryRectInflationIncrement)
    (hb : b.inRange) :
    (∀ i, i = MapQuery.inflateRect b
          (cfg.queryRectInflationFactor * b.width + cfg.queryRectInflationIncrement)
          (cfg.queryRectInflationFactor * b.height + cfg.queryRectInflationIncrement) →
      (i.east < i.west →
        MapQuery.splitAtAntiMeridian cfg b =
            [⟨i.north, i.south, 180, i.west⟩, ⟨i.north, i.south, i.east, -180⟩] ∧
          (⟨i.north, i.south, 180, i.west⟩ : GeoDataLatLonBox).crossesDateLine = false ∧
          (⟨i.north, i.south, i.east, -180⟩ : GeoDataLatLonBox).crossesDateLine = false ∧
          ∀ lonx laty, -180 ≤ lonx → lonx ≤ 180 →
            (i.containsPoint lonx laty ↔
              pointInRect ⟨i.north, i.south, 180, i.west⟩ lonx laty ∨
                pointInRect ⟨i.north, i.south, i.east, -180⟩ lonx laty)) ∧
      (¬ i.east < i.west → MapQuery.splitAtAntiMeridian cfg b = [i])) ∧
    (b.west = 170 → b.east = -170 → cfg = {} →
      MapQuery.splitAtAntiMeridian cfg b =
        [⟨min (b.north + (|b.north - b.south| * (3 / 10) + 1 / 10)) 89,
            max (b.south - (|b.north - b.south| * (3 / 10) + 1 / 10)) (-89), 180, 1639 / 10⟩,
          ⟨min (b.north + (|b.north - b.south| * (3 / 10) + 1 / 10)) 89,
            max (b.south - (|b.north - b.south| * (3 / 10) + 1 / 10)) (-89), -1639 / 10, -180⟩]) := by
  have hw := MapQuery.inflation_width_nonneg cfg b hf hi
  obtain ⟨hw1, hw2, he1, he2, -⟩ := hb
  refine ⟨?_, ?_⟩
  · intro i hi'
    have hi2 : i = MapQuery.inflatedRect cfg b := by
      rw [hi']; unfold MapQuery.inflatedRect; rw [mul_comm b.width, mul_comm b.height]
    have hwest : i.west ≤ 180 := by
      rw [hi2]; unfold MapQuery.inflatedRect; rw [MapQuery.inflateRect_west]
      exact max_le (by linarith) (by norm_num)
    have heast : -180 ≤ i.east := by
      rw [hi2]; unfold MapQuery.inflatedRect; rw [MapQuery.inflateRect_east]
      exact le_min (by linarith) (by norm_num)
    refine ⟨?_, ?_⟩
    · intro hc
      refine ⟨?_, ?_, ?_, ?_⟩
      · rw [MapQuery.splitAtAntiMeridian_eq, ← hi2, if_pos hc]
      · simp [GeoDataLatLonBox.crossesDateLine, hwest]
      · simp [GeoDataLatLonBox.crossesDateLine, heast]
      · intro lonx laty h1 h2
        simp only [GeoDataLatLonBox.containsPoint, GeoDataLatLonBox.crossesDateLine, hc,
          decide_True, if_true, pointInRect, whereRect]
        constructor
        · rintro ⟨hs, hn, h | h⟩
          · exact Or.inl ⟨⟨h, h2⟩, hs, hn⟩
          · exact Or.inr ⟨⟨h1, h⟩, hs, hn⟩
        · rintro (⟨⟨h, -⟩, hs, hn⟩ | ⟨⟨-, h⟩, hs, hn⟩)
          · exact ⟨hs, hn, Or.inl h⟩
          · exact ⟨hs, hn, Or.inr h⟩
    · intro hc
      rw [MapQuery.splitAtAntiMeridian_eq, ← hi2, if_neg hc]
  · intro h1 h2 h3
    subst h3
    rw [MapQuery.splitAtAntiMeridian_eq]
    have hwd : b.width = 20 := by
      simp only [GeoDataLatLonBox.width, GeoDataLatLonBox.crossesDateLine, h1, h2]
      norm_num
    have e1 : (MapQuery.inflatedRect {} b).east = -1639 / 10 := by
      unfold MapQuery.inflatedRect; rw [MapQuery.inflateRect_east, hwd, h2]; norm_num
    have e2 : (MapQuery.inflatedRect {} b).west = 1639 / 10 := by
      unfold MapQuery.inflatedRect; rw [MapQuery.inflateRect_west, hwd, h1]; norm_num
    have e3 : (MapQuery.inflatedRect {} b).north =
        min (b.north + (|b.north - b.south| * (3 / 10) + 1 / 10)) 89 := rfl
    have e4 : (MapQuery.inflatedRect {} b).south =
        max (b.south - (|b.north - b.south| * (3 / 10) + 1 / 10)) (-89) := rfl
    rw [e1, e2, e3, e4, if_pos (by norm_num)]

/-- Witness for C4: the box with west 170, east -170, north 10 and south 0
under the initial settings. -/
theorem MapQuery.splitAtAntiMeridian_spec_witness :
    MapQuery.splitAtAntiMeridian {} ⟨10, 0, -170, 170⟩ =
      [⟨131 / 10, -31 / 10, 180, 1639 / 10⟩, ⟨131 / 10, -31 / 10, -1639 / 10, -180⟩] := by
  have h := (MapQuery.splitAtAntiMeridian_spec {} ⟨10, 0, -170, 170⟩ (by norm_num) (by norm_num)
    (by unfold GeoDataLatLonBox.inRange; norm_num)).2 rfl rfl rfl
  rw [h]
  norm_num

/-- C5, counterexample: with the initial settings the viewport with west 170
and east 179.5 contains the point (179.3, 5), but the only box returned by
`splitAtAntiMeridian` ends at the clamp of 179 and does not contain it. -/
theorem MapQuery.splitAtAntiMeridian_misses_point_beyond_clamp :
    (⟨10, 0, 359 / 2, 170⟩ : GeoDataLatLonBox).inRange ∧
      (⟨10, 0, 359 / 2, 170⟩ : GeoDataLatLonBox).containsPoint (1793 / 10) 5 ∧
      MapQuery.splitAtAntiMeridian {} ⟨10, 0, 359 / 2, 170⟩ =
        [⟨131 / 10, -31 / 10, 179, 3341 / 20⟩] ∧
      ¬ ∃ r ∈ MapQuery.splitAtAntiMeridian {} ⟨10, 0, 359 / 2, 170⟩,
          pointInRect r (1793 / 10) 5 := by
  decide!

/-- C5, amended: for non-negative inflation settings and a box that does not
cross the date line, or crosses it and still does after inflation, every point
of the box whose longitude lies in `[-179, 179]` and whose latitude lies in
`[-89, 89]` is contained in at least one of the boxes returned by
`splitAtAntiMeridian`. -/
theorem MapQuery.splitAtAntiMeridian_covers_within_clamp (cfg : QueryRectInflation)
    (b : GeoDataLatLonBox)
    (hf : 0 ≤ cfg.queryRectInflationFactor) (hi : 0 ≤ cfg.queryRectInflationIncrement)
    (hc : b.crossesDateLine = true → (MapQuery.inflatedRect cfg b).crossesDateLine = true)
    (lonx laty : ℚ) (hp : b.containsPoint lonx laty)
    (hlon : -179 ≤ lonx ∧ lonx ≤ 179) (hlat : -89 ≤ laty ∧ laty ≤ 89) :
    ∃ r ∈ MapQuery.splitAtAntiMeridian cfg b, pointInRect r lonx laty := by
  have hw := MapQuery.inflation_width_nonneg cfg b hf hi
  have hh := MapQuery.inflation_height_nonneg cfg b hf hi
  obtain ⟨hs, hn, hl⟩ := hp
  have hS : (MapQuery.inflatedRect cfg b).south ≤ laty := by
    unfold MapQuery.inflatedRect; rw [MapQuery.inflateRect_south]
    exact max_le (by linarith) hlat.1
  have hN : laty ≤ (MapQuery.inflatedRect cfg b).north := by
    unfold MapQuery.inflatedRect; rw [MapQuery.inflateRect_north]
    exact le_min (by linarith) hlat.2
  have hW : b.west ≤ lonx → (MapQuery.inflatedRect cfg b).west ≤ lonx := by
    intro h
    unfold MapQuery.inflatedRect; rw [MapQuery.inflateRect_west]
    exact max_le (by linarith) hlon.1
  have hE : lonx ≤ b.east → lonx ≤ (MapQuery.inflatedRect cfg b).east := by
    intro h
    unfold MapQuery.inflatedRect; rw [MapQuery.inflateRect_east]
    exact le_min (by linarith) hlon.2
  rw [MapQuery.splitAtAntiMeridian_eq]
  by_cases hb : b.crossesDateLine = true
  · have hi2 := hc hb
    simp only [GeoDataLatLonBox.crossesDateLine, decide_eq_true_eq] at hi2
    rw [if_pos hi2]
    rw [if_pos hb] at hl
    rcases hl with h | h
    · exact ⟨_, List.mem_cons_self _ _, ⟨hW h, (le_trans hlon.2 (by norm_num) : lonx ≤ 180)⟩, hS, hN⟩
    · exact ⟨_, List.mem_cons_of_mem _ (List.mem_cons_self _ _),
        ⟨(le_trans (by norm_num) hlon.1 : (-180 : ℚ) ≤ lonx), hE h⟩, hS, hN⟩
  · rw [if_neg hb] at hl
    by_cases hi2 : (MapQuery.inflatedRect cfg b).east < (MapQuery.inflatedRect cfg b).west
    · rw [if_pos hi2]
      exact ⟨_, List.mem_cons_self _ _, ⟨hW hl.1, (le_trans hlon.2 (by norm_num) : lonx ≤ 180)⟩, hS, hN⟩
    · rw [if_neg hi2]
      exact ⟨_, List.mem_cons_self _ _, ⟨hW hl.1, hE hl.2⟩, hS, hN⟩

/-- Witness for the amended C5: the point (178, 5) of the viewport with west
170 and east 179.5 under the initial settings. -/
theorem MapQuery.splitAtAntiMeridian_covers_within_clamp_witness :
    ∃ r ∈ MapQuery.splitAtAntiMeridian {} ⟨10, 0, 359 / 2, 170⟩, pointInRect r 178 5 :=
  MapQuery.splitAtAntiMeridian_covers_within_clamp {} ⟨10, 0, 359 / 2, 170⟩
    (by norm_num) (by norm_num) (by decide!) 178 5 (by decide!) (by norm_num) (by norm_num)

/-! ### Binary geometry decoder -/

theorem QDataStream.read32_wordBytes (v : Nat) (hv : v < 4294967296) (rest : QByteArray)
    (st : QDataStream.Status) :
    QDataStream.read32 ⟨wordBytes v ++ rest, QDataStream.ByteOrder.BigEndian, st⟩ =
      (v, ⟨rest, QDataStream.ByteOrder.BigEndian, st⟩) := by
  simp only [wordBytes, QDataStream.read32, List.cons_append, List.nil_append,
    QDataStream.word32, Prod.mk.injEq, and_true]
  omega

theorem MapQuery.readVertices_acc (size : Nat) (s : QDataStream) (lines : LineString) :
    MapQuery.readVertices size s lines = lines ++ MapQuery.readVertices size s [] := by
  induction size generalizing s lines with
  | zero => simp [MapQuery.readVertices]
  | succ n ih =>
    simp only [MapQuery.readVertices]
    rw [ih, ih _ ([] ++ _)]
    simp

theorem MapQuery.readVertices_length (size : Nat) (s : QDataStream) (lines : LineString) :
    (MapQuery.readVertices size s lines).length = lines.length + size := by
  induction size generalizing s lines with
  | zero => simp [MapQuery.readVertices]
  | succ n ih =>
    simp only [MapQuery.readVertices]
    rw [ih]
    simp
    omega

/-- The decoded shape always has as many vertices as the count field says. -/
theorem MapQuery.decodeVertices_length (vertices : QByteArray) :
    (MapQuery.decodeVertices vertices).length = MapQuery.decodedSize vertices := by
  unfold MapQuery.decodeVertices MapQuery.decodedSize
  simp [MapQuery.readVertices_length]

theorem MapQuery.readVertices_pair (size : Nat) (p : Pos) (hx : p.lonX < 4294967296)
    (hy : p.latY < 4294967296) (rest : QByteArray) (st : QDataStream.Status) :
    MapQuery.readVertices (size + 1) ⟨p.payloadBytes ++ rest, QDataStream.ByteOrder.BigEndian, st⟩ [] =
      p :: MapQuery.readVertices size ⟨rest, QDataStream.ByteOrder.BigEndian, st⟩ [] := by
  simp only [MapQuery.readVertices, Pos.payloadBytes, List.append_assoc]
  rw [QDataStream.read32_wordBytes _ hx]
  simp only
  rw [QDataStream.read32_wordBytes _ hy]
  simp only
  rw [MapQuery.readVertices_acc]
  simp

theorem MapQuery.readVertices_pairs (pairs : List Pos)
    (hp : ∀ p ∈ pairs, p.lonX < 4294967296 ∧ p.latY < 4294967296) (extra : Nat)
    (rest : QByteArray) (st : QDataStream.Status) :
    MapQuery.readVertices (pairs.length + extra)
        ⟨(pairs.map Pos.payloadBytes).flatten ++ rest, QDataStream.ByteOrder.BigEndian, st⟩ [] =
      pairs ++ MapQuery.readVertices extra ⟨rest, QDataStream.ByteOrder.BigEndian, st⟩ [] := by
  induction pairs with
  | nil => simp
  | cons p ps ih =>
    have h1 := hp p (List.mem_cons_self _ _)
    have h2 : ∀ q ∈ ps, q.lonX < 4294967296 ∧ q.latY < 4294967296 :=
      fun q hq => hp q (List.mem_cons_of_mem _ hq)
    have e : (p :: ps).length + extra = (ps.length + extra) + 1 := by simp; omega
    rw [e]
    simp only [List.map_cons, List.flatten_cons, List.append_assoc]
    rw [MapQuery.readVertices_pair _ p h1.1 h1.2, ih h2]
    simp

theorem QDataStream.read32_short (s : QDataStream) (h : s.data.length < 4) :
    s.read32 = (0, { s with data := [], status := QDataStream.Status.ReadPastEnd }) := by
  obtain ⟨data, order, st⟩ := s
  match data, h with
  | [], _ => rfl
  | [_], _ => rfl
  | [_, _], _ => rfl
  | [_, _, _], _ => rfl
  | _ :: _ :: _ :: _ :: _, h => simp at h; omega

theorem MapQuery.readVertices_exhausted (size : Nat) (order : QDataStream.ByteOrder)
    (st : QDataStream.Status) :
    MapQuery.readVertices size ⟨[], order, st⟩ [] = List.replicate size ⟨0, 0⟩ := by
  induction size generalizing st with
  | zero => rfl
  | succ n ih =>
    simp only [MapQuery.readVertices, QDataStream.read32]
    rw [MapQuery.readVertices_acc, ih]
    simp [List.replicate_succ]

theorem MapQuery.readVertices_tail (size : Nat) (tail : QByteArray) (h : tail.length < 8)
    (order : QDataStream.ByteOrder) (st : QDataStream.Status) :
    MapQuery.readVertices (size + 1) ⟨tail, order, st⟩ [] =
      ⟨(QDataStream.read32 ⟨tail, order, st⟩).1, 0⟩ :: List.replicate size ⟨0, 0⟩ := by
  simp only [MapQuery.readVertices]
  have h2 : (QDataStream.read32 ⟨tail, order, st⟩).2.data.length < 4 := by
    match tail, h with
    | [], _ => simp [QDataStream.read32]
    | [_], _ => simp [QDataStream.read32]
    | [_, _], _ => simp [QDataStream.read32]
    | [_, _, _], _ => simp [QDataStream.read32]
    | _ :: _ :: _ :: _ :: rest, h =>
      simp only [QDataStream.read32]
      simp at h
      omega
  rw [QDataStream.read32_short _ h2, MapQuery.readVertices_acc]
  simp only [List.nil_append, List.singleton_append, List.cons.injEq, true_and]
  exact MapQuery.readVertices_exhausted _ _ _

/-- C8, counterexample: the payload declares 2 vertices but holds one
complete pair, (1, 2); the decoded shape has 2 vertices, not 1: the pair and
a vertex (0, 0). -/
theorem MapQuery.decodeVertices_short_payload_keeps_declared_count :
    MapQuery.decodedSize ([0, 0, 0, 2] ++ [0, 0, 0, 1, 0, 0, 0, 2]) = 2 ∧
      MapQuery.decodeVertices ([0, 0, 0, 2] ++ [0, 0, 0, 1, 0, 0, 0, 2]) = [⟨1, 2⟩, ⟨0, 0⟩] ∧
      (MapQuery.decodeVertices ([0, 0, 0, 2] ++ [0, 0, 0, 1, 0, 0, 0, 2])).length ≠ 1 := by
  decide

/-- C8, amended: when the declared count `n` exceeds the number `k` of
complete pairs present after the count field, the decoder still returns a
shape of exactly `n` vertices and raises no error: the `k` available pairs in
order, then a vertex with latitude 0 whose longitude is the word of the next
four bytes if that many are left and 0 otherwise, then `n - k - 1` vertices
(0, 0). -/
theorem MapQuery.decodeVertices_truncated (n : Nat) (pairs : List Pos) (tail : QByteArray)
    (hn : n < 4294967296)
    (hp : ∀ p ∈ pairs, p.lonX < 4294967296 ∧ p.latY < 4294967296)
    (hk : pairs.length < n) (ht : tail.length < 8) :
    MapQuery.decodeVertices (wordBytes n ++ (pairs.map Pos.payloadBytes).flatten ++ tail) =
        pairs ++
          ⟨(QDataStream.read32 ⟨tail, QDataStream.ByteOrder.BigEndian,
              QDataStream.Status.Ok⟩).1, 0⟩ ::
            List.replicate (n - pairs.length - 1) ⟨0, 0⟩ ∧
      (MapQuery.decodeVertices
        (wordBytes n ++ (pairs.map Pos.payloadBytes).flatten ++ tail)).length = n := by
  have key : MapQuery.decodeVertices
      (wordBytes n ++ (pairs.map Pos.payloadBytes).flatten ++ tail) =
        pairs ++
          ⟨(QDataStream.read32 ⟨tail, QDataStream.ByteOrder.BigEndian,
              QDataStream.Status.Ok⟩).1, 0⟩ ::
            List.replicate (n - pairs.length - 1) ⟨0, 0⟩ := by
    unfold MapQuery.decodeVertices QDataStream.readOnly
    simp only [List.append_assoc]
    rw [QDataStream.read32_wordBytes n hn]
    simp only
    have hl : n = pairs.length + ((n - pairs.length - 1) + 1) := by omega
    conv_lhs => rw [hl]
    rw [MapQuery.readVertices_pairs _ hp, MapQuery.readVertices_tail _ _ ht]
  refine ⟨key, ?_⟩
  rw [key]
  simp
  omega

/-- Witness for the amended C8: count 3, the pair (1, 2) and six more bytes. -/
theorem MapQuery.decodeVertices_truncated_witness :
    MapQuery.decodeVertices
        ([0, 0, 0, 3] ++ [0, 0, 0, 1, 0, 0, 0, 2] ++ [0, 0, 0, 9, 0, 5]) =
      [⟨1, 2⟩, ⟨9, 0⟩, ⟨0, 0⟩] :=
  (MapQuery.decodeVertices_truncated 3 [⟨1, 2⟩] [0, 0, 0, 9, 0, 5] (by decide) (by decide)
    (by decide) (by decide)).1

theorem List.exists_eight_of_length {α : Type} (l : List α) (h : 8 ≤ l.length) :
    ∃ a0 a1 a2 a3 a4 a5 a6 a7 t, l = a0 :: a1 :: a2 :: a3 :: a4 :: a5 :: a6 :: a7 :: t := by
  match l, h with
  | a0 :: a1 :: a2 :: a3 :: a4 :: a5 :: a6 :: a7 :: t, _ => exact ⟨a0, a1, a2, a3, a4, a5, a6, a7, t, rfl⟩
  | [], h => simp at h
  | [_], h => simp at h
  | [_, _], h => simp at h
  | [_, _, _], h => simp at h
  | [_, _, _, _], h => simp at h
  | [_, _, _, _, _], h => simp at h
  | [_, _, _, _, _, _], h => simp at h
  | [_, _, _, _, _, _, _], h => simp at h

theorem MapQuery.readVertices_bigEndian (size : Nat) (rest : QByteArray)
    (st : QDataStream.Status) (i : Nat) (hi : i < size) (hlen : 8 * i + 8 ≤ rest.length) :
    (MapQuery.readVertices size ⟨rest, QDataStream.ByteOrder.BigEndian, st⟩ [])[i]? =
      some ⟨bigEndianAt rest (8 * i), bigEndianAt rest (8 * i + 4)⟩ := by
  induction size generalizing rest i with
  | zero => omega
  | succ n ih =>
    obtain ⟨a0, a1, a2, a3, a4, a5, a6, a7, t, rfl⟩ :=
      List.exists_eight_of_length rest (by omega)
    simp only [MapQuery.readVertices, QDataStream.read32, QDataStream.word32]
    rw [MapQuery.readVertices_acc]
    cases i with
    | zero => simp [bigEndianAt]
    | succ j =>
      have hj : 8 * j + 8 ≤ t.length := by simp at hlen; omega
      have e1 : 8 * (j + 1) = 8 * j + 8 := by ring
      simp only [List.nil_append, List.singleton_append, List.getElem?_cons_succ]
      rw [ih t j (by omega) hj, e1]
      simp [bigEndianAt, List.getD_cons_succ]

/-- C9, counterexample: the payload 01 00 00 00 has the decoded vertex count
16777216, not `b0 + 256*b1 + 65536*b2 + 16777216*b3 = 1`. -/
theorem MapQuery.decodedSize_not_littleEndian :
    MapQuery.decodedSize [1, 0, 0, 0] = 16777216 ∧
      MapQuery.decodedSize [1, 0, 0, 0] ≠ 1 + 256 * 0 + 65536 * 0 + 16777216 * 0 := by
  decide

/-- C9, amended: the decoder reads the payload as big-endian.  For a payload
`b0 b1 b2 b3 ...` the decoded vertex count is
`16777216*b0 + 65536*b1 + 256*b2 + b3`, and every coordinate present in the
payload is likewise assembled with its most significant byte first: vertex
`i` holds the words at the offsets `8*i` and `8*i + 4` after the count. -/
theorem MapQuery.decodeVertices_bigEndian (b0 b1 b2 b3 : Fin 256) (rest : QByteArray) :
    MapQuery.decodedSize (b0 :: b1 :: b2 :: b3 :: rest) =
        16777216 * b0.val + 65536 * b1.val + 256 * b2.val + b3.val ∧
      ∀ i, i < MapQuery.decodedSize (b0 :: b1 :: b2 :: b3 :: rest) → 8 * i + 8 ≤ rest.length →
        (MapQuery.decodeVertices (b0 :: b1 :: b2 :: b3 :: rest))[i]? =
          some ⟨bigEndianAt rest (8 * i), bigEndianAt rest (8 * i + 4)⟩ := by
  refine ⟨?_, ?_⟩
  · simp only [MapQuery.decodedSize, QDataStream.readOnly, QDataStream.read32,
      QDataStream.word32]
    ring
  · intro i hi hlen
    simp only [MapQuery.decodedSize, MapQuery.decodeVertices, QDataStream.readOnly,
      QDataStream.read32] at hi ⊢
    exact MapQuery.readVertices_bigEndian _ rest _ i hi hlen

/-- Witness for the amended C9: count 1 and the pair (5, 6). -/
theorem MapQuery.decodeVertices_bigEndian_witness :
    (MapQuery.decodeVertices [0, 0, 0, 1, 0, 0, 0, 5, 0, 0, 0, 6])[0]? =
      some ⟨bigEndianAt [0, 0, 0, 5, 0, 0, 0, 6] (8 * 0),
        bigEndianAt [0, 0, 0, 5, 0, 0, 0, 6] (8 * 0 + 4)⟩ :=
  (MapQuery.decodeVertices_bigEndian 0 0 0 1 [0, 0, 0, 5, 0, 0, 0, 6]).2 0 (by decide) (by decide)

/-! ### Range caches -/

theorem MapQuery.whileNext_snd {R α : Type} (query : SqlQuery) (fill : R → α) (rows : List R)
    (st : List SqlCall × List α) :
    (MapQuery.whileNext query (fun list row => list ++ [fill row]) rows st).2 =
      st.2 ++ rows.map fill := by
  unfold MapQuery.whileNext
  simp only
  induction rows generalizing st with
  | nil => simp
  | cons row rows ih =>
    rw [List.foldl_cons, ih]
    simp

theorem boundValue_append_bind (sql : List SqlCall) (q query : SqlQuery) (p placeholder : String)
    (v : SqlValue) :
    boundValue (sql ++ [SqlCall.bindValue q p v]) query placeholder =
      if q = query ∧ p = placeholder then some v else boundValue sql query placeholder := by
  simp [boundValue, List.foldl_append]

theorem boundValue_append_exec (sql : List SqlCall) (q query : SqlQuery) (placeholder : String) :
    boundValue (sql ++ [SqlCall.exec q]) query placeholder =
      boundValue sql query placeholder := by
  simp [boundValue, List.foldl_append]

/-- The values the four rectangle placeholders hold once the edges of `r` are
bound. -/
theorem boundValues_rect (sql : List SqlCall) (query : SqlQuery) (r : GeoDataLatLonBox)
    (hq : query.placeholders = [":leftx", ":rightx", ":bottomy", ":topy"]) :
    boundValues (sql ++ MapQuery.bindCoordinatePointInRect r query ++ [SqlCall.exec query]) query =
      [some (SqlValue.real r.west), some (SqlValue.real r.east), some (SqlValue.real r.south),
        some (SqlValue.real r.north)] := by
  have e : sql ++ MapQuery.bindCoordinatePointInRect r query ++ [SqlCall.exec query] =
      ((((sql ++ [SqlCall.bindValue query ":leftx" (SqlValue.real r.west)]) ++
        [SqlCall.bindValue query ":rightx" (SqlValue.real r.east)]) ++
        [SqlCall.bindValue query ":bottomy" (SqlValue.real r.south)]) ++
        [SqlCall.bindValue query ":topy" (SqlValue.real r.north)]) ++ [SqlCall.exec query] := by
    simp [MapQuery.bindCoordinatePointInRect]
  rw [e]
  unfold boundValues
  rw [hq]
  simp only [List.map_cons, List.map_nil, boundValue_append_exec, boundValue_append_bind]
  simp

theorem MapQuery.queryRect_snd {R α : Type} (db : SqlDatabase R) (query : SqlQuery)
    (fill : R → α) (st : List SqlCall × List α) (r : GeoDataLatLonBox)
    (hq : query.placeholders = [":leftx", ":rightx", ":bottomy", ":topy"]) :
    (MapQuery.queryRect db query fill st r).2 =
      st.2 ++ (db.select query
        [some (SqlValue.real r.west), some (SqlValue.real r.east), some (SqlValue.real r.south),
          some (SqlValue.real r.north)]).map fill := by
  unfold MapQuery.queryRect
  simp only
  rw [MapQuery.whileNext_snd, boundValues_rect _ _ _ hq]

theorem MapQuery.foldl_queryRect_snd {R α : Type} (db : SqlDatabase R) (query : SqlQuery)
    (fill : R → α) (rects : List GeoDataLatLonBox) (st : List SqlCall × List α)
    (hq : query.placeholders = [":leftx", ":rightx", ":bottomy", ":topy"]) :
    (rects.foldl (MapQuery.queryRect db query fill) st).2 =
      st.2 ++ (rects.map fun r => (db.select query
        [some (SqlValue.real r.west), some (SqlValue.real r.east), some (SqlValue.real r.south),
          some (SqlValue.real r.north)]).map fill).flatten := by
  induction rects generalizing st with
  | nil => simp
  | cons r rs ih =>
    rw [List.foldl_cons, ih, MapQuery.queryRect_snd _ _ _ _ _ hq]
    simp

theorem MapQuery.fetchByRect_lazy {T : MapTypes} {α : Type} (env : Collaborators T)
    (cache : SimpleRectCache T.MapLayer α) (sql : List SqlCall) (rect : GeoDataLatLonBox)
    (mapLayer : T.MapLayer) (same : T.MapLayer → T.MapLayer → Bool) (query : SqlQuery)
    (fill : T.SqlRecord → α) :
    MapQuery.fetchByRect env cache sql rect mapLayer true same query fill = (cache, sql) := by
  simp [MapQuery.fetchByRect, SimpleRectCache.updateCache, SimpleRectCache.validate]

theorem MapQuery.fetchByRect_hit {T : MapTypes} {α : Type} (env : Collaborators T)
    (cache : SimpleRectCache T.MapLayer α) (sql : List SqlCall) (rect : GeoDataLatLonBox)
    (mapLayer : T.MapLayer) (same : T.MapLayer → T.MapLayer → Bool) (query : SqlQuery)
    (fill : T.SqlRecord → α) (hv : cache.isValid env.contains rect mapLayer same = true)
    (hne : cache.list ≠ []) :
    MapQuery.fetchByRect env cache sql rect mapLayer false same query fill = (cache, sql) := by
  simp [MapQuery.fetchByRect, SimpleRectCache.updateCache, SimpleRectCache.validate, hv, hne]

theorem MapQuery.fetchByRect_miss {T : MapTypes} {α : Type} (env : Collaborators T)
    (cache : SimpleRectCache T.MapLayer α) (sql : List SqlCall) (rect : GeoDataLatLonBox)
    (mapLayer : T.MapLayer) (same : T.MapLayer → T.MapLayer → Bool) (query : SqlQuery)
    (fill : T.SqlRecord → α) (hv : cache.isValid env.contains rect mapLayer same = false)
    (hq : query.placeholders = [":leftx", ":rightx", ":bottomy", ":topy"]) :
    (MapQuery.fetchByRect env cache sql rect mapLayer false same query fill).1.list =
      ((MapQuery.splitAtAntiMeridian env.inflation rect).map fun r =>
        (env.db.select query
          [some (SqlValue.real r.west), some (SqlValue.real r.east), some (SqlValue.real r.south),
            some (SqlValue.real r.north)]).map fill).flatten := by
  simp [MapQuery.fetchByRect, SimpleRectCache.updateCache, SimpleRectCache.validate, hv,
    MapQuery.foldl_queryRect_snd _ _ _ _ _ hq]

/-- C10: after a non-lazy fetch that misses, the list stored by `getWaypoints`,
`getVors`, `getNdbs`, `getMarkers`, `getIls` and `getAirways` is the
concatenation, in the order of the rectangles of `splitAtAntiMeridian(rect)`
and then in row order, of the entities of the rows the by-rectangle statement
yields for the edges of each rectangle; nothing of the old list is kept. -/
theorem MapQuery.fetch_miss_replaces_list {T : MapTypes} (env : Collaborators T) (s : MapQuery T)
    (rect : GeoDataLatLonBox) (mapLayer : T.MapLayer) :
    (s.waypointCache.isValid env.contains rect mapLayer env.hasSameQueryParametersWaypoint = false →
      (MapQuery.getWaypoints env s rect mapLayer false).2.waypointCache.list =
        ((MapQuery.splitAtAntiMeridian env.inflation rect).map fun r =>
          (env.db.select SqlQuery.waypointsByRectQuery
            [some (SqlValue.real r.west), some (SqlValue.real r.east),
              some (SqlValue.real r.south), some (SqlValue.real r.north)]).map
            env.fillWaypoint).flatten) ∧
    (s.vorCache.isValid env.contains rect mapLayer env.hasSameQueryParametersVor = false →
      (MapQuery.getVors env s rect mapLayer false).2.vorCache.list =
        ((MapQuery.splitAtAntiMeridian env.inflation rect).map fun r =>
          (env.db.select SqlQuery.vorsByRectQuery
            [some (SqlValue.real r.west), some (SqlValue.real r.east),
              some (SqlValue.real r.south), some (SqlValue.real r.north)]).map
            env.fillVor).flatten) ∧
    (s.ndbCache.isValid env.contains rect mapLayer env.hasSameQueryParametersNdb = false →
      (MapQuery.getNdbs env s rect mapLayer false).2.ndbCache.list =
        ((MapQuery.splitAtAntiMeridian env.inflation rect).map fun r =>
          (env.db.select SqlQuery.ndbsByRectQuery
            [some (SqlValue.real r.west), some (SqlValue.real r.east),
              some (SqlValue.real r.south), some (SqlValue.real r.north)]).map
            env.fillNdb).flatten) ∧
    (s.markerCache.isValid env.contains rect mapLayer env.hasSameQueryParametersMarker = false →
      (MapQuery.getMarkers env s rect mapLayer false).2.markerCache.list =
        ((MapQuery.splitAtAntiMeridian env.inflation rect).map fun r =>
          (env.db.select SqlQuery.markersByRectQuery
            [some (SqlValue.real r.west), some (SqlValue.real r.east),
              some (SqlValue.real r.south), some (SqlValue.real r.north)]).map
            env.fillMarker).flatten) ∧
    (s.ilsCache.isValid env.contains rect mapLayer env.hasSameQueryParametersIls = false →
      (MapQuery.getIls env s rect mapLayer false).2.ilsCache.list =
        ((MapQuery.splitAtAntiMeridian env.inflation rect).map fun r =>
          (env.db.select SqlQuery.ilsByRectQuery
            [some (SqlValue.real r.west), some (SqlValue.real r.east),
              some (SqlValue.real r.south), some (SqlValue.real r.north)]).map
            env.fillIls).flatten) ∧
    (s.airwayCache.isValid env.contains rect mapLayer env.hasSameQueryParametersAirway = false →
      (MapQuery.getAirways env s rect mapLayer false).2.airwayCache.list =
        ((MapQuery.splitAtAntiMeridian env.inflation rect).map fun r =>
          (env.db.select SqlQuery.airwayByRectQuery
            [some (SqlValue.real r.west), some (SqlValue.real r.east),
              some (SqlValue.real r.south), some (SqlValue.real r.north)]).map
            env.fillAirway).flatten) := by
  refine ⟨?_, ?_, ?_, ?_, ?_, ?_⟩ <;> intro hv
  · exact MapQuery.fetchByRect_miss env _ _ _ _ _ _ _ hv rfl
  · exact MapQuery.fetchByRect_miss env _ _ _ _ _ _ _ hv rfl
  · exact MapQuery.fetchByRect_miss env _ _ _ _ _ _ _ hv rfl
  · exact MapQuery.fetchByRect_miss env _ _ _ _ _ _ _ hv rfl
  · exact MapQuery.fetchByRect_miss env _ _ _ _ _ _ _ hv rfl
  · exact MapQuery.fetchByRect_miss env _ _ _ _ _ _ _ hv rfl

/-- Witness for C10: a waypoint cache holding the stale entity 9 for another
map layer; the database yields the rows 1 and 2. -/
theorem MapQuery.fetch_miss_replaces_list_witness :
    (MapQuery.getWaypoints (Sample.env [1, 2] layer.DataSource.ALL)
        { waypointCache := { curRect := some Sample.rect, curMapLayer := some 5, list := [9] } }
        Sample.rect 0 false).2.waypointCache.list = [1, 2] := by
  have h := (MapQuery.fetch_miss_replaces_list (Sample.env [1, 2] layer.DataSource.ALL)
    { waypointCache := { curRect := some Sample.rect, curMapLayer := some 5, list := [9] } }
    Sample.rect 0).1 (by decide!)
  rw [h]
  decide!

theorem MapQuery.fetchAirports_lazy {T : MapTypes} (env : Collaborators T) (s : MapQuery T)
    (rect : GeoDataLatLonBox) (query : SqlQuery) (reverse overview : Bool) :
    MapQuery.fetchAirports env s rect query reverse true overview = (s.airportCache.list, s) := by
  simp [MapQuery.fetchAirports, SimpleRectCache.validate]

/-- C2, counterexample: a lazy `getAirports` on a new `MapQuery` with a map
layer of data source `ALL` calls `bindValue(":minlength", ...)` on
`airportByRectQuery`. -/
theorem MapQuery.getAirports_lazy_binds_minlength :
    (MapQuery.getAirports (Sample.env [] layer.DataSource.ALL) {} Sample.rect 4 true).2.sql =
        [SqlCall.bindValue SqlQuery.airportByRectQuery ":minlength" (SqlValue.int 4)] ∧
      (MapQuery.getAirports (Sample.env [] layer.DataSource.ALL) {} Sample.rect 4 true).2.sql ≠
        ({} : MapQuery Sample.types).sql := by
  decide!

/-- C2, amended: with `lazy = true` no range fetch executes a statement or
iterates rows.  `getWaypoints`, `getVors`, `getNdbs`, `getMarkers`, `getIls`,
`getAirways` and `getAirspaces` make no call on a prepared statement at all;
`getAirports` makes none for the data sources `MEDIUM` and `LARGE` and exactly
one for `ALL`: it binds `:minlength` on `airportByRectQuery`. -/
theorem MapQuery.lazy_fetch_storage_calls {T : MapTypes} (env : Collaborators T) (s : MapQuery T)
    (rect : GeoDataLatLonBox) (mapLayer : T.MapLayer) (types : Nat) (flightPlanAltitude : ℚ) :
    (MapQuery.getWaypoints env s rect mapLayer true).2.sql = s.sql ∧
    (MapQuery.getVors env s rect mapLayer true).2.sql = s.sql ∧
    (MapQuery.getNdbs env s rect mapLayer true).2.sql = s.sql ∧
    (MapQuery.getMarkers env s rect mapLayer true).2.sql = s.sql ∧
    (MapQuery.getIls env s rect mapLayer true).2.sql = s.sql ∧
    (MapQuery.getAirways env s rect mapLayer true).2.sql = s.sql ∧
    (MapQuery.getAirspaces env s rect mapLayer types flightPlanAltitude true).2.sql = s.sql ∧
    (MapQuery.getAirports env s rect mapLayer true).2.sql =
      (match env.getDataSource mapLayer with
        | layer.DataSource.ALL =>
          s.sql ++ [SqlCall.bindValue SqlQuery.airportByRectQuery ":minlength"
            (SqlValue.int (env.getMinRunwayLength mapLayer))]
        | layer.DataSource.MEDIUM => s.sql
        | layer.DataSource.LARGE => s.sql) := by
  refine ⟨?_, ?_, ?_, ?_, ?_, ?_, ?_, ?_⟩
  · simp [MapQuery.getWaypoints, MapQuery.fetchByRect_lazy]
  · simp [MapQuery.getVors, MapQuery.fetchByRect_lazy]
  · simp [MapQuery.getNdbs, MapQuery.fetchByRect_lazy]
  · simp [MapQuery.getMarkers, MapQuery.fetchByRect_lazy]
  · simp [MapQuery.getIls, MapQuery.fetchByRect_lazy]
  · simp [MapQuery.getAirways, MapQuery.fetchByRect_lazy]
  · simp [MapQuery.getAirspaces]
  · unfold MapQuery.getAirports
    cases env.getDataSource mapLayer <;> simp [MapQuery.fetchAirports_lazy]

/-- C3, counterexample: the airspace cache holds the airspace 7 and the
remembered type mask is 1; a lazy `getAirspaces` with type mask 2 returns the
empty list and leaves the empty list stored. -/
theorem MapQuery.getAirspaces_lazy_clears_on_new_types :
    (MapQuery.getAirspaces (Sample.env [] layer.DataSource.ALL)
        { airspaceCache := { curRect := some Sample.rect, curMapLayer := some 0, list := [7] },
          lastAirspaceTypes := 1 }
        Sample.rect 0 2 0 true).1 = [] ∧
      (MapQuery.getAirspaces (Sample.env [] layer.DataSource.ALL)
        { airspaceCache := { curRect := some Sample.rect, curMapLayer := some 0, list := [7] },
          lastAirspaceTypes := 1 }
        Sample.rect 0 2 0 true).2.airspaceCache.list = [] := by
  decide!

/-- C3, amended: with `lazy = true`, `getAirports`, `getWaypoints`, `getVors`,
`getNdbs`, `getMarkers`, `getIls` and `getAirways` return exactly the stored
list and leave it unchanged, whatever the request.  `getAirspaces` does the
same when the type mask equals the remembered one and the flight plan altitude
is not different from the remembered one; when either differs it clears the
stored list and returns the empty list. -/
theorem MapQuery.lazy_fetch_returns_stored {T : MapTypes} (env : Collaborators T) (s : MapQuery T)
    (rect : GeoDataLatLonBox) (mapLayer : T.MapLayer) (types : Nat) (flightPlanAltitude : ℚ) :
    ((MapQuery.getAirports env s rect mapLayer true).1 = s.airportCache.list ∧
      (MapQuery.getAirports env s rect mapLayer true).2.airportCache.list = s.airportCache.list) ∧
    ((MapQuery.getWaypoints env s rect mapLayer true).1 = s.waypointCache.list ∧
      (MapQuery.getWaypoints env s rect mapLayer true).2.waypointCache.list =
        s.waypointCache.list) ∧
    ((MapQuery.getVors env s rect mapLayer true).1 = s.vorCache.list ∧
      (MapQuery.getVors env s rect mapLayer true).2.vorCache.list = s.vorCache.list) ∧
    ((MapQuery.getNdbs env s rect mapLayer true).1 = s.ndbCache.list ∧
      (MapQuery.getNdbs env s rect mapLayer true).2.ndbCache.list = s.ndbCache.list) ∧
    ((MapQuery.getMarkers env s rect mapLayer true).1 = s.markerCache.list ∧
      (MapQuery.getMarkers env s rect mapLayer true).2.markerCache.list = s.markerCache.list) ∧
    ((MapQuery.getIls env s rect mapLayer true).1 = s.ilsCache.list ∧
      (MapQuery.getIls env s rect mapLayer true).2.ilsCache.list = s.ilsCache.list) ∧
    ((MapQuery.getAirways env s rect mapLayer true).1 = s.airwayCache.list ∧
      (MapQuery.getAirways env s rect mapLayer true).2.airwayCache.list = s.airwayCache.list) ∧
    (types = s.lastAirspaceTypes →
      env.almostNotEqual s.lastFlightplanAltitude flightPlanAltitude = false →
      (MapQuery.getAirspaces env s rect mapLayer types flightPlanAltitude true).1 =
          s.airspaceCache.list ∧
        (MapQuery.getAirspaces env s rect mapLayer types flightPlanAltitude true).2.airspaceCache.list =
          s.airspaceCache.list) ∧
    (types ≠ s.lastAirspaceTypes ∨
        env.almostNotEqual s.lastFlightplanAltitude flightPlanAltitude = true →
      (MapQuery.getAirspaces env s rect mapLayer types flightPlanAltitude true).1 = [] ∧
        (MapQuery.getAirspaces env s rect mapLayer types flightPlanAltitude true).2.airspaceCache.list =
          []) := by
  refine ⟨?_, ?_, ?_, ?_, ?_, ?_, ?_, ?_, ?_⟩
  · unfold MapQuery.getAirports
    cases env.getDataSource mapLayer <;>
      simp [MapQuery.fetchAirports_lazy, SimpleRectCache.updateCache]
  · simp [MapQuery.getWaypoints, MapQuery.fetchByRect_lazy]
  · simp [MapQuery.getVors, MapQuery.fetchByRect_lazy]
  · simp [MapQuery.getNdbs, MapQuery.fetchByRect_lazy]
  · simp [MapQuery.getMarkers, MapQuery.fetchByRect_lazy]
  · simp [MapQuery.getIls, MapQuery.fetchByRect_lazy]
  · simp [MapQuery.getAirways, MapQuery.fetchByRect_lazy]
  · intro h1 h2
    simp [MapQuery.getAirspaces, SimpleRectCache.updateCache, SimpleRectCache.validate, h1, h2]
  · intro h
    have hc : (types != s.lastAirspaceTypes ||
        env.almostNotEqual s.lastFlightplanAltitude flightPlanAltitude) = true := by
      rcases h with h | h
      · simp [h]
      · simp [h]
    simp [MapQuery.getAirspaces, SimpleRectCache.updateCache, SimpleRectCache.validate, hc]

/-- Witness for the amended C3: a lazy `getAirspaces` with the remembered type
mask and altitude on a cache filled for another rectangle and map layer. -/
theorem MapQuery.lazy_fetch_returns_stored_witness :
    (MapQuery.getAirspaces (Sample.env [] layer.DataSource.ALL)
        { airspaceCache := { curRect := some ⟨50, 40, 50, 40⟩, curMapLayer := some 3, list := [7] },
          lastAirspaceTypes := 1 }
        Sample.rect 0 1 0 true).1 = [7] :=
  ((MapQuery.lazy_fetch_returns_stored (Sample.env [] layer.DataSource.ALL)
    { airspaceCache := { curRect := some ⟨50, 40, 50, 40⟩, curMapLayer := some 3, list := [7] },
      lastAirspaceTypes := 1 }
    Sample.rect 0 1 0).2.2.2.2.2.2.2.1 (by decide) (by decide!)).1

theorem MapQuery.getWaypoints_hit {T : MapTypes} (env : Collaborators T) (s : MapQuery T)
    (rect : GeoDataLatLonBox) (mapLayer : T.MapLayer) (hne : s.waypointCache.list ≠ [])
    (hv : s.waypointCache.isValid env.contains rect mapLayer
      env.hasSameQueryParametersWaypoint = true) :
    MapQuery.getWaypoints env s rect mapLayer false = (s.waypointCache.list, s) := by
  simp [MapQuery.getWaypoints, MapQuery.fetchByRect_hit env _ _ _ _ _ _ _ hv hne]

theorem MapQuery.getVors_hit {T : MapTypes} (env : Collaborators T) (s : MapQuery T)
    (rect : GeoDataLatLonBox) (mapLayer : T.MapLayer) (hne : s.vorCache.list ≠ [])
    (hv : s.vorCache.isValid env.contains rect mapLayer env.hasSameQueryParametersVor = true) :
    MapQuery.getVors env s rect mapLayer false = (s.vorCache.list, s) := by
  simp [MapQuery.getVors, MapQuery.fetchByRect_hit env _ _ _ _ _ _ _ hv hne]

theorem MapQuery.getNdbs_hit {T : MapTypes} (env : Collaborators T) (s : MapQuery T)
    (rect : GeoDataLatLonBox) (mapLayer : T.MapLayer) (hne : s.ndbCache.list ≠ [])
    (hv : s.ndbCache.isValid env.contains rect mapLayer env.hasSameQueryParametersNdb = true) :
    MapQuery.getNdbs env s rect mapLayer false = (s.ndbCache.list, s) := by
  simp [MapQuery.getNdbs, MapQuery.fetchByRect_hit env _ _ _ _ _ _ _ hv hne]

theorem MapQuery.getMarkers_hit {T : MapTypes} (env : Collaborators T) (s : MapQuery T)
    (rect : GeoDataLatLonBox) (mapLayer : T.MapLayer) (hne : s.markerCache.list ≠ [])
    (hv : s.markerCache.isValid env.contains rect mapLayer
      env.hasSameQueryParametersMarker = true) :
    MapQuery.getMarkers env s rect mapLayer false = (s.markerCache.list, s) := by
  simp [MapQuery.getMarkers, MapQuery.fetchByRect_hit env _ _ _ _ _ _ _ hv hne]

theorem MapQuery.getIls_hit {T : MapTypes} (env : Collaborators T) (s : MapQuery T)
    (rect : GeoDataLatLonBox) (mapLayer : T.MapLayer) (hne : s.ilsCache.list ≠ [])
    (hv : s.ilsCache.isValid env.contains rect mapLayer env.hasSameQueryParametersIls = true) :
    MapQuery.getIls env s rect mapLayer false = (s.ilsCache.list, s) := by
  simp [MapQuery.getIls, MapQuery.fetchByRect_hit env _ _ _ _ _ _ _ hv hne]

theorem MapQuery.getAirways_hit {T : MapTypes} (env : Collaborators T) (s : MapQuery T)
    (rect : GeoDataLatLonBox) (mapLayer : T.MapLayer) (hne : s.airwayCache.list ≠ [])
    (hv : s.airwayCache.isValid env.contains rect mapLayer
      env.hasSameQueryParametersAirway = true) :
    MapQuery.getAirways env s rect mapLayer false = (s.airwayCache.list, s) := by
  simp [MapQuery.getAirways, MapQuery.fetchByRect_hit env _ _ _ _ _ _ _ hv hne]

theorem MapQuery.getAirports_hit {T : MapTypes} (env : Collaborators T) (s : MapQuery T)
    (rect : GeoDataLatLonBox) (mapLayer : T.MapLayer) (hne : s.airportCache.list ≠ [])
    (hv : s.airportCache.isValid env.contains rect mapLayer
      env.hasSameQueryParametersAirport = true) :
    (MapQuery.getAirports env s rect mapLayer false).1 = s.airportCache.list ∧
      (MapQuery.getAirports env s rect mapLayer false).2.airportCache = s.airportCache ∧
      (MapQuery.getAirports env s rect mapLayer false).2.sql =
        (match env.getDataSource mapLayer with
          | layer.DataSource.ALL =>
            s.sql ++ [SqlCall.bindValue SqlQuery.airportByRectQuery ":minlength"
              (SqlValue.int (env.getMinRunwayLength mapLayer))]
          | layer.DataSource.MEDIUM => s.sql
          | layer.DataSource.LARGE => s.sql) := by
  have hu : s.airportCache.updateCache env.contains env.inflation rect mapLayer false
      env.hasSameQueryParametersAirport = s.airportCache := by
    simp [SimpleRectCache.updateCache, hv]
  unfold MapQuery.getAirports
  simp only [hu]
  cases env.getDataSource mapLayer <;>
    simp [MapQuery.fetchAirports, SimpleRectCache.validate, hne]

theorem MapQuery.getAirspaces_hit {T : MapTypes} (env : Collaborators T) (s : MapQuery T)
    (rect : GeoDataLatLonBox) (mapLayer : T.MapLayer) (types : Nat) (flightPlanAltitude : ℚ)
    (hne : s.airspaceCache.list ≠ [])
    (hv : s.airspaceCache.isValid env.contains rect mapLayer
      env.hasSameQueryParametersAirspace = true)
    (ht : types = s.lastAirspaceTypes)
    (ha : env.almostNotEqual s.lastFlightplanAltitude flightPlanAltitude = false) :
    MapQuery.getAirspaces env s rect mapLayer types flightPlanAltitude false =
      (s.airspaceCache.list, s) := by
  simp [MapQuery.getAirspaces, SimpleRectCache.updateCache, SimpleRectCache.validate, hv, ht, ha,
    hne]

theorem MapQuery.getAirspaces_remembers {T : MapTypes} (env : Collaborators T) (s : MapQuery T)
    (rect : GeoDataLatLonBox) (mapLayer : T.MapLayer) (types : Nat) (flightPlanAltitude : ℚ)
    (lazy : Bool) (hrefl : ∀ a, env.almostNotEqual a a = false) :
    types = (MapQuery.getAirspaces env s rect mapLayer types flightPlanAltitude
        lazy).2.lastAirspaceTypes ∧
      env.almostNotEqual (MapQuery.getAirspaces env s rect mapLayer types flightPlanAltitude
        lazy).2.lastFlightplanAltitude flightPlanAltitude = false := by
  by_cases hc : (types != s.lastAirspaceTypes ||
      env.almostNotEqual s.lastFlightplanAltitude flightPlanAltitude) = true
  · simp [MapQuery.getAirspaces, hc, hrefl]
  · have hc2 : (types != s.lastAirspaceTypes ||
        env.almostNotEqual s.lastFlightplanAltitude flightPlanAltitude) = false := by
      simpa using hc
    have hc3 := hc2
    simp only [Bool.or_eq_false_iff, bne_eq_false_iff_eq] at hc3
    simp only [MapQuery.getAirspaces, hc2]
    simp [hc3.1, hc3.2]

/-- C1, counterexample: the database has no waypoint in the rectangle.  The
first non-lazy `getWaypoints` executes one query and returns the empty list;
the cache is then valid for the same rectangle and map layer, yet the second
non-lazy call executes the query again: two executions, not one. -/
theorem MapQuery.getWaypoints_empty_result_queried_again :
    (MapQuery.getWaypoints (Sample.env [] layer.DataSource.ALL) {} Sample.rect 0 false).1 = [] ∧
      (MapQuery.getWaypoints (Sample.env [] layer.DataSource.ALL) {} Sample.rect 0
        false).2.waypointCache.isValid Sample.contains Sample.rect 0 (fun a b => a == b) = true ∧
      execCount (MapQuery.getWaypoints (Sample.env [] layer.DataSource.ALL) {} Sample.rect 0
        false).2.sql = 1 ∧
      execCount (MapQuery.getWaypoints (Sample.env [] layer.DataSource.ALL)
        (MapQuery.getWaypoints (Sample.env [] layer.DataSource.ALL) {} Sample.rect 0 false).2
        Sample.rect 0 false).2.sql = 2 := by
  decide!

/-- C1, amended: when a non-lazy fetch returned at least one entity and is
followed by a second non-lazy fetch for which the cache is valid (its
rectangle lies inside the cached inflated rectangle and its map layer is
equivalent; for airspaces the same type mask and altitude are passed again),
the second call returns a list equal to the one the first call returned and
executes no statement: it leaves the whole state as the first call left it,
calls on prepared statements included.  The one exception is `getAirports`,
which for the data source `ALL` binds `:minlength` again. -/
theorem MapQuery.second_fetch_is_hit {T : MapTypes} (env : Collaborators T) (s : MapQuery T)
    (rect1 rect2 : GeoDataLatLonBox) (layer1 layer2 : T.MapLayer) (types : Nat)
    (flightPlanAltitude : ℚ) :
    ((MapQuery.getWaypoints env s rect1 layer1 false).1 ≠ [] →
      (MapQuery.getWaypoints env s rect1 layer1 false).2.waypointCache.isValid env.contains rect2
        layer2 env.hasSameQueryParametersWaypoint = true →
      MapQuery.getWaypoints env (MapQuery.getWaypoints env s rect1 layer1 false).2 rect2 layer2
        false = MapQuery.getWaypoints env s rect1 layer1 false) ∧
    ((MapQuery.getVors env s rect1 layer1 false).1 ≠ [] →
      (MapQuery.getVors env s rect1 layer1 false).2.vorCache.isValid env.contains rect2
        layer2 env.hasSameQueryParametersVor = true →
      MapQuery.getVors env (MapQuery.getVors env s rect1 layer1 false).2 rect2 layer2
        false = MapQuery.getVors env s rect1 layer1 false) ∧
    ((MapQuery.getNdbs env s rect1 layer1 false).1 ≠ [] →
      (MapQuery.getNdbs env s rect1 layer1 false).2.ndbCache.isValid env.contains rect2
        layer2 env.hasSameQueryParametersNdb = true →
      MapQuery.getNdbs env (MapQuery.getNdbs env s rect1 layer1 false).2 rect2 layer2
        false = MapQuery.getNdbs env s rect1 layer1 false) ∧
    ((MapQuery.getMarkers env s rect1 layer1 false).1 ≠ [] →
      (MapQuery.getMarkers env s rect1 layer1 false).2.markerCache.isValid env.contains rect2
        layer2 env.hasSameQueryParametersMarker = true →
      MapQuery.getMarkers env (MapQuery.getMarkers env s rect1 layer1 false).2 rect2 layer2
        false = MapQuery.getMarkers env s rect1 layer1 false) ∧
    ((MapQuery.getIls env s rect1 layer1 false).1 ≠ [] →
      (MapQuery.getIls env s rect1 layer1 false).2.ilsCache.isValid env.contains rect2
        layer2 env.hasSameQueryParametersIls = true →
      MapQuery.getIls env (MapQuery.getIls env s rect1 layer1 false).2 rect2 layer2
        false = MapQuery.getIls env s rect1 layer1 false) ∧
    ((MapQuery.getAirways env s rect1 layer1 false).1 ≠ [] →
      (MapQuery.getAirways env s rect1 layer1 false).2.airwayCache.isValid env.contains rect2
        layer2 env.hasSameQueryParametersAirway = true →
      MapQuery.getAirways env (MapQuery.getAirways env s rect1 layer1 false).2 rect2 layer2
        false = MapQuery.getAirways env s rect1 layer1 false) ∧
    ((MapQuery.getAirspaces env s rect1 layer1 types flightPlanAltitude false).1 ≠ [] →
      (MapQuery.getAirspaces env s rect1 layer1 types flightPlanAltitude
        false).2.airspaceCache.isValid env.contains rect2 layer2
          env.hasSameQueryParametersAirspace = true →
      (∀ a, env.almostNotEqual a a = false) →
      MapQuery.getAirspaces env
          (MapQuery.getAirspaces env s rect1 layer1 types flightPlanAltitude false).2 rect2 layer2
          types flightPlanAltitude false =
        MapQuery.getAirspaces env s rect1 layer1 types flightPlanAltitude false) ∧
    ((MapQuery.getAirports env s rect1 layer1 false).1 ≠ [] →
      (MapQuery.getAirports env s rect1 layer1 false).2.airportCache.isValid env.contains rect2
        layer2 env.hasSameQueryParametersAirport = true →
      (MapQuery.getAirports env (MapQuery.getAirports env s rect1 layer1 false).2 rect2 layer2
          false).1 = (MapQuery.getAirports env s rect1 layer1 false).1 ∧
        (MapQuery.getAirports env (MapQuery.getAirports env s rect1 layer1 false).2 rect2 layer2
          false).2.sql =
          (match env.getDataSource layer2 with
            | layer.DataSource.ALL =>
              (MapQuery.getAirports env s rect1 layer1 false).2.sql ++
                [SqlCall.bindValue SqlQuery.airportByRectQuery ":minlength"
                  (SqlValue.int (env.getMinRunwayLength layer2))]
            | layer.DataSource.MEDIUM => (MapQuery.getAirports env s rect1 layer1 false).2.sql
            | layer.DataSource.LARGE => (MapQuery.getAirports env s rect1 layer1 false).2.sql)) := by
  refine ⟨?_, ?_, ?_, ?_, ?_, ?_, ?_, ?_⟩
  · intro hne hv
    exact MapQuery.getWaypoints_hit env _ rect2 layer2 hne hv
  · intro hne hv
    exact MapQuery.getVors_hit env _ rect2 layer2 hne hv
  · intro hne hv
    exact MapQuery.getNdbs_hit env _ rect2 layer2 hne hv
  · intro hne hv
    exact MapQuery.getMarkers_hit env _ rect2 layer2 hne hv
  · intro hne hv
    exact MapQuery.getIls_hit env _ rect2 layer2 hne hv
  · intro hne hv
    exact MapQuery.getAirways_hit env _ rect2 layer2 hne hv
  · intro hne hv hrefl
    have hr := MapQuery.getAirspaces_remembers env s rect1 layer1 types flightPlanAltitude false
      hrefl
    exact MapQuery.getAirspaces_hit env _ rect2 layer2 types flightPlanAltitude hne hv hr.1 hr.2
  · intro hne hv
    have h1 : (MapQuery.getAirports env s rect1 layer1 false).1 =
        (MapQuery.getAirports env s rect1 layer1 false).2.airportCache.list := by
      unfold MapQuery.getAirports
      cases env.getDataSource layer1 <;> rfl
    have h := MapQuery.getAirports_hit env _ rect2 layer2 (h1 ▸ hne) hv
    exact ⟨h.1.trans h1.symm, h.2.2⟩

/-- Witness for the amended C1: the database yields the rows 1 and 2; a second
`getWaypoints` for the rectangle from 2 to 8 degrees, inside the first one,
returns the same list and executes nothing. -/
theorem MapQuery.second_fetch_is_hit_witness :
    MapQuery.getWaypoints (Sample.env [1, 2] layer.DataSource.ALL)
        (MapQuery.getWaypoints (Sample.env [1, 2] layer.DataSource.ALL) {} Sample.rect 0 false).2
        ⟨8, 2, 8, 2⟩ 0 false =
      MapQuery.getWaypoints (Sample.env [1, 2] layer.DataSource.ALL) {} Sample.rect 0 false :=
  (MapQuery.second_fetch_is_hit (Sample.env [1, 2] layer.DataSource.ALL) {} Sample.rect
    ⟨8, 2, 8, 2⟩ 0 0 0 0).1 (by decide!) (by decide!)

/-- C11, failing input: a non-lazy `getAirports` at data source `ALL` for a
viewport across the date line.  The request is split into two rectangles; the
statement yields the airports of importance 3, 1 for the first and 2 for the
second, each in descending importance.  Every row is prepended, so the stored
list is 2, 1, 3, which is not in non-decreasing importance. -/
theorem MapQuery.getAirports_split_not_in_draw_order :
    (MapQuery.splitAtAntiMeridian Sample.dateLineEnv.inflation Sample.dateLineRect).length = 2 ∧
      (MapQuery.getAirports Sample.dateLineEnv {} Sample.dateLineRect 0
        false).2.airportCache.list = [2, 1, 3] ∧
      ¬ ((MapQuery.getAirports Sample.dateLineEnv {} Sample.dateLineRect 0
        false).2.airportCache.list).Sorted (fun a b => a ≤ b) := by
  decide!

/-! ### Airspace fetches -/

theorem boundValue_append (a b : List SqlCall) (query : SqlQuery) (placeholder : String) :
    boundValue (a ++ b) query placeholder =
      b.foldl (fun cur c =>
        match c with
        | SqlCall.bindValue q p v => if q = query ∧ p = placeholder then some v else cur
        | _ => cur) (boundValue a query placeholder) := by
  simp [boundValue, List.foldl_append]

/-- Calls that do not bind `placeholder` of `query` leave its value alone. -/
theorem boundValue_append_of_no_bind (a b : List SqlCall) (query : SqlQuery)
    (placeholder : String)
    (h : ∀ c ∈ b, ∀ v, c ≠ SqlCall.bindValue query placeholder v) :
    boundValue (a ++ b) query placeholder = boundValue a query placeholder := by
  rw [boundValue_append]
  generalize boundValue a query placeholder = cur
  induction b generalizing cur with
  | nil => rfl
  | cons c cs ih =>
    rw [List.foldl_cons]
    have hc := h c (List.mem_cons_self _ _)
    have hcs : ∀ c ∈ cs, ∀ v, c ≠ SqlCall.bindValue query placeholder v :=
      fun c hc v => h c (List.mem_cons_of_mem _ hc) v
    cases c with
    | bindValue q p v =>
      by_cases hqp : q = query ∧ p = placeholder
      · exact absurd (by rw [hqp.1, hqp.2]) (hc v)
      · simp only [hqp, if_false]
        exact ih hcs cur
    | exec q => exact ih hcs cur
    | next q => exact ih hcs cur
    | record q => exact ih hcs cur
    | value q col => exact ih hcs cur
    | isNull q col => exact ih hcs cur
    | finish q => exact ih hcs cur

theorem MapQuery.whileNext_fst {R α : Type} (query : SqlQuery) (add : List α → R → List α)
    (rows : List R) (st : List SqlCall × List α) :
    (MapQuery.whileNext query add rows st).1 =
      st.1 ++ ((rows.map fun _ => [SqlCall.next query, SqlCall.record query]).flatten ++
        [SqlCall.next query]) := by
  unfold MapQuery.whileNext
  simp only
  induction rows generalizing st with
  | nil => simp
  | cons row rows ih =>
    rw [List.foldl_cons, ih]
    simp

theorem MapQuery.whileNext_no_bind {R : Type} (query : SqlQuery) (rows : List R) :
    ∀ c ∈ (rows.map fun _ => [SqlCall.next query, SqlCall.record query]).flatten ++
        [SqlCall.next query],
      ∀ q p v, c ≠ SqlCall.bindValue q p v := by
  intro c hc q p v
  simp only [List.mem_append, List.mem_flatten, List.mem_map, List.mem_singleton] at hc
  rcases hc with ⟨l, ⟨_, _, rfl⟩, hl⟩ | rfl
  · simp only [List.mem_cons, List.mem_singleton, List.not_mem_nil, or_false] at hl
    rcases hl with rfl | rfl <;> simp
  · simp

theorem List.sorted_insertionSort_by {α : Type} (f : α → Int) (l : List α) :
    (l.insertionSort (fun a b => f a ≤ f b)).Sorted (fun a b => f a ≤ f b) := by
  haveI : IsTotal α (fun a b => f a ≤ f b) := ⟨fun a b => le_total (f a) (f b)⟩
  haveI : IsTrans α (fun a b => f a ≤ f b) := ⟨fun a b c hab hbc => le_trans hab hbc⟩
  exact List.sorted_insertionSort _ l

theorem SimpleRectCache.updateCache_list {L α : Type} (c : SimpleRectCache L α)
    (contains : GeoDataLatLonBox → GeoDataLatLonBox → Bool) (cfg : QueryRectInflation)
    (rect : GeoDataLatLonBox) (mapLayer : L) (lazy : Bool) (same : L → L → Bool) :
    (c.updateCache contains cfg rect mapLayer lazy same).list = c.list ∨
      (c.updateCache contains cfg rect mapLayer lazy same).list = [] := by
  unfold SimpleRectCache.updateCache
  split_ifs <;> simp

/-- One `getAirspaces` call keeps the stored list sorted by drawing order. -/
theorem MapQuery.getAirspaces_keeps_sorted {T : MapTypes} (env : Collaborators T)
    (s : MapQuery T) (rect : GeoDataLatLonBox) (mapLayer : T.MapLayer) (types : Nat)
    (flightPlanAltitude : ℚ) (lazy : Bool)
    (hs : s.airspaceCache.list.Sorted
      (fun a b => env.airspaceDrawingOrder a ≤ env.airspaceDrawingOrder b)) :
    (MapQuery.getAirspaces env s rect mapLayer types flightPlanAltitude
      lazy).2.airspaceCache.list.Sorted
      (fun a b => env.airspaceDrawingOrder a ≤ env.airspaceDrawingOrder b) := by
  have hu := SimpleRectCache.updateCache_list s.airspaceCache env.contains env.inflation rect
    mapLayer lazy env.hasSameQueryParametersAirspace
  have hu2 : (s.airspaceCache.updateCache env.contains env.inflation rect mapLayer lazy
      env.hasSameQueryParametersAirspace).list.Sorted
      (fun a b => env.airspaceDrawingOrder a ≤ env.airspaceDrawingOrder b) := by
    rcases hu with h | h
    · rw [h]; exact hs
    · rw [h]; exact List.sorted_nil
  simp only [MapQuery.getAirspaces, SimpleRectCache.validate]
  split_ifs <;>
    first
    | exact List.sorted_insertionSort_by _ _
    | exact hu2
    | exact List.sorted_nil

theorem MapQuery.getAirspacesSeq_sorted {T : MapTypes} (env : Collaborators T)
    (reqs : List (AirspaceRequest T)) (s : MapQuery T)
    (hs : s.airspaceCache.list.Sorted
      (fun a b => env.airspaceDrawingOrder a ≤ env.airspaceDrawingOrder b)) :
    (MapQuery.getAirspacesSeq env s reqs).airspaceCache.list.Sorted
      (fun a b => env.airspaceDrawingOrder a ≤ env.airspaceDrawingOrder b) := by
  induction reqs generalizing s with
  | nil => exact hs
  | cons r rs ih =>
    exact ih _ (MapQuery.getAirspaces_keeps_sorted env s _ _ _ _ _ hs)

theorem MapQuery.airspaceQueryAndAlt_placeholders {T : MapTypes} (env : Collaborators T)
    (types : Nat) (flightPlanAltitude : ℚ) :
    (MapQuery.airspaceQueryAndAlt env types flightPlanAltitude).1.placeholders =
        [":leftx", ":rightx", ":bottomy", ":topy", ":type"] ∨
      (MapQuery.airspaceQueryAndAlt env types flightPlanAltitude).1.placeholders =
        [":leftx", ":rightx", ":bottomy", ":topy", ":type", ":alt"] := by
  unfold MapQuery.airspaceQueryAndAlt
  split_ifs <;> simp [SqlQuery.placeholders]

/-- The values the placeholders hold when an inner block executes its
statement. -/
theorem MapQuery.boundValues_airspace (pre sql0 : List SqlCall) (query : SqlQuery) (alt : Int)
    (r : GeoDataLatLonBox) (typeStr : String)
    (hq : query.placeholders = [":leftx", ":rightx", ":bottomy", ":topy", ":type"] ∨
      query.placeholders = [":leftx", ":rightx", ":bottomy", ":topy", ":type", ":alt"])
    (hinv : ¬ alt > 0 → boundValue pre query ":alt" = boundValue sql0 query ":alt") :
    boundValues (pre ++ MapQuery.bindCoordinatePointInRect r query ++
        [SqlCall.bindValue query ":type" (SqlValue.text typeStr)] ++
        (if alt > 0 then [SqlCall.bindValue query ":alt" (SqlValue.int alt)] else []) ++
        [SqlCall.exec query]) query =
      MapQuery.airspaceValues sql0 query alt r typeStr := by
  have e1 : pre ++ MapQuery.bindCoordinatePointInRect r query ++
      [SqlCall.bindValue query ":type" (SqlValue.text typeStr)] =
      ((((pre ++ [SqlCall.bindValue query ":leftx" (SqlValue.real r.west)]) ++
        [SqlCall.bindValue query ":rightx" (SqlValue.real r.east)]) ++
        [SqlCall.bindValue query ":bottomy" (SqlValue.real r.south)]) ++
        [SqlCall.bindValue query ":topy" (SqlValue.real r.north)]) ++
        [SqlCall.bindValue query ":type" (SqlValue.text typeStr)] := by
    simp [MapQuery.bindCoordinatePointInRect]
  rw [e1]
  unfold boundValues MapQuery.airspaceValues
  by_cases ha : alt > 0
  · rw [if_pos ha]
    rcases hq with hq | hq <;> rw [hq] <;>
      simp only [List.map_cons, List.map_nil, boundValue_append_exec, boundValue_append_bind] <;>
      simp [ha]
  · rw [if_neg ha, List.append_nil]
    have hinv' := hinv ha
    rcases hq with hq | hq <;> rw [hq] <;>
      simp only [List.map_cons, List.map_nil, boundValue_append_exec, boundValue_append_bind] <;>
      simp [ha, hinv']

theorem MapQuery.airspaceQueryStep_spec {T : MapTypes} (env : Collaborators T)
    (qa : SqlQuery × Int) (r : GeoDataLatLonBox) (st : List SqlCall × List T.MapAirspace)
    (typeStr : String) (sql0 : List SqlCall)
    (hq : qa.1.placeholders = [":leftx", ":rightx", ":bottomy", ":topy", ":type"] ∨
      qa.1.placeholders = [":leftx", ":rightx", ":bottomy", ":topy", ":type", ":alt"])
    (hinv : ¬ qa.2 > 0 → boundValue st.1 qa.1 ":alt" = boundValue sql0 qa.1 ":alt") :
    (MapQuery.airspaceQueryStep env qa r st typeStr).2 =
        st.2 ++ (env.db.select qa.1 (MapQuery.airspaceValues sql0 qa.1 qa.2 r typeStr)).map
          env.fillAirspace ∧
      (¬ qa.2 > 0 → boundValue (MapQuery.airspaceQueryStep env qa r st typeStr).1 qa.1 ":alt" =
        boundValue sql0 qa.1 ":alt") := by
  unfold MapQuery.airspaceQueryStep
  simp only
  rw [MapQuery.boundValues_airspace st.1 sql0 qa.1 qa.2 r typeStr hq hinv]
  refine ⟨?_, ?_⟩
  · rw [MapQuery.whileNext_snd]
  · intro ha
    rw [MapQuery.whileNext_fst, if_neg ha, List.append_nil]
    rw [boundValue_append_of_no_bind _ _ _ _
      (fun c hc v => MapQuery.whileNext_no_bind qa.1 _ c hc qa.1 ":alt" v)]
    rw [boundValue_append_exec, boundValue_append_bind]
    rw [if_neg (by simp)]
    have e : st.1 ++ MapQuery.bindCoordinatePointInRect r qa.1 =
        (((st.1 ++ [SqlCall.bindValue qa.1 ":leftx" (SqlValue.real r.west)]) ++
          [SqlCall.bindValue qa.1 ":rightx" (SqlValue.real r.east)]) ++
          [SqlCall.bindValue qa.1 ":bottomy" (SqlValue.real r.south)]) ++
          [SqlCall.bindValue qa.1 ":topy" (SqlValue.real r.north)] := by
      simp [MapQuery.bindCoordinatePointInRect]
    rw [e]
    simp only [boundValue_append_bind]
    simp [hinv ha]

theorem MapQuery.airspaceTypes_fold_spec {T : MapTypes} (env : Collaborators T)
    (qa : SqlQuery × Int) (r : GeoDataLatLonBox) (typeStrings : List String)
    (st : List SqlCall × List T.MapAirspace) (sql0 : List SqlCall)
    (hq : qa.1.placeholders = [":leftx", ":rightx", ":bottomy", ":topy", ":type"] ∨
      qa.1.placeholders = [":leftx", ":rightx", ":bottomy", ":topy", ":type", ":alt"])
    (hinv : ¬ qa.2 > 0 → boundValue st.1 qa.1 ":alt" = boundValue sql0 qa.1 ":alt") :
    (typeStrings.foldl (MapQuery.airspaceQueryStep env qa r) st).2 =
        st.2 ++ ((typeStrings.map fun typeStr =>
          env.db.select qa.1 (MapQuery.airspaceValues sql0 qa.1 qa.2 r typeStr)).flatten).map
            env.fillAirspace ∧
      (¬ qa.2 > 0 →
        boundValue (typeStrings.foldl (MapQuery.airspaceQueryStep env qa r) st).1 qa.1 ":alt" =
          boundValue sql0 qa.1 ":alt") := by
  induction typeStrings generalizing st with
  | nil => simpa using hinv
  | cons ts rest ih =>
    have h := MapQuery.airspaceQueryStep_spec env qa r st ts sql0 hq hinv
    have h2 := ih (MapQuery.airspaceQueryStep env qa r st ts) h.2
    rw [List.foldl_cons]
    refine ⟨?_, h2.2⟩
    rw [h2.1, h.1]
    simp

theorem MapQuery.airspaceRects_fold_spec {T : MapTypes} (env : Collaborators T)
    (qa : SqlQuery × Int) (rects : List GeoDataLatLonBox) (typeStrings : List String)
    (st : List SqlCall × List T.MapAirspace) (sql0 : List SqlCall)
    (hq : qa.1.placeholders = [":leftx", ":rightx", ":bottomy", ":topy", ":type"] ∨
      qa.1.placeholders = [":leftx", ":rightx", ":bottomy", ":topy", ":type", ":alt"])
    (hinv : ¬ qa.2 > 0 → boundValue st.1 qa.1 ":alt" = boundValue sql0 qa.1 ":alt") :
    (rects.foldl (fun st r => typeStrings.foldl (MapQuery.airspaceQueryStep env qa r) st) st).2 =
      st.2 ++ ((rects.map fun r => (typeStrings.map fun typeStr =>
        env.db.select qa.1 (MapQuery.airspaceValues sql0 qa.1 qa.2 r typeStr)).flatten).flatten).map
          env.fillAirspace := by
  induction rects generalizing st with
  | nil => simp
  | cons r rest ih =>
    have h := MapQuery.airspaceTypes_fold_spec env qa r typeStrings st sql0 hq hinv
    rw [List.foldl_cons, ih _ h.2, h.1]
    simp

/-- The list a refetch accumulates is the list it started with followed by the
airspaces of the rows fetched. -/
theorem MapQuery.airspaceRefetch_snd {T : MapTypes} (env : Collaborators T)
    (sql : List SqlCall) (list : List T.MapAirspace) (rect : GeoDataLatLonBox) (types : Nat)
    (flightPlanAltitude : ℚ) :
    (MapQuery.airspaceRefetch env (sql, list) rect types flightPlanAltitude).2 =
      list ++ (MapQuery.airspaceRowsFetched env sql rect types flightPlanAltitude).map
        env.fillAirspace := by
  unfold MapQuery.airspaceRefetch MapQuery.airspaceRowsFetched
  exact MapQuery.airspaceRects_fold_spec env _ _ _ (sql, list) sql
    (MapQuery.airspaceQueryAndAlt_placeholders env types flightPlanAltitude) (fun _ => rfl)

/-- In a list sorted by a key, an element with a smaller key stands before
every element with a larger key. -/
theorem List.Sorted.index_lt_of_key_lt {α : Type} (f : α → Int) (l : List α)
    (hs : l.Sorted (fun a b => f a ≤ f b)) (i j : Nat) (hi : i < l.length) (hj : j < l.length)
    (hlt : f l[i] < f l[j]) : i < j := by
  by_contra hij
  rcases Nat.lt_or_eq_of_le (Nat.le_of_not_lt hij) with h | h
  · have := (List.pairwise_iff_getElem.mp hs) j i hj hi h
    omega
  · subst h
    omega

theorem MapQuery.getAirspaces_eq_refetch {T : MapTypes} (env : Collaborators T) (s : MapQuery T)
    (rect : GeoDataLatLonBox) (mapLayer : T.MapLayer) (types : Nat) (flightPlanAltitude : ℚ)
    (hn : types ≠ env.flags.AIRSPACE_NONE)
    (hm : s.airspaceCache.list = [] ∨
      s.airspaceCache.isValid env.contains rect mapLayer env.hasSameQueryParametersAirspace =
        false ∨
      types ≠ s.lastAirspaceTypes ∨
      env.almostNotEqual s.lastFlightplanAltitude flightPlanAltitude = true) :
    (MapQuery.getAirspaces env s rect mapLayer types flightPlanAltitude false).2.airspaceCache.list =
      (MapQuery.airspaceRefetch env (s.sql, []) rect types flightPlanAltitude).2.insertionSort
        (fun a b => env.airspaceDrawingOrder a ≤ env.airspaceDrawingOrder b) := by
  have key : (if (types != s.lastAirspaceTypes ||
        env.almostNotEqual s.lastFlightplanAltitude flightPlanAltitude) = true then
      ({ s.airspaceCache.updateCache env.contains env.inflation rect mapLayer false
          env.hasSameQueryParametersAirspace with list := [] } :
        SimpleRectCache T.MapLayer T.MapAirspace)
      else s.airspaceCache.updateCache env.contains env.inflation rect mapLayer false
        env.hasSameQueryParametersAirspace).list = [] := by
    split_ifs with hc
    · rfl
    · simp only [Bool.or_eq_true, bne_iff_ne, ne_eq, not_or, Decidable.not_not,
        Bool.not_eq_true] at hc
      rcases hm with h | h | h | h
      · rcases SimpleRectCache.updateCache_list s.airspaceCache env.contains env.inflation rect
          mapLayer false env.hasSameQueryParametersAirspace with h2 | h2
        · rw [h2, h]
        · exact h2
      · simp [SimpleRectCache.updateCache, h]
      · exact absurd hc.1 h
      · rw [hc.2] at h; exact absurd h (by simp)
  simp only [MapQuery.getAirspaces, SimpleRectCache.validate, key, List.isEmpty_nil,
    Bool.not_false, Bool.and_self, if_true, hn, ne_eq, not_false_eq_true]
  rfl

/-- C12: starting from an empty airspace cache, after every sequence of
`getAirspaces` calls (lazy or not, hit or miss) the stored list is sorted by
`airspaceDrawingOrder` in non-decreasing order, so an airspace of smaller
drawing order (1) stands before every airspace of larger drawing order (5);
and when the next call refetches, its sorted list is a permutation of the
airspaces of the rows it fetched. -/
theorem MapQuery.getAirspaces_sorted_by_drawing_order {T : MapTypes} (env : Collaborators T)
    (s : MapQuery T) (hs : s.airspaceCache.list = []) (reqs : List (AirspaceRequest T)) :
    (MapQuery.getAirspacesSeq env s reqs).airspaceCache.list.Sorted
        (fun a b => env.airspaceDrawingOrder a ≤ env.airspaceDrawingOrder b) ∧
      (∀ (i j : Nat) (hi : i < (MapQuery.getAirspacesSeq env s reqs).airspaceCache.list.length)
          (hj : j < (MapQuery.getAirspacesSeq env s reqs).airspaceCache.list.length),
        env.airspaceDrawingOrder (MapQuery.getAirspacesSeq env s reqs).airspaceCache.list[i] <
            env.airspaceDrawingOrder (MapQuery.getAirspacesSeq env s reqs).airspaceCache.list[j] →
          i < j) ∧
      (∀ (rect : GeoDataLatLonBox) (mapLayer : T.MapLayer) (types : Nat) (flightPlanAltitude : ℚ),
        types ≠ env.flags.AIRSPACE_NONE →
        ((MapQuery.getAirspacesSeq env s reqs).airspaceCache.list = [] ∨
          (MapQuery.getAirspacesSeq env s reqs).airspaceCache.isValid env.contains rect mapLayer
            env.hasSameQueryParametersAirspace = false ∨
          types ≠ (MapQuery.getAirspacesSeq env s reqs).lastAirspaceTypes ∨
          env.almostNotEqual (MapQuery.getAirspacesSeq env s reqs).lastFlightplanAltitude
            flightPlanAltitude = true) →
        ((MapQuery.getAirspaces env (MapQuery.getAirspacesSeq env s reqs) rect mapLayer types
            flightPlanAltitude false).2.airspaceCache.list).Perm
          ((MapQuery.airspaceRowsFetched env (MapQuery.getAirspacesSeq env s reqs).sql rect types
            flightPlanAltitude).map env.fillAirspace)) := by
  have hsorted := MapQuery.getAirspacesSeq_sorted env reqs s (by rw [hs]; exact List.sorted_nil)
  refine ⟨hsorted, ?_, ?_⟩
  · intro i j hi hj hlt
    exact List.Sorted.index_lt_of_key_lt env.airspaceDrawingOrder _ hsorted i j hi hj hlt
  · intro rect mapLayer types flightPlanAltitude hn hm
    rw [MapQuery.getAirspaces_eq_refetch env _ rect mapLayer types flightPlanAltitude hn hm,
      MapQuery.airspaceRefetch_snd]
    simpa using List.perm_insertionSort _ _

/-- Witness for C12: a database with airspaces of drawing order 3, 1 and 2; a
fetch for the type bits 0 and 2, a lazy call and a call with another type
mask. -/
theorem MapQuery.getAirspaces_sorted_by_drawing_order_witness :
    (MapQuery.getAirspacesSeq (Sample.env [3, 1, 2] layer.DataSource.ALL) {}
      [⟨Sample.rect, 0, 5, 0, false⟩, ⟨Sample.rect, 0, 5, 0, true⟩,
        ⟨Sample.rect, 0, 2, 0, false⟩]).airspaceCache.list.Sorted
      (fun a b => (Sample.env [3, 1, 2] layer.DataSource.ALL).airspaceDrawingOrder a ≤
        (Sample.env [3, 1, 2] layer.DataSource.ALL).airspaceDrawingOrder b) :=
  (MapQuery.getAirspaces_sorted_by_drawing_order (Sample.env [3, 1, 2] layer.DataSource.ALL) {}
    rfl _).1

/-! ### Keyed caches -/

theorem List.find?_eraseP_of_ne {α : Type} (p q : α → Bool) (l : List α)
    (h : ∀ x, q x = true → p x = false) : (l.eraseP q).find? p = l.find? p := by
  induction l with
  | nil => rfl
  | cons a l ih =>
    by_cases hq : q a = true
    · rw [List.eraseP_cons_of_pos hq]
      simp [List.find?_cons, h a hq]
    · rw [List.eraseP_cons_of_neg hq]
      simp only [List.find?_cons, ih]

theorem QCache.contains_eq_isSome_peek {V : Type} (c : QCache V) (key : Int) :
    c.contains key = (c.peek key).isSome := by
  unfold QCache.contains QCache.peek
  induction c.nodes with
  | nil => rfl
  | cons n ns ih =>
    by_cases h : (n.key == key) = true
    · simp [List.find?_cons, h]
    · simp only [List.any_cons, List.find?_cons, ih]
      simp [h]

theorem QCache.object_fst {V : Type} (c : QCache V) (key : Int) :
    (c.object key).1 = c.peek key := by
  unfold QCache.object QCache.peek
  cases c.nodes.find? fun n => n.key == key <;> rfl

theorem List.find?_cons_eraseP_self {α : Type} (p : α → Bool) (l : List α) (n : α)
    (hf : l.find? p = some n) : (n :: l.eraseP p).find? p = some n := by
  have hn : p n = true := List.find?_some hf
  simp [List.find?_cons, hn]

theorem List.perm_cons_eraseP_of_find? {α : Type} (p : α → Bool) (l : List α) (n : α)
    (hf : l.find? p = some n) : (n :: l.eraseP p).Perm l := by
  induction l with
  | nil => simp at hf
  | cons a l ih =>
    by_cases ha : p a = true
    · simp only [List.find?_cons, ha] at hf
      cases hf
      rw [List.eraseP_cons_of_pos ha]
    · simp only [List.find?_cons, ha] at hf
      rw [List.eraseP_cons_of_neg ha]
      exact (List.Perm.swap a n _).trans ((ih hf).cons a)

/-- Reading an object changes the order of use only: every key keeps its
object. -/
theorem QCache.object_peek {V : Type} (c : QCache V) (key key2 : Int) :
    (c.object key).2.peek key2 = c.peek key2 := by
  unfold QCache.object
  cases hf : c.nodes.find? fun n => n.key == key with
  | none => rfl
  | some n =>
    have hn : (n.key == key) = true := by
      have := List.find?_some hf
      simpa using this
    have e : n.key = key := by simpa using hn
    simp only [QCache.peek]
    by_cases hk : key2 = key
    · subst hk
      rw [List.find?_cons_eraseP_self _ _ _ hf, hf]
    · have hne : (n.key == key2) = false := by simp [e, Ne.symm hk]
      simp only [List.find?_cons, hne]
      rw [List.find?_eraseP_of_ne]
      intro x hx
      have e2 : x.key = key := by simpa using hx
      simp [e2, Ne.symm hk]

theorem QCache.object_mx {V : Type} (c : QCache V) (key : Int) : (c.object key).2.mx = c.mx := by
  unfold QCache.object
  cases c.nodes.find? fun n => n.key == key <;> rfl

/-- Reading an object keeps the entries, up to their order. -/
theorem QCache.object_nodes_perm {V : Type} (c : QCache V) (key : Int) :
    (c.object key).2.nodes.Perm c.nodes := by
  unfold QCache.object
  cases hf : c.nodes.find? fun n => n.key == key with
  | none => exact List.Perm.refl _
  | some n => exact List.perm_cons_eraseP_of_find? _ _ _ hf

/-- An insert whose cost does not exceed the maximum cost makes the object
resident. -/
theorem QCache.peek_insert_self {V : Type} (c : QCache V) (key : Int) (obj : V) (cost : Int)
    (h : cost ≤ c.mx) : (c.insert key obj cost).peek key = some obj := by
  unfold QCache.insert
  have hr : (c.remove key).mx = c.mx := rfl
  simp only [hr, not_lt.mpr h, if_false]
  simp [QCache.peek]

/-- An insert whose cost exceeds the maximum cost is rejected: the key is not
resident afterwards. -/
theorem QCache.peek_insert_rejected {V : Type} (c : QCache V) (key : Int) (obj : V) (cost : Int)
    (h : c.mx < cost) : (c.insert key obj cost).peek key = none := by
  unfold QCache.insert
  have hr : (c.remove key).mx = c.mx := rfl
  simp only [hr, gt_iff_lt, h, if_true]
  simp only [QCache.peek, QCache.remove]
  rw [Option.map_eq_none', List.find?_eq_none]
  intro x hx
  simp only [List.mem_filter] at hx
  simpa using hx.2

theorem MapQuery.fetchByAirportId_hit {R α : Type} (db : SqlDatabase R) (cache : QCache (List α))
    (sql : List SqlCall) (query : SqlQuery) (airportId : Int) (reads : R → List SqlCall)
    (fill : R → α) (finish : List α → List α) (v : List α)
    (h : cache.peek airportId = some v) :
    MapQuery.fetchByAirportId db cache sql query airportId reads fill finish =
      (some v, (cache.object airportId).2, sql) := by
  have hc : cache.contains airportId = true := by
    rw [QCache.contains_eq_isSome_peek, h]; rfl
  unfold MapQuery.fetchByAirportId
  simp only [hc, if_true, QCache.object_fst, h]

theorem MapQuery.fetchByAirportId_some {R α : Type} (db : SqlDatabase R)
    (cache : QCache (List α)) (sql : List SqlCall) (query : SqlQuery) (airportId : Int)
    (reads : R → List SqlCall) (fill : R → α) (finish : List α → List α) :
    ∃ v, (MapQuery.fetchByAirportId db cache sql query airportId reads fill finish).1 = some v := by
  unfold MapQuery.fetchByAirportId
  by_cases hc : cache.contains airportId = true
  · simp only [hc, if_true, QCache.object_fst]
    rw [QCache.contains_eq_isSome_peek] at hc
    exact Option.isSome_iff_exists.mp hc
  · simp only [hc]
    exact ⟨_, rfl⟩

theorem MapQuery.fetchByAirportId_resident {R α : Type} (db : SqlDatabase R)
    (cache : QCache (List α)) (sql : List SqlCall) (query : SqlQuery) (airportId : Int)
    (reads : R → List SqlCall) (fill : R → α) (finish : List α → List α) (hmx : 1 ≤ cache.mx) :
    (MapQuery.fetchByAirportId db cache sql query airportId reads fill finish).2.1.peek airportId =
      (MapQuery.fetchByAirportId db cache sql query airportId reads fill finish).1 := by
  unfold MapQuery.fetchByAirportId
  by_cases hc : cache.contains airportId = true
  · simp only [hc, if_true, QCache.object_fst, QCache.object_peek]
  · simp only [hc]
    exact QCache.peek_insert_self _ _ _ _ hmx

/-- A second fetch for an airport id whose list is resident returns that list
and makes no call on a prepared statement. -/
theorem MapQuery.fetchByAirportId_again {R α : Type} (db : SqlDatabase R)
    (cache cache2 : QCache (List α)) (sql sql2 : List SqlCall) (query : SqlQuery)
    (airportId : Int) (reads : R → List SqlCall) (fill : R → α) (finish : List α → List α)
    (h : cache2.peek airportId =
      (MapQuery.fetchByAirportId db cache sql query airportId reads fill finish).1) :
    (MapQuery.fetchByAirportId db cache2 sql2 query airportId reads fill finish).1 =
        (MapQuery.fetchByAirportId db cache sql query airportId reads fill finish).1 ∧
      (MapQuery.fetchByAirportId db cache2 sql2 query airportId reads fill finish).2.2 = sql2 := by
  obtain ⟨v, hv⟩ := MapQuery.fetchByAirportId_some db cache sql query airportId reads fill finish
  rw [hv] at h ⊢
  rw [MapQuery.fetchByAirportId_hit db cache2 sql2 query airportId reads fill finish v h]
  exact ⟨rfl, rfl⟩

/-- The range fetches do not touch the keyed caches. -/
theorem MapQuery.range_fetch_keeps_keyedCaches {T : MapTypes} (env : Collaborators T)
    (s : MapQuery T) (rect : GeoDataLatLonBox) (mapLayer : T.MapLayer) (types : Nat)
    (flightPlanAltitude : ℚ) (lazy : Bool) :
    (MapQuery.getAirports env s rect mapLayer lazy).2.keyedCaches = s.keyedCaches ∧
      (MapQuery.getWaypoints env s rect mapLayer lazy).2.keyedCaches = s.keyedCaches ∧
      (MapQuery.getVors env s rect mapLayer lazy).2.keyedCaches = s.keyedCaches ∧
      (MapQuery.getNdbs env s rect mapLayer lazy).2.keyedCaches = s.keyedCaches ∧
      (MapQuery.getMarkers env s rect mapLayer lazy).2.keyedCaches = s.keyedCaches ∧
      (MapQuery.getIls env s rect mapLayer lazy).2.keyedCaches = s.keyedCaches ∧
      (MapQuery.getAirways env s rect mapLayer lazy).2.keyedCaches = s.keyedCaches ∧
      (MapQuery.getAirspaces env s rect mapLayer types flightPlanAltitude lazy).2.keyedCaches =
        s.keyedCaches := by
  refine ⟨?_, rfl, rfl, rfl, rfl, rfl, rfl, rfl⟩
  unfold MapQuery.getAirports
  cases env.getDataSource mapLayer <;> rfl

/-- C13: for each per-airport fetch (`getRunways`, `getRunwaysForOverview`,
`getAprons`, `getParkingsForAirport`, `getStartPositionsForAirport`,
`getHelipads`, `getTaxiPaths`) and every airport id: in every later state `s2`
in which the list the first call returned is still resident under the id, a
second call returns the same list, empty or not, and makes no call on a
prepared statement.  The list is resident right after the first call when the
maximum cost of the cache is at least 1, and no range fetch touches a keyed
cache. -/
theorem MapQuery.keyed_fetch_again {T : MapTypes} (env : Collaborators T) (s s2 : MapQuery T)
    (airportId : Int) (rect : GeoDataLatLonBox) (mapLayer : T.MapLayer) (types : Nat)
    (flightPlanAltitude : ℚ) (lazy : Bool) :
    ((s2.runwayCache.peek airportId = (MapQuery.getRunways env s airportId).1 →
        (MapQuery.getRunways env s2 airportId).1 = (MapQuery.getRunways env s airportId).1 ∧
          (MapQuery.getRunways env s2 airportId).2.sql = s2.sql) ∧
      (s2.runwayOverwiewCache.peek airportId = (MapQuery.getRunwaysForOverview env s airportId).1 →
        (MapQuery.getRunwaysForOverview env s2 airportId).1 = (MapQuery.getRunwaysForOverview env s airportId).1 ∧
          (MapQuery.getRunwaysForOverview env s2 airportId).2.sql = s2.sql) ∧
      (s2.apronCache.peek airportId = (MapQuery.getAprons env s airportId).1 →
        (MapQuery.getAprons env s2 airportId).1 = (MapQuery.getAprons env s airportId).1 ∧
          (MapQuery.getAprons env s2 airportId).2.sql = s2.sql) ∧
      (s2.parkingCache.peek airportId = (MapQuery.getParkingsForAirport env s airportId).1 →
        (MapQuery.getParkingsForAirport env s2 airportId).1 = (MapQuery.getParkingsForAirport env s airportId).1 ∧
          (MapQuery.getParkingsForAirport env s2 airportId).2.sql = s2.sql) ∧
      (s2.startCache.peek airportId = (MapQuery.getStartPositionsForAirport env s airportId).1 →
        (MapQuery.getStartPositionsForAirport env s2 airportId).1 = (MapQuery.getStartPositionsForAirport env s airportId).1 ∧
          (MapQuery.getStartPositionsForAirport env s2 airportId).2.sql = s2.sql) ∧
      (s2.helipadCache.peek airportId = (MapQuery.getHelipads env s airportId).1 →
        (MapQuery.getHelipads env s2 airportId).1 = (MapQuery.getHelipads env s airportId).1 ∧
          (MapQuery.getHelipads env s2 airportId).2.sql = s2.sql) ∧
      (s2.taxipathCache.peek airportId = (MapQuery.getTaxiPaths env s airportId).1 →
        (MapQuery.getTaxiPaths env s2 airportId).1 = (MapQuery.getTaxiPaths env s airportId).1 ∧
          (MapQuery.getTaxiPaths env s2 airportId).2.sql = s2.sql)) ∧
    ((1 ≤ s.runwayCache.mx →
        (MapQuery.getRunways env s airportId).2.runwayCache.peek airportId =
          (MapQuery.getRunways env s airportId).1) ∧
      (1 ≤ s.runwayOverwiewCache.mx →
        (MapQuery.getRunwaysForOverview env s airportId).2.runwayOverwiewCache.peek airportId =
          (MapQuery.getRunwaysForOverview env s airportId).1) ∧
      (1 ≤ s.apronCache.mx →
        (MapQuery.getAprons env s airportId).2.apronCache.peek airportId =
          (MapQuery.getAprons env s airportId).1) ∧
      (1 ≤ s.parkingCache.mx →
        (MapQuery.getParkingsForAirport env s airportId).2.parkingCache.peek airportId =
          (MapQuery.getParkingsForAirport env s airportId).1) ∧
      (1 ≤ s.startCache.mx →
        (MapQuery.getStartPositionsForAirport env s airportId).2.startCache.peek airportId =
          (MapQuery.getStartPositionsForAirport env s airportId).1) ∧
      (1 ≤ s.helipadCache.mx →
        (MapQuery.getHelipads env s airportId).2.helipadCache.peek airportId =
          (MapQuery.getHelipads env s airportId).1) ∧
      (1 ≤ s.taxipathCache.mx →
        (MapQuery.getTaxiPaths env s airportId).2.taxipathCache.peek airportId =
          (MapQuery.getTaxiPaths env s airportId).1)) ∧
    ((MapQuery.getAirports env s rect mapLayer lazy).2.keyedCaches = s.keyedCaches ∧
      (MapQuery.getWaypoints env s rect mapLayer lazy).2.keyedCaches = s.keyedCaches ∧
      (MapQuery.getVors env s rect mapLayer lazy).2.keyedCaches = s.keyedCaches ∧
      (MapQuery.getNdbs env s rect mapLayer lazy).2.keyedCaches = s.keyedCaches ∧
      (MapQuery.getMarkers env s rect mapLayer lazy).2.keyedCaches = s.keyedCaches ∧
      (MapQuery.getIls env s rect mapLayer lazy).2.keyedCaches = s.keyedCaches ∧
      (MapQuery.getAirways env s rect mapLayer lazy).2.keyedCaches = s.keyedCaches ∧
      (MapQuery.getAirspaces env s rect mapLayer types flightPlanAltitude lazy).2.keyedCaches =
        s.keyedCaches) := by
  refine ⟨⟨?_, ?_, ?_, ?_, ?_, ?_, ?_⟩, ⟨?_, ?_, ?_, ?_, ?_, ?_, ?_⟩,
    MapQuery.range_fetch_keeps_keyedCaches env s rect mapLayer types flightPlanAltitude lazy⟩
  all_goals first
    | exact fun h => MapQuery.fetchByAirportId_again _ _ _ _ _ _ _ _ _ _ h
    | exact fun h => MapQuery.fetchByAirportId_resident _ _ _ _ _ _ _ _ h

/-- Witness for C13: an airport without runways.  The first `getRunways`
returns the empty list; after a range fetch in between, the second call
returns the empty list again and executes nothing. -/
theorem MapQuery.keyed_fetch_again_witness :
    (MapQuery.getRunways (Sample.env [] layer.DataSource.ALL)
        (MapQuery.getWaypoints (Sample.env [] layer.DataSource.ALL)
          (MapQuery.getRunways (Sample.env [] layer.DataSource.ALL) {} 5).2 Sample.rect 0
          false).2 5).1 =
      (MapQuery.getRunways (Sample.env [] layer.DataSource.ALL) {} 5).1 ∧
    (MapQuery.getRunways (Sample.env [] layer.DataSource.ALL)
        (MapQuery.getWaypoints (Sample.env [] layer.DataSource.ALL)
          (MapQuery.getRunways (Sample.env [] layer.DataSource.ALL) {} 5).2 Sample.rect 0
          false).2 5).2.sql =
      (MapQuery.getWaypoints (Sample.env [] layer.DataSource.ALL)
          (MapQuery.getRunways (Sample.env [] layer.DataSource.ALL) {} 5).2 Sample.rect 0
          false).2.sql :=
  (MapQuery.keyed_fetch_again (Sample.env [] layer.DataSource.ALL) {}
    (MapQuery.getWaypoints (Sample.env [] layer.DataSource.ALL)
      (MapQuery.getRunways (Sample.env [] layer.DataSource.ALL) {} 5).2 Sample.rect 0 false).2
    5 Sample.rect 0 0 0 false).1.1 (by decide!)

theorem MapQuery.whileNextReading_snd {R α : Type} (query : SqlQuery)
    (reads : R → List SqlCall) (fill : R → α) (rows : List R) (st : List SqlCall × List α) :
    (MapQuery.whileNextReading query reads fill rows st).2 = st.2 ++ rows.map fill := by
  unfold MapQuery.whileNextReading
  simp only
  induction rows generalizing st with
  | nil => simp
  | cons row rows ih =>
    rw [List.foldl_cons, ih]
    simp

theorem boundValues_airportId (sql : List SqlCall) (query : SqlQuery) (airportId : Int)
    (hq : query.placeholders = [":airportId"]) :
    boundValues (sql ++ [SqlCall.bindValue query ":airportId" (SqlValue.int airportId),
        SqlCall.exec query]) query = [some (SqlValue.int airportId)] := by
  have e : sql ++ [SqlCall.bindValue query ":airportId" (SqlValue.int airportId),
      SqlCall.exec query] =
      (sql ++ [SqlCall.bindValue query ":airportId" (SqlValue.int airportId)]) ++
        [SqlCall.exec query] := by simp
  rw [e]
  unfold boundValues
  rw [hq]
  simp only [List.map_cons, List.map_nil, boundValue_append_exec, boundValue_append_bind]
  simp

/-- A fetch for an airport id that is not resident builds the list from the
rows of the statement for that id and inserts it. -/
theorem MapQuery.fetchByAirportId_miss {R α : Type} (db : SqlDatabase R)
    (cache : QCache (List α)) (sql : List SqlCall) (query : SqlQuery) (airportId : Int)
    (reads : R → List SqlCall) (fill : R → α) (finish : List α → List α)
    (hc : cache.contains airportId = false) (hq : query.placeholders = [":airportId"]) :
    (MapQuery.fetchByAirportId db cache sql query airportId reads fill finish).1 =
        some (finish ((db.select query [some (SqlValue.int airportId)]).map fill)) ∧
      (MapQuery.fetchByAirportId db cache sql query airportId reads fill finish).2.1 =
        cache.insert airportId
          (finish ((db.select query [some (SqlValue.int airportId)]).map fill)) 1 := by
  unfold MapQuery.fetchByAirportId
  simp [hc, MapQuery.whileNextReading_snd, boundValues_airportId _ _ _ hq]

theorem QCache.trimFromLast_subset {V : Type} (m : Int) (l : List (QCache.Node V)) (total : Int) :
    ∀ n ∈ QCache.trimFromLast m l total, n ∈ l := by
  induction l generalizing total with
  | nil => intro n hn; simp [QCache.trimFromLast] at hn
  | cons a l ih =>
    intro n hn
    unfold QCache.trimFromLast at hn
    split_ifs at hn
    · exact List.mem_cons_of_mem _ (ih _ n hn)
    · exact hn

/-- After an insert every entry is the new one or was there before. -/
theorem QCache.mem_insert {V : Type} (c : QCache V) (key : Int) (obj : V) (cost : Int)
    (n : QCache.Node V) (hn : n ∈ (c.insert key obj cost).nodes) :
    n = ⟨key, obj, cost⟩ ∨ n ∈ c.nodes := by
  unfold QCache.insert at hn
  have hrem : ∀ x ∈ (c.remove key).nodes, x ∈ c.nodes := by
    intro x hx
    simp only [QCache.remove, List.mem_filter] at hx
    exact hx.1
  simp only at hn
  split_ifs at hn
  · exact Or.inr (hrem n hn)
  · simp only [List.mem_cons] at hn
    rcases hn with h | h
    · exact Or.inl h
    · simp only [QCache.trim, List.mem_reverse] at h
      have := QCache.trimFromLast_subset _ _ _ n h
      exact Or.inr (hrem n (by simpa using this))

theorem MapQuery.runwayCompare_eq_false_iff {T : MapTypes} (env : Collaborators T)
    (a b : T.MapRunway) :
    MapQuery.runwayCompare env b a = false ↔
      (env.surfaceQuality (env.runwaySurface a) < env.surfaceQuality (env.runwaySurface b) ∨
        (env.surfaceQuality (env.runwaySurface a) = env.surfaceQuality (env.runwaySurface b) ∧
          env.runwayLength a ≤ env.runwayLength b)) := by
  unfold MapQuery.runwayCompare
  simp only
  split_ifs with h
  · simp only [decide_eq_false_iff_not, not_lt]
    constructor
    · intro hl; exact Or.inr ⟨h.symm, hl⟩
    · rintro (hl | ⟨-, hl⟩)
      · omega
      · exact hl
  · simp only [decide_eq_false_iff_not, not_lt]
    constructor
    · intro hl
      rcases lt_or_eq_of_le hl with h2 | h2
      · exact Or.inl h2
      · exact absurd h2.symm h
    · rintro (hl | ⟨he, -⟩)
      · omega
      · omega

theorem MapQuery.runwaysSorted_sorted {T : MapTypes} (env : Collaborators T) (airportId : Int) :
    (MapQuery.runwaysSorted env airportId).Sorted (fun a b =>
      env.surfaceQuality (env.runwaySurface a) < env.surfaceQuality (env.runwaySurface b) ∨
        (env.surfaceQuality (env.runwaySurface a) = env.surfaceQuality (env.runwaySurface b) ∧
          env.runwayLength a ≤ env.runwayLength b)) := by
  haveI : IsTotal T.MapRunway (fun a b => MapQuery.runwayCompare env b a = false) :=
    ⟨fun a b => by
      rw [MapQuery.runwayCompare_eq_false_iff, MapQuery.runwayCompare_eq_false_iff]; omega⟩
  haveI : IsTrans T.MapRunway (fun a b => MapQuery.runwayCompare env b a = false) :=
    ⟨fun a b c => by
      rw [MapQuery.runwayCompare_eq_false_iff, MapQuery.runwayCompare_eq_false_iff,
        MapQuery.runwayCompare_eq_false_iff]; omega⟩
  have h := List.sorted_insertionSort (fun a b => MapQuery.runwayCompare env b a = false)
    ((env.db.select SqlQuery.runwaysQuery [some (SqlValue.int airportId)]).map
      fun row => env.fillRunway row false)
  exact List.Pairwise.imp (fun hab => (MapQuery.runwayCompare_eq_false_iff env _ _).mp hab) h

theorem QCache.peek_eq_some {V : Type} (c : QCache V) (key : Int) (v : V)
    (h : c.peek key = some v) : ∃ n ∈ c.nodes, n.key = key ∧ n.t = v := by
  unfold QCache.peek at h
  cases hf : c.nodes.find? fun n => n.key == key with
  | none => rw [hf] at h; cases h
  | some n =>
    rw [hf] at h
    refine ⟨n, List.mem_of_find?_eq_some hf, ?_, ?_⟩
    · have := List.find?_some hf
      simpa using this
    · simpa using h

/-- C15: in every state whose resident runway lists are lists built by
`getRunways` (as in a new `MapQuery`), `getRunways` returns for every airport
id the sorted list of the runways of that airport's rows: a permutation of
them, ascending by `surfaceQuality(surface)` and, for equal surface quality,
ascending by length; the state it leaves has the same property.  With grass
below asphalt, the rows {grass, 3000}, {asphalt, 2000}, {asphalt, 5000} in any
order give grass-3000, asphalt-2000, asphalt-5000. -/
theorem MapQuery.getRunways_sorted {T : MapTypes} (env : Collaborators T) (s : MapQuery T)
    (airportId : Int)
    (hinv : ∀ n ∈ s.runwayCache.nodes, n.t = MapQuery.runwaysSorted env n.key) :
    (MapQuery.getRunways env s airportId).1 = some (MapQuery.runwaysSorted env airportId) ∧
      (MapQuery.runwaysSorted env airportId).Perm
        ((env.db.select SqlQuery.runwaysQuery [some (SqlValue.int airportId)]).map
          fun row => env.fillRunway row false) ∧
      (MapQuery.runwaysSorted env airportId).Sorted (fun a b =>
        env.surfaceQuality (env.runwaySurface a) < env.surfaceQuality (env.runwaySurface b) ∨
          (env.surfaceQuality (env.runwaySurface a) = env.surfaceQuality (env.runwaySurface b) ∧
            env.runwayLength a ≤ env.runwayLength b)) ∧
      (∀ n ∈ (MapQuery.getRunways env s airportId).2.runwayCache.nodes,
        n.t = MapQuery.runwaysSorted env n.key) ∧
      (∀ rows ∈ [0, 1, 2].permutations,
        (MapQuery.getRunways (Sample.env rows layer.DataSource.ALL) {} 7).1 =
          some [("G", 3000), ("A", 2000), ("A", 5000)]) := by
  refine ⟨?_, List.perm_insertionSort _ _, MapQuery.runwaysSorted_sorted env airportId, ?_, ?_⟩
  · by_cases hc : s.runwayCache.contains airportId = true
    · rw [QCache.contains_eq_isSome_peek] at hc
      obtain ⟨v, hv⟩ := Option.isSome_iff_exists.mp hc
      obtain ⟨n, hn, hk, ht⟩ := QCache.peek_eq_some _ _ _ hv
      have h := MapQuery.fetchByAirportId_hit env.db s.runwayCache s.sql SqlQuery.runwaysQuery
        airportId (fun _ => [SqlCall.record SqlQuery.runwaysQuery])
        (fun row => env.fillRunway row false)
        (fun rs => rs.insertionSort fun a b => MapQuery.runwayCompare env b a = false) v hv
      simp only [MapQuery.getRunways, h]
      rw [← ht, hinv n hn, hk]
    · have hc2 : s.runwayCache.contains airportId = false := by simpa using hc
      have h := MapQuery.fetchByAirportId_miss env.db s.runwayCache s.sql SqlQuery.runwaysQuery
        airportId (fun _ => [SqlCall.record SqlQuery.runwaysQuery])
        (fun row => env.fillRunway row false)
        (fun rs => rs.insertionSort fun a b => MapQuery.runwayCompare env b a = false) hc2 rfl
      simp only [MapQuery.getRunways, h.1]
      rfl
  · intro n hn
    by_cases hc : s.runwayCache.contains airportId = true
    · rw [QCache.contains_eq_isSome_peek] at hc
      obtain ⟨v, hv⟩ := Option.isSome_iff_exists.mp hc
      have h := MapQuery.fetchByAirportId_hit env.db s.runwayCache s.sql SqlQuery.runwaysQuery
        airportId (fun _ => [SqlCall.record SqlQuery.runwaysQuery])
        (fun row => env.fillRunway row false)
        (fun rs => rs.insertionSort fun a b => MapQuery.runwayCompare env b a = false) v hv
      simp only [MapQuery.getRunways, h] at hn
      exact hinv n ((QCache.object_nodes_perm _ _).mem_iff.mp hn)
    · have hc2 : s.runwayCache.contains airportId = false := by simpa using hc
      have h := MapQuery.fetchByAirportId_miss env.db s.runwayCache s.sql SqlQuery.runwaysQuery
        airportId (fun _ => [SqlCall.record SqlQuery.runwaysQuery])
        (fun row => env.fillRunway row false)
        (fun rs => rs.insertionSort fun a b => MapQuery.runwayCompare env b a = false) hc2 rfl
      simp only [MapQuery.getRunways, h.2] at hn
      rcases QCache.mem_insert _ _ _ _ n hn with h2 | h2
      · rw [h2]; rfl
      · exact hinv n h2
  · decide!

/-- Witness for C15: the rows asphalt-5000, grass-3000, asphalt-2000 on a new
`MapQuery`. -/
theorem MapQuery.getRunways_sorted_witness :
    (MapQuery.getRunways (Sample.env [2, 0, 1] layer.DataSource.ALL) {} 7).1 =
      some (MapQuery.runwaysSorted (Sample.env [2, 0, 1] layer.DataSource.ALL) 7) :=
  (MapQuery.getRunways_sorted (Sample.env [2, 0, 1] layer.DataSource.ALL) {} 7
    (by intro n hn; cases hn)).1

theorem QCache.total_of_unit {V : Type} (l : List (QCache.Node V)) (hu : ∀ n ∈ l, n.c = 1) :
    (l.map fun n => n.c).sum = (l.length : Int) := by
  induction l with
  | nil => rfl
  | cons a l ih =>
    have ha := hu a (List.mem_cons_self _ _)
    have hl := ih (fun n hn => hu n (List.mem_cons_of_mem _ hn))
    simp only [List.map_cons, List.sum_cons, List.length_cons, ha, hl]
    push_cast
    ring

theorem QCache.trimFromLast_unit {V : Type} (m : Nat) (r : List (QCache.Node V))
    (hu : ∀ n ∈ r, n.c = 1) :
    QCache.trimFromLast (m : Int) r (r.length : Int) = r.drop (r.length - m) := by
  induction r with
  | nil => simp [QCache.trimFromLast]
  | cons a r ih =>
    have ha := hu a (List.mem_cons_self _ _)
    have hr := ih (fun n hn => hu n (List.mem_cons_of_mem _ hn))
    unfold QCache.trimFromLast
    by_cases h : ((a :: r).length : Int) > (m : Int)
    · rw [if_pos h]
      have e : ((a :: r).length : Int) - a.c = (r.length : Int) := by
        rw [ha]; simp
      rw [e, hr]
      have h2 : m < r.length + 1 := by
        have : ((r.length + 1 : Nat) : Int) > (m : Int) := by simpa using h
        omega
      have e2 : (a :: r).length - m = (r.length - m) + 1 := by simp; omega
      rw [e2, List.drop_succ_cons]
    · rw [if_neg h]
      have h2 : r.length + 1 ≤ m := by
        have : ¬ ((r.length + 1 : Nat) : Int) > (m : Int) := by simpa using h
        omega
      have e2 : (a :: r).length - m = 0 := by simp; omega
      rw [e2, List.drop_zero]

theorem QCache.trim_unit {V : Type} (c : QCache V) (m : Nat) (hu : ∀ n ∈ c.nodes, n.c = 1) :
    (c.trim (m : Int)).nodes = c.nodes.take m := by
  unfold QCache.trim QCache.total
  simp only
  rw [QCache.total_of_unit _ hu]
  have h := QCache.trimFromLast_unit m c.nodes.reverse (fun n hn => hu n (by simpa using hn))
  rw [List.length_reverse] at h
  rw [h, List.drop_reverse, List.reverse_reverse]
  by_cases hm : m ≤ c.nodes.length
  · congr 1
    omega
  · rw [List.take_of_length_le (by omega), List.take_of_length_le (by omega)]

/-- Inserting a new key with cost 1 into a cache of unit costs and maximum
cost `N ≥ 1`: the new entry becomes the most recently used and only the `N - 1`
most recently used of the old entries stay. -/
theorem QCache.insert_unit_new {V : Type} (c : QCache V) (N : Nat) (key : Int) (obj : V)
    (hN : 1 ≤ N) (hmx : c.mx = (N : Int)) (hu : ∀ n ∈ c.nodes, n.c = 1)
    (hk : key ∉ c.keys) :
    (c.insert key obj 1).nodes = ⟨key, obj, 1⟩ :: c.nodes.take (N - 1) ∧
      (c.insert key obj 1).mx = (N : Int) := by
  have hrem : c.remove key = c := by
    unfold QCache.remove
    have : c.nodes.filter (fun n => n.key != key) = c.nodes := by
      rw [List.filter_eq_self]
      intro n hn
      have : n.key ≠ key := fun e => hk (by rw [← e]; exact List.mem_map_of_mem _ hn)
      simpa using this
    rw [this]
  unfold QCache.insert
  simp only [hrem, hmx]
  have h1 : ¬ ((1 : Int) > (N : Int)) := by omega
  rw [if_neg h1]
  have e : (N : Int) - 1 = ((N - 1 : Nat) : Int) := by omega
  rw [e, QCache.trim_unit c (N - 1) hu]
  exact ⟨rfl, hmx⟩

theorem MapQuery.getStartPositionsForAirport_new {T : MapTypes} (env : Collaborators T)
    (s : MapQuery T) (airportId : Int) (hk : airportId ∉ s.startCache.keys) :
    ∃ list, (MapQuery.getStartPositionsForAirport env s airportId).2.startCache =
      s.startCache.insert airportId list 1 := by
  have hc : s.startCache.contains airportId = false := by
    unfold QCache.contains
    rw [List.any_eq_false]
    intro n hn
    have : n.key ≠ airportId := fun e => hk (by rw [← e]; exact List.mem_map_of_mem _ hn)
    simpa using this
  have h := MapQuery.fetchByAirportId_miss env.db s.startCache s.sql SqlQuery.startQuery
    airportId (fun _ => [SqlCall.record SqlQuery.startQuery]) env.fillStart (fun ps => ps) hc rfl
  exact ⟨_, h.2⟩

/-- Requests for distinct new keys on a cache of unit costs and maximum cost
`N ≥ 1` leave the `N` most recently requested keys resident, most recent
first. -/
theorem MapQuery.requestStarts_keys {T : MapTypes} (env : Collaborators T) (N : Nat)
    (hN : 1 ≤ N) (rest pre : List Int) (s : MapQuery T) (hnd : (pre ++ rest).Nodup)
    (hmx : s.startCache.mx = (N : Int)) (hu : ∀ n ∈ s.startCache.nodes, n.c = 1)
    (hkeys : s.startCache.keys = pre.reverse.take N) :
    (MapQuery.requestStarts env s rest).startCache.keys = (pre ++ rest).reverse.take N ∧
      (MapQuery.requestStarts env s rest).startCache.mx = (N : Int) ∧
      ∀ n ∈ (MapQuery.requestStarts env s rest).startCache.nodes, n.c = 1 := by
  induction rest generalizing pre s with
  | nil => simpa [MapQuery.requestStarts] using ⟨hkeys, hmx, hu⟩
  | cons k rest ih =>
    have hk : k ∉ s.startCache.keys := by
      rw [hkeys]
      intro hmem
      have hk1 : k ∈ pre := by simpa using List.mem_of_mem_take hmem
      have := List.nodup_append.mp hnd
      exact this.2.2 hk1 (List.mem_cons_self _ _)
    obtain ⟨list, hl⟩ := MapQuery.getStartPositionsForAirport_new env s k hk
    have hi := QCache.insert_unit_new s.startCache N k list hN hmx hu hk
    have hkeys2 : (MapQuery.getStartPositionsForAirport env s k).2.startCache.keys =
        (pre ++ [k]).reverse.take N := by
      rw [hl]
      unfold QCache.keys
      rw [hi.1]
      have e : s.startCache.nodes.map (fun n => n.key) = pre.reverse.take N := hkeys
      simp only [List.map_cons, List.map_take, e, List.reverse_append, List.reverse_cons,
        List.reverse_nil, List.nil_append, List.singleton_append]
      obtain ⟨M, rfl⟩ : ∃ M, N = M + 1 := ⟨N - 1, by omega⟩
      simp only [Nat.add_sub_cancel, List.take_succ_cons, List.take_take]
      congr 2
      omega
    have hu2 : ∀ n ∈ (MapQuery.getStartPositionsForAirport env s k).2.startCache.nodes,
        n.c = 1 := by
      rw [hl, hi.1]
      intro n hn
      simp only [List.mem_cons] at hn
      rcases hn with h | h
      · rw [h]
      · exact hu n (List.mem_of_mem_take h)
    have hmx2 : (MapQuery.getStartPositionsForAirport env s k).2.startCache.mx = (N : Int) := by
      rw [hl]; exact hi.2
    have := ih (pre ++ [k]) (MapQuery.getStartPositionsForAirport env s k).2
      (by simpa using hnd) hmx2 hu2 hkeys2
    simpa [MapQuery.requestStarts] using this

theorem QCache.contains_eq_true_iff_mem_keys {V : Type} (c : QCache V) (key : Int) :
    c.contains key = true ↔ key ∈ c.keys := by
  unfold QCache.contains QCache.keys
  simp only [List.any_eq_true, List.mem_map]
  constructor
  · rintro ⟨n, hn, hk⟩
    exact ⟨n, hn, by simpa using hk⟩
  · rintro ⟨n, hn, hk⟩
    exact ⟨n, hn, by simpa using hk⟩

/-- C14, counterexample: a start cache of capacity 0.  The first request
inserts its list with cost 1, which exceeds the capacity: the insert is
rejected and the key is not resident afterwards. -/
theorem MapQuery.startCache_capacity_zero_rejects_insert :
    (MapQuery.getStartPositionsForAirport (Sample.env [1] layer.DataSource.ALL)
        { startCache := { mx := 0 } } 1).1 = some [1] ∧
      (MapQuery.getStartPositionsForAirport (Sample.env [1] layer.DataSource.ALL)
        { startCache := { mx := 0 } } 1).2.startCache.contains 1 = false := by
  decide

theorem boundValues_boundaryId (sql : List SqlCall) (boundaryId : Int) :
    boundValues (sql ++
        [SqlCall.bindValue SqlQuery.airspaceLinesByIdQuery ":id" (SqlValue.int boundaryId),
          SqlCall.exec SqlQuery.airspaceLinesByIdQuery,
          SqlCall.next SqlQuery.airspaceLinesByIdQuery]) SqlQuery.airspaceLinesByIdQuery =
      [some (SqlValue.int boundaryId)] := by
  simp [boundValues, boundValue, SqlQuery.placeholders, List.foldl_append]

theorem MapQuery.getAirspaceGeometry_hit {T : MapTypes} (env : Collaborators T) (s : MapQuery T)
    (boundaryId : Int) (v : LineString) (h : s.airspaceLineCache.peek boundaryId = some v) :
    (MapQuery.getAirspaceGeometry env s boundaryId).1 = some v ∧
      (MapQuery.getAirspaceGeometry env s boundaryId).2.sql = s.sql := by
  have hc : s.airspaceLineCache.contains boundaryId = true := by
    rw [QCache.contains_eq_isSome_peek, h]; rfl
  unfold MapQuery.getAirspaceGeometry
  simp [hc, QCache.object_fst, h]

/-- C17, amended: `getAirspaceGeometry` never returns null.  When the boundary
id is not cached and the statement yields no row for it, the result is the
empty vertex sequence and the empty shape is inserted under the id; it is
resident afterwards when the maximum cost of the cache is at least 1 (the
constructor's default is 10000), and a call for an id whose shape is resident
returns that shape and makes no call on a prepared statement. -/
theorem MapQuery.getAirspaceGeometry_never_null {T : MapTypes} (env : Collaborators T)
    (s : MapQuery T) (boundaryId : Int) :
    (∃ lines, (MapQuery.getAirspaceGeometry env s boundaryId).1 = some lines) ∧
      (s.airspaceLineCache.contains boundaryId = false →
        env.db.select SqlQuery.airspaceLinesByIdQuery [some (SqlValue.int boundaryId)] = [] →
        (MapQuery.getAirspaceGeometry env s boundaryId).1 = some [] ∧
          (MapQuery.getAirspaceGeometry env s boundaryId).2.airspaceLineCache =
            s.airspaceLineCache.insert boundaryId [] 1 ∧
          (1 ≤ s.airspaceLineCache.mx →
            (MapQuery.getAirspaceGeometry env s boundaryId).2.airspaceLineCache.peek boundaryId =
              some [])) ∧
      (∀ (s2 : MapQuery T) (lines : LineString),
        s2.airspaceLineCache.peek boundaryId = some lines →
        (MapQuery.getAirspaceGeometry env s2 boundaryId).1 = some lines ∧
          (MapQuery.getAirspaceGeometry env s2 boundaryId).2.sql = s2.sql) := by
  refine ⟨?_, ?_, ?_⟩
  · by_cases hc : s.airspaceLineCache.contains boundaryId = true
    · have hc2 := hc
      rw [QCache.contains_eq_isSome_peek] at hc2
      obtain ⟨v, hv⟩ := Option.isSome_iff_exists.mp hc2
      exact ⟨v, (MapQuery.getAirspaceGeometry_hit env s boundaryId v hv).1⟩
    · unfold MapQuery.getAirspaceGeometry
      simp only [hc]
      exact ⟨_, rfl⟩
  · intro hc hrows
    have e : (MapQuery.getAirspaceGeometry env s boundaryId).1 = some [] ∧
        (MapQuery.getAirspaceGeometry env s boundaryId).2.airspaceLineCache =
          s.airspaceLineCache.insert boundaryId [] 1 := by
      unfold MapQuery.getAirspaceGeometry
      simp [hc, boundValues_boundaryId, hrows]
    refine ⟨e.1, e.2, ?_⟩
    intro hmx
    rw [e.2]
    exact QCache.peek_insert_self _ _ _ _ hmx
  · intro s2 lines h
    exact MapQuery.getAirspaceGeometry_hit env s2 boundaryId lines h

/-- C17, instance: a boundary without a row on a new `MapQuery`. -/
theorem MapQuery.getAirspaceGeometry_never_null_witness :
    (MapQuery.getAirspaceGeometry (Sample.env [] layer.DataSource.ALL) {}
      9).2.airspaceLineCache.peek 9 = some [] :=
  ((MapQuery.getAirspaceGeometry_never_null (Sample.env [] layer.DataSource.ALL) {} 9).2.1
    (by decide) (by decide)).2.2 (by decide)

/-! ### Single-record lookups -/

theorem QCache.object_of_peek_none {V : Type} (c : QCache V) (key : Int)
    (h : c.peek key = none) : c.object key = (none, c) := by
  unfold QCache.peek at h
  unfold QCache.object
  cases hf : c.nodes.find? fun n => n.key == key with
  | none => rfl
  | some n => rw [hf] at h; cases h

/-- C16: `cachedRecord` for an id that is not cached.  If the statement
yields no row, the call returns null and inserts the empty record under the
id; if it yields a row, the call returns that row's record and inserts it.
The record inserted is resident afterwards when the maximum cost of the cache
is at least 1 (a `QCache` is constructed with 100).  A repeated call for an
id whose empty marker is resident returns null, and one for an id whose row
record is resident returns that record; neither makes a call on a prepared
statement. -/
theorem InfoQuery.cachedRecord_spec (db : InfoQuery.Query → Int → List SqlRecord)
    (cache : QCache SqlRecord) (sql : List InfoQuery.Call) (query : InfoQuery.Query) (id : Int) :
    (cache.peek id = none → db query id = [] →
      (InfoQuery.cachedRecord db cache sql query id).1 = none ∧
        (InfoQuery.cachedRecord db cache sql query id).2.1 = cache.insert id SqlRecord.empty 1 ∧
        (1 ≤ cache.mx →
          (InfoQuery.cachedRecord db cache sql query id).2.1.peek id = some SqlRecord.empty)) ∧
      (cache.peek id = some SqlRecord.empty →
        (InfoQuery.cachedRecord db cache sql query id).1 = none ∧
          (InfoQuery.cachedRecord db cache sql query id).2.2 = sql) ∧
      (∀ row rest, cache.peek id = none → db query id = row :: rest →
        (InfoQuery.cachedRecord db cache sql query id).1 = some row ∧
          (InfoQuery.cachedRecord db cache sql query id).2.1 = cache.insert id row 1 ∧
          (1 ≤ cache.mx →
            (InfoQuery.cachedRecord db cache sql query id).2.1.peek id = some row)) ∧
      (∀ row, cache.peek id = some row → row.isEmpty = false →
        (InfoQuery.cachedRecord db cache sql query id).1 = some row ∧
          (InfoQuery.cachedRecord db cache sql query id).2.2 = sql) := by
  refine ⟨?_, ?_, ?_, ?_⟩
  · intro hp hrows
    have e : (InfoQuery.cachedRecord db cache sql query id).1 = none ∧
        (InfoQuery.cachedRecord db cache sql query id).2.1 =
          cache.insert id SqlRecord.empty 1 := by
      unfold InfoQuery.cachedRecord
      simp [QCache.object_of_peek_none _ _ hp, hrows]
    exact ⟨e.1, e.2, fun hmx => by rw [e.2]; exact QCache.peek_insert_self _ _ _ _ hmx⟩
  · intro hp
    unfold InfoQuery.cachedRecord
    simp only [QCache.object_fst, hp]
    exact ⟨rfl, rfl⟩
  · intro row rest hp hrows
    have e : (InfoQuery.cachedRecord db cache sql query id).1 = some row ∧
        (InfoQuery.cachedRecord db cache sql query id).2.1 = cache.insert id row 1 := by
      unfold InfoQuery.cachedRecord
      simp [QCache.object_of_peek_none _ _ hp, hrows]
    exact ⟨e.1, e.2, fun hmx => by rw [e.2]; exact QCache.peek_insert_self _ _ _ _ hmx⟩
  · intro row hp hne
    unfold InfoQuery.cachedRecord
    simp only [QCache.object_fst, hp, hne]
    exact ⟨rfl, rfl⟩

/-- Witness for C16: an id without a row on a new cache; the repeated call on
the cache the first call left returns null and makes no call. -/
theorem InfoQuery.cachedRecord_spec_witness :
    (InfoQuery.cachedRecord (fun _ _ => [])
        (InfoQuery.cachedRecord (fun _ _ => []) {} [] InfoQuery.Query.vorQuery 4).2.1
        (InfoQuery.cachedRecord (fun _ _ => []) {} [] InfoQuery.Query.vorQuery 4).2.2
        InfoQuery.Query.vorQuery 4).2.2 =
      (InfoQuery.cachedRecord (fun _ _ => []) {} [] InfoQuery.Query.vorQuery 4).2.2 :=
  ((InfoQuery.cachedRecord_spec (fun _ _ => [])
    (InfoQuery.cachedRecord (fun _ _ => []) {} [] InfoQuery.Query.vorQuery 4).2.1
    (InfoQuery.cachedRecord (fun _ _ => []) {} [] InfoQuery.Query.vorQuery 4).2.2
    InfoQuery.Query.vorQuery 4).2.1 (by decide)).2


/-! ### Hit test -/

theorem isHit_iff (conv : CoordinateConverter) (xs ys screenDistance : Int) (pos : Pos) :
    isHit conv xs ys screenDistance pos = true ↔
      (conv pos).1 = true ∧
        manhattanDistance (conv pos).2.1 (conv pos).2.2 xs ys < screenDistance := by
  simp [isHit, screenDistanceTo]

theorem insertSortedByDistance_perm {α : Type} (conv : CoordinateConverter) (position : α → Pos)
    (xs ys : Int) (l : List α) (x : α) :
    (insertSortedByDistance conv position xs ys l x).Perm (l ++ [x]) := by
  induction l with
  | nil => exact List.Perm.refl _
  | cons a rest ih =>
    unfold insertSortedByDistance
    split_ifs with h
    · exact @List.perm_append_comm _ [x] (a :: rest)
    · exact ih.cons a

theorem insertSortedByDistance_sorted {α : Type} (conv : CoordinateConverter)
    (position : α → Pos) (xs ys : Int) (l : List α) (x : α)
    (hs : l.Sorted (fun a b =>
      screenDistanceTo conv xs ys (position a) ≤ screenDistanceTo conv xs ys (position b))) :
    (insertSortedByDistance conv position xs ys l x).Sorted (fun a b =>
      screenDistanceTo conv xs ys (position a) ≤ screenDistanceTo conv xs ys (position b)) := by
  induction l with
  | nil => simp [insertSortedByDistance]
  | cons a rest ih =>
    have hs2 := List.sorted_cons.mp hs
    unfold insertSortedByDistance
    split_ifs with h
    · refine List.sorted_cons.mpr ⟨?_, hs⟩
      intro b hb
      rcases List.mem_cons.mp hb with hb | hb
      · subst hb; exact le_of_lt h
      · exact le_trans (le_of_lt h) (hs2.1 b hb)
    · refine List.sorted_cons.mpr ⟨?_, ih hs2.2⟩
      intro b hb
      have hb2 := (insertSortedByDistance_perm conv position xs ys rest x).mem_iff.mp hb
      rcases List.mem_append.mp hb2 with hb3 | hb3
      · exact hs2.1 b hb3
      · have : b = x := by simpa using hb3
        subst this
        exact not_lt.mp h

theorem insertSortedByDistance_filter {α : Type} (conv : CoordinateConverter)
    (position : α → Pos) (xs ys : Int) (l : List α) (x : α) (k : Int)
    (hs : l.Sorted (fun a b =>
      screenDistanceTo conv xs ys (position a) ≤ screenDistanceTo conv xs ys (position b))) :
    (insertSortedByDistance conv position xs ys l x).filter
        (fun e => decide (screenDistanceTo conv xs ys (position e) = k)) =
      (l ++ [x]).filter (fun e => decide (screenDistanceTo conv xs ys (position e) = k)) := by
  induction l with
  | nil => rfl
  | cons a rest ih =>
    have hs2 := List.sorted_cons.mp hs
    unfold insertSortedByDistance
    split_ifs with h
    · by_cases hx : screenDistanceTo conv xs ys (position x) = k
      · have hnil : (a :: rest).filter
            (fun e => decide (screenDistanceTo conv xs ys (position e) = k)) = [] := by
          rw [List.filter_eq_nil_iff]
          intro b hb
          have hab : screenDistanceTo conv xs ys (position a) ≤
              screenDistanceTo conv xs ys (position b) := by
            rcases List.mem_cons.mp hb with hb | hb
            · subst hb; exact le_refl _
            · exact hs2.1 b hb
          simp only [decide_eq_true_eq]
          intro hbk
          rw [hbk, ← hx] at hab
          exact absurd h (not_lt.mpr hab)
        rw [List.filter_append, hnil, List.filter_cons, hnil]
        simp [hx]
      · rw [List.filter_append, List.filter_cons]
        simp [hx]
    · rw [List.cons_append, List.filter_cons, List.filter_cons, ih hs2.2]

theorem foldl_insertSortedByDistance {α : Type} (conv : CoordinateConverter)
    (position : α → Pos) (xs ys : Int) (es found discovered : List α)
    (h : NearestFirst conv position xs ys discovered found) :
    NearestFirst conv position xs ys (discovered ++ es)
      (es.foldl (insertSortedByDistance conv position xs ys) found) := by
  induction es generalizing found discovered with
  | nil => simpa using h
  | cons e es ih =>
    rw [List.foldl_cons]
    have h2 : NearestFirst conv position xs ys (discovered ++ [e])
        (insertSortedByDistance conv position xs ys found e) := by
      refine ⟨insertSortedByDistance_sorted conv position xs ys found e h.1,
        (insertSortedByDistance_perm conv position xs ys found e).trans
          (h.2.1.append_right [e]), ?_⟩
      intro k
      rw [insertSortedByDistance_filter conv position xs ys found e k h.1, List.filter_append,
        List.filter_append, h.2.2 k]
    have h3 := ih _ _ h2
    simpa using h3

theorem NearestFirst.nil {α : Type} (conv : CoordinateConverter) (position : α → Pos)
    (xs ys : Int) : NearestFirst conv position xs ys ([] : List α) [] :=
  ⟨List.sorted_nil, List.Perm.refl _, fun _ => rfl⟩

theorem List.foldl_ite_eq_foldl_filter {α β : Type} (p : α → Bool) (f : β → α → β)
    (l : List α) (b : β) :
    l.foldl (fun b e => if p e then f b e else b) b = (l.filter p).foldl f b := by
  induction l generalizing b with
  | nil => rfl
  | cons a l ih =>
    by_cases h : p a = true
    · simp [List.filter_cons, h, ih]
    · simp [List.filter_cons, h, ih]

theorem MapQuery.nearestInList_eq {α : Type} (conv : CoordinateConverter) (position : α → Pos)
    (cond : α → Bool) (xs ys screenDistance : Int) (list found : List α) :
    MapQuery.nearestInList conv position cond xs ys screenDistance list found =
      (list.reverse.filter
        (fun e => cond e && isHit conv xs ys screenDistance (position e))).foldl
        (insertSortedByDistance conv position xs ys) found := by
  unfold MapQuery.nearestInList
  exact List.foldl_ite_eq_foldl_filter _ _ _ _


theorem MapQuery.nearestInCache_fold {α : Type} (conv : CoordinateConverter)
    (position : α → Pos) (xs ys screenDistance : Int) (ks : List Int) (c : QCache (List α))
    (found : List α) :
    ((ks.foldl
        (fun (st : List α × QCache (List α)) id =>
          let r := st.2.object id
          match r.1 with
          | some list =>
            (list.foldl
              (fun found p =>
                if isHit conv xs ys screenDistance (position p) then
                  insertSortedByDistance conv position xs ys found p
                else found)
              st.1, r.2)
          | none => (st.1, r.2))
        (found, c)).1 =
      ((ks.flatMap fun id => (c.peek id).getD []).filter
        (fun p => isHit conv xs ys screenDistance (position p))).foldl
        (insertSortedByDistance conv position xs ys) found) ∧
    (∀ k, (ks.foldl
        (fun (st : List α × QCache (List α)) id =>
          let r := st.2.object id
          match r.1 with
          | some list =>
            (list.foldl
              (fun found p =>
                if isHit conv xs ys screenDistance (position p) then
                  insertSortedByDistance conv position xs ys found p
                else found)
              st.1, r.2)
          | none => (st.1, r.2))
        (found, c)).2.peek k = c.peek k) ∧
    ((ks.foldl
        (fun (st : List α × QCache (List α)) id =>
          let r := st.2.object id
          match r.1 with
          | some list =>
            (list.foldl
              (fun found p =>
                if isHit conv xs ys screenDistance (position p) then
                  insertSortedByDistance conv position xs ys found p
                else found)
              st.1, r.2)
          | none => (st.1, r.2))
        (found, c)).2.nodes.Perm c.nodes) ∧
    (ks.foldl
        (fun (st : List α × QCache (List α)) id =>
          let r := st.2.object id
          match r.1 with
          | some list =>
            (list.foldl
              (fun found p =>
                if isHit conv xs ys screenDistance (position p) then
                  insertSortedByDistance conv position xs ys found p
                else found)
              st.1, r.2)
          | none => (st.1, r.2))
        (found, c)).2.mx = c.mx := by
  induction ks generalizing c found with
  | nil => exact ⟨rfl, fun _ => rfl, List.Perm.refl _, rfl⟩
  | cons id ks ih =>
    simp only [List.foldl_cons, List.flatMap_cons, List.filter_append, List.foldl_append]
    have hp : ∀ k, (c.object id).2.peek k = c.peek k := fun k => QCache.object_peek c id k
    have hfm : (ks.flatMap fun id2 => ((c.object id).2.peek id2).getD []) =
        ks.flatMap fun id2 => (c.peek id2).getD [] := by
      simp only [hp]
    cases ho : (c.object id).1 with
    | none =>
      have hn : c.peek id = none := by rw [← QCache.object_fst, ho]
      obtain ⟨h1, h2, h3, h4⟩ := ih (c.object id).2 found
      rw [hfm] at h1
      refine ⟨by simpa [hn] using h1, fun k => (h2 k).trans (hp k),
        h3.trans (QCache.object_nodes_perm c id), h4.trans (QCache.object_mx c id)⟩
    | some list =>
      have hn : c.peek id = some list := by rw [← QCache.object_fst, ho]
      obtain ⟨h1, h2, h3, h4⟩ := ih (c.object id).2
        (list.foldl
          (fun found p =>
            if isHit conv xs ys screenDistance (position p) then
              insertSortedByDistance conv position xs ys found p
            else found)
          found)
      rw [hfm] at h1
      have hl := List.foldl_ite_eq_foldl_filter
        (fun p => isHit conv xs ys screenDistance (position p))
        (insertSortedByDistance conv position xs ys) list found
      simp only at hl
      refine ⟨by simpa [hn, ← hl] using h1, fun k => (h2 k).trans (hp k),
        h3.trans (QCache.object_nodes_perm c id), h4.trans (QCache.object_mx c id)⟩

theorem MapQuery.nearestInCache_fst {α : Type} (conv : CoordinateConverter)
    (position : α → Pos) (xs ys screenDistance : Int) (c : QCache (List α)) (found : List α) :
    (MapQuery.nearestInCache conv position xs ys screenDistance c found).1 =
      ((c.keys.flatMap fun id => (c.peek id).getD []).filter
        (fun p => isHit conv xs ys screenDistance (position p))).foldl
        (insertSortedByDistance conv position xs ys) found :=
  (MapQuery.nearestInCache_fold conv position xs ys screenDistance c.keys c found).1

theorem MapQuery.nearestInCache_snd {α : Type} (conv : CoordinateConverter)
    (position : α → Pos) (xs ys screenDistance : Int) (c : QCache (List α)) (found : List α) :
    (∀ k, (MapQuery.nearestInCache conv position xs ys screenDistance c found).2.peek k =
        c.peek k) ∧
      (MapQuery.nearestInCache conv position xs ys screenDistance c found).2.nodes.Perm c.nodes ∧
      (MapQuery.nearestInCache conv position xs ys screenDistance c found).2.mx = c.mx :=
  (MapQuery.nearestInCache_fold conv position xs ys screenDistance c.keys c found).2


theorem MapQuery.nearestAirports_fold {T : MapTypes} (env : Collaborators T)
    (conv : CoordinateConverter) (airportDiagram : Bool) (types : Nat)
    (xs ys screenDistance : Int) (l : List T.MapAirport) (result : MapSearchResult T) :
    l.foldl
        (fun (result : MapSearchResult T) airport =>
          if env.airportIsVisible airport types then
            let result :=
              if isHit conv xs ys screenDistance (env.airportPosition airport) then
                let found :=
                  insertSortedByDistance conv env.airportPosition xs ys result.airports airport
                { result with airports := found }
              else result
            if airportDiagram &&
                isHit conv xs ys screenDistance (env.airportTowerCoords airport) then
              let found :=
                insertSortedByDistance conv env.airportTowerCoords xs ys result.towers airport
              { result with towers := found }
            else result
          else result)
        result =
      { result with
        airports :=
          (l.filter fun a => env.airportIsVisible a types &&
            isHit conv xs ys screenDistance (env.airportPosition a)).foldl
            (insertSortedByDistance conv env.airportPosition xs ys) result.airports
        towers :=
          (l.filter fun a => env.airportIsVisible a types && (airportDiagram &&
            isHit conv xs ys screenDistance (env.airportTowerCoords a))).foldl
            (insertSortedByDistance conv env.airportTowerCoords xs ys) result.towers } := by
  induction l generalizing result with
  | nil => rfl
  | cons a l ih =>
    rw [List.foldl_cons, ih]
    by_cases hv : env.airportIsVisible a types = true <;>
      by_cases hh : isHit conv xs ys screenDistance (env.airportPosition a) = true <;>
      by_cases hd : airportDiagram = true <;>
      by_cases ht : isHit conv xs ys screenDistance (env.airportTowerCoords a) = true <;>
      simp [List.filter_cons, hv, hh, hd, ht]


theorem MapQuery.nearestAirports_eq {T : MapTypes} (env : Collaborators T) (s : MapQuery T)
    (conv : CoordinateConverter) (mapLayer : T.MapLayer) (airportDiagram : Bool) (types : Nat)
    (xs ys screenDistance : Int) (result : MapSearchResult T) :
    MapQuery.nearestAirports env s conv mapLayer airportDiagram types xs ys screenDistance
        result =
      { result with
        airports :=
          if env.isAirport mapLayer && testFlag types env.objectFlags.AIRPORT then
            (s.airportCache.list.reverse.filter fun a => env.airportIsVisible a types &&
              isHit conv xs ys screenDistance (env.airportPosition a)).foldl
              (insertSortedByDistance conv env.airportPosition xs ys) result.airports
          else result.airports
        towers :=
          if env.isAirport mapLayer && testFlag types env.objectFlags.AIRPORT then
            (s.airportCache.list.reverse.filter fun a => env.airportIsVisible a types &&
              (airportDiagram &&
                isHit conv xs ys screenDistance (env.airportTowerCoords a))).foldl
              (insertSortedByDistance conv env.airportTowerCoords xs ys) result.towers
          else result.towers } := by
  unfold MapQuery.nearestAirports
  rw [MapQuery.nearestAirports_fold]
  split_ifs <;> rfl

theorem MapQuery.nearestVors_eq {T : MapTypes} (env : Collaborators T) (s : MapQuery T)
    (conv : CoordinateConverter) (mapLayer : T.MapLayer) (types : Nat)
    (xs ys screenDistance : Int) (result : MapSearchResult T) :
    MapQuery.nearestVors env s conv mapLayer types xs ys screenDistance result =
      { result with
        vors :=
          if env.isVor mapLayer && testFlag types env.objectFlags.VOR then
            MapQuery.nearestInList conv env.vorPosition (fun _ => true) xs ys screenDistance
              s.vorCache.list result.vors
          else result.vors } := by
  unfold MapQuery.nearestVors
  split_ifs <;> rfl

theorem MapQuery.nearestNdbs_eq {T : MapTypes} (env : Collaborators T) (s : MapQuery T)
    (conv : CoordinateConverter) (mapLayer : T.MapLayer) (types : Nat)
    (xs ys screenDistance : Int) (result : MapSearchResult T) :
    MapQuery.nearestNdbs env s conv mapLayer types xs ys screenDistance result =
      { result with
        ndbs :=
          if env.isNdb mapLayer && testFlag types env.objectFlags.NDB then
            MapQuery.nearestInList conv env.ndbPosition (fun _ => true) xs ys screenDistance
              s.ndbCache.list result.ndbs
          else result.ndbs } := by
  unfold MapQuery.nearestNdbs
  split_ifs <;> rfl

theorem MapQuery.nearestWaypoints_eq {T : MapTypes} (env : Collaborators T) (s : MapQuery T)
    (conv : CoordinateConverter) (mapLayer : T.MapLayer) (types : Nat)
    (xs ys screenDistance : Int) (result : MapSearchResult T) :
    MapQuery.nearestWaypoints env s conv mapLayer types xs ys screenDistance result =
      { result with
        waypoints :=
          if env.isWaypoint mapLayer && testFlag types env.objectFlags.WAYPOINT then
            MapQuery.nearestInList conv env.waypointPosition (fun _ => true) xs ys
              screenDistance s.waypointCache.list result.waypoints
          else result.waypoints } := by
  unfold MapQuery.nearestWaypoints
  split_ifs <;> rfl

theorem MapQuery.nearestAirwayWaypoints_eq {T : MapTypes} (env : Collaborators T)
    (s : MapQuery T) (conv : CoordinateConverter) (mapLayer : T.MapLayer) (types : Nat)
    (xs ys screenDistance : Int) (result : MapSearchResult T) :
    MapQuery.nearestAirwayWaypoints env s conv mapLayer types xs ys screenDistance result =
      { result with
        waypoints :=
          if env.isAirwayWaypoint mapLayer then
            MapQuery.nearestInList conv env.waypointPosition
              (fun wp =>
                (env.waypointHasVictorAirways wp && testFlag types env.objectFlags.AIRWAYV) ||
                  (env.waypointHasJetAirways wp && testFlag types env.objectFlags.AIRWAYJ))
              xs ys screenDistance s.waypointCache.list result.waypoints
          else result.waypoints } := by
  unfold MapQuery.nearestAirwayWaypoints
  split_ifs <;> rfl

theorem MapQuery.nearestMarkers_eq {T : MapTypes} (env : Collaborators T) (s : MapQuery T)
    (conv : CoordinateConverter) (mapLayer : T.MapLayer) (types : Nat)
    (xs ys screenDistance : Int) (result : MapSearchResult T) :
    MapQuery.nearestMarkers env s conv mapLayer types xs ys screenDistance result =
      { result with
        markers :=
          if env.isMarker mapLayer && testFlag types env.objectFlags.MARKER then
            MapQuery.nearestInList conv env.markerPosition (fun _ => true) xs ys screenDistance
              s.markerCache.list result.markers
          else result.markers } := by
  unfold MapQuery.nearestMarkers
  split_ifs <;> rfl

theorem MapQuery.nearestIls_eq {T : MapTypes} (env : Collaborators T) (s : MapQuery T)
    (conv : CoordinateConverter) (mapLayer : T.MapLayer) (types : Nat)
    (xs ys screenDistance : Int) (result : MapSearchResult T) :
    MapQuery.nearestIls env s conv mapLayer types xs ys screenDistance result =
      { result with
        ils :=
          if env.isIls mapLayer && testFlag types env.objectFlags.ILS then
            MapQuery.nearestInList conv env.ilsPosition (fun _ => true) xs ys screenDistance
              s.ilsCache.list result.ils
          else result.ils } := by
  unfold MapQuery.nearestIls
  split_ifs <;> rfl

theorem MapQuery.nearestParkingsAndHelipads_eq {T : MapTypes} (env : Collaborators T)
    (s : MapQuery T) (conv : CoordinateConverter) (mapLayer : T.MapLayer)
    (airportDiagram : Bool) (types : Nat) (xs ys screenDistance : Int)
    (result : MapSearchResult T) :
    MapQuery.nearestParkingsAndHelipads env s conv mapLayer airportDiagram types xs ys
        screenDistance result =
      ({ result with
          parkings :=
            if env.isAirport mapLayer && testFlag types env.objectFlags.AIRPORT &&
                airportDiagram then
              (MapQuery.nearestInCache conv env.parkingPosition xs ys screenDistance
                s.parkingCache result.parkings).1
            else result.parkings
          helipads :=
            if env.isAirport mapLayer && testFlag types env.objectFlags.AIRPORT &&
                airportDiagram then
              (MapQuery.nearestInCache conv (fun (h : MapHelipad) => h.position) xs ys
                screenDistance s.helipadCache result.helipads).1
            else result.helipads },
        if env.isAirport mapLayer && testFlag types env.objectFlags.AIRPORT &&
            airportDiagram then
          { s with
            parkingCache :=
              (MapQuery.nearestInCache conv env.parkingPosition xs ys screenDistance
                s.parkingCache result.parkings).2
            helipadCache :=
              (MapQuery.nearestInCache conv (fun (h : MapHelipad) => h.position) xs ys
                screenDistance s.helipadCache result.helipads).2 }
        else s) := by
  unfold MapQuery.nearestParkingsAndHelipads
  split_ifs <;> rfl


/-- The result lists and the state of `getNearestObjects`, loop by loop. -/
theorem MapQuery.getNearestObjects_eq {T : MapTypes} (env : Collaborators T) (s : MapQuery T)
    (conv : CoordinateConverter) (mapLayer : T.MapLayer) (airportDiagram : Bool) (types : Nat)
    (xs ys screenDistance : Int) (result : MapSearchResult T) :
    MapQuery.getNearestObjects env s conv mapLayer airportDiagram types xs ys screenDistance
        result =
      ({ airports :=
          if env.isAirport mapLayer && testFlag types env.objectFlags.AIRPORT then
            (s.airportCache.list.reverse.filter fun a => env.airportIsVisible a types &&
              isHit conv xs ys screenDistance (env.airportPosition a)).foldl
              (insertSortedByDistance conv env.airportPosition xs ys) result.airports
          else result.airports
         towers :=
          if env.isAirport mapLayer && testFlag types env.objectFlags.AIRPORT then
            (s.airportCache.list.reverse.filter fun a => env.airportIsVisible a types &&
              (airportDiagram &&
                isHit conv xs ys screenDistance (env.airportTowerCoords a))).foldl
              (insertSortedByDistance conv env.airportTowerCoords xs ys) result.towers
          else result.towers
         vors :=
          if env.isVor mapLayer && testFlag types env.objectFlags.VOR then
            MapQuery.nearestInList conv env.vorPosition (fun _ => true) xs ys screenDistance
              s.vorCache.list result.vors
          else result.vors
         ndbs :=
          if env.isNdb mapLayer && testFlag types env.objectFlags.NDB then
            MapQuery.nearestInList conv env.ndbPosition (fun _ => true) xs ys screenDistance
              s.ndbCache.list result.ndbs
          else result.ndbs
         waypoints :=
          if env.isAirwayWaypoint mapLayer then
            MapQuery.nearestInList conv env.waypointPosition
              (fun wp =>
                (env.waypointHasVictorAirways wp && testFlag types env.objectFlags.AIRWAYV) ||
                  (env.waypointHasJetAirways wp && testFlag types env.objectFlags.AIRWAYJ))
              xs ys screenDistance s.waypointCache.list
              (if env.isWaypoint mapLayer && testFlag types env.objectFlags.WAYPOINT then
                MapQuery.nearestInList conv env.waypointPosition (fun _ => true) xs ys
                  screenDistance s.waypointCache.list result.waypoints
              else result.waypoints)
          else
            if env.isWaypoint mapLayer && testFlag types env.objectFlags.WAYPOINT then
              MapQuery.nearestInList conv env.waypointPosition (fun _ => true) xs ys
                screenDistance s.waypointCache.list result.waypoints
            else result.waypoints
         markers :=
          if env.isMarker mapLayer && testFlag types env.objectFlags.MARKER then
            MapQuery.nearestInList conv env.markerPosition (fun _ => true) xs ys screenDistance
              s.markerCache.list result.markers
          else result.markers
         ils :=
          if env.isIls mapLayer && testFlag types env.objectFlags.ILS then
            MapQuery.nearestInList conv env.ilsPosition (fun _ => true) xs ys screenDistance
              s.ilsCache.list result.ils
          else result.ils
         parkings :=
          if env.isAirport mapLayer && testFlag types env.objectFlags.AIRPORT &&
              airportDiagram then
            (MapQuery.nearestInCache conv env.parkingPosition xs ys screenDistance
              s.parkingCache result.parkings).1
          else result.parkings
         helipads :=
          if env.isAirport mapLayer && testFlag types env.objectFlags.AIRPORT &&
              airportDiagram then
            (MapQuery.nearestInCache conv (fun (h : MapHelipad) => h.position) xs ys
              screenDistance s.helipadCache result.helipads).1
          else result.helipads },
       if env.isAirport mapLayer && testFlag types env.objectFlags.AIRPORT &&
           airportDiagram then
         { s with
           parkingCache :=
             (MapQuery.nearestInCache conv env.parkingPosition xs ys screenDistance
               s.parkingCache result.parkings).2
           helipadCache :=
             (MapQuery.nearestInCache conv (fun (h : MapHelipad) => h.position) xs ys
               screenDistance s.helipadCache result.helipads).2 }
       else s) := by
  unfold MapQuery.getNearestObjects
  simp only [MapQuery.nearestAirports_eq, MapQuery.nearestVors_eq, MapQuery.nearestNdbs_eq,
    MapQuery.nearestWaypoints_eq, MapQuery.nearestAirwayWaypoints_eq, MapQuery.nearestMarkers_eq,
    MapQuery.nearestIls_eq, MapQuery.nearestParkingsAndHelipads_eq]


theorem MapQuery.nearestInList_nearestFirst {α : Type} (conv : CoordinateConverter)
    (position : α → Pos) (cond : α → Bool) (xs ys screenDistance : Int)
    (list discovered found : List α) (h : NearestFirst conv position xs ys discovered found) :
    NearestFirst conv position xs ys
      (discovered ++ list.reverse.filter
        (fun e => cond e && isHit conv xs ys screenDistance (position e)))
      (MapQuery.nearestInList conv position cond xs ys screenDistance list found) := by
  rw [MapQuery.nearestInList_eq]
  exact foldl_insertSortedByDistance conv position xs ys _ found discovered h

theorem MapQuery.nearestInList_perm {α : Type} (conv : CoordinateConverter)
    (position : α → Pos) (xs ys screenDistance : Int) (list : List α) :
    (MapQuery.nearestInList conv position (fun _ => true) xs ys screenDistance list []).Perm
      (list.filter fun e => isHit conv xs ys screenDistance (position e)) := by
  have h := (MapQuery.nearestInList_nearestFirst conv position (fun _ => true) xs ys
    screenDistance list [] [] (NearestFirst.nil conv position xs ys)).2.1
  simp only [List.nil_append, Bool.true_and, List.filter_reverse] at h
  exact h.trans (List.reverse_perm _)

theorem MapQuery.mem_nearestInList {α : Type} (conv : CoordinateConverter)
    (position : α → Pos) (xs ys screenDistance : Int) (list : List α) (e : α) :
    e ∈ MapQuery.nearestInList conv position (fun _ => true) xs ys screenDistance list [] ↔
      e ∈ list ∧ (conv (position e)).1 = true ∧
        manhattanDistance (conv (position e)).2.1 (conv (position e)).2.2 xs ys <
          screenDistance := by
  rw [(MapQuery.nearestInList_perm conv position xs ys screenDistance list).mem_iff,
    List.mem_filter, isHit_iff]

/-- C18: the hit test on an initially empty result, for VORs, NDBs, markers
and ILS.  If the map layer shows the kind and the kind's flag is among the
requested types, the kind's result list holds exactly the entities of the
kind's range cache that the converter shows on the screen and whose Manhattan
distance on the screen to `(xs, ys)` is strictly less than `screenDistance`
(as often as the cache lists them); otherwise the kind's result list is
empty. -/
theorem MapQuery.getNearestObjects_hits_exactly {T : MapTypes} (env : Collaborators T)
    (s : MapQuery T) (conv : CoordinateConverter) (mapLayer : T.MapLayer)
    (airportDiagram : Bool) (types : Nat) (xs ys screenDistance : Int) :
    ((MapQuery.getNearestObjects env s conv mapLayer airportDiagram types xs ys screenDistance
        {}).1.vors.Perm
        (if env.isVor mapLayer && testFlag types env.objectFlags.VOR then
          s.vorCache.list.filter fun e => isHit conv xs ys screenDistance (env.vorPosition e)
        else []) ∧
      ∀ e, e ∈ (MapQuery.getNearestObjects env s conv mapLayer airportDiagram types xs ys
          screenDistance {}).1.vors ↔
        (env.isVor mapLayer = true ∧ testFlag types env.objectFlags.VOR = true) ∧
          e ∈ s.vorCache.list ∧ (conv (env.vorPosition e)).1 = true ∧
          manhattanDistance (conv (env.vorPosition e)).2.1 (conv (env.vorPosition e)).2.2
            xs ys < screenDistance) ∧
    ((MapQuery.getNearestObjects env s conv mapLayer airportDiagram types xs ys screenDistance
        {}).1.ndbs.Perm
        (if env.isNdb mapLayer && testFlag types env.objectFlags.NDB then
          s.ndbCache.list.filter fun e => isHit conv xs ys screenDistance (env.ndbPosition e)
        else []) ∧
      ∀ e, e ∈ (MapQuery.getNearestObjects env s conv mapLayer airportDiagram types xs ys
          screenDistance {}).1.ndbs ↔
        (env.isNdb mapLayer = true ∧ testFlag types env.objectFlags.NDB = true) ∧
          e ∈ s.ndbCache.list ∧ (conv (env.ndbPosition e)).1 = true ∧
          manhattanDistance (conv (env.ndbPosition e)).2.1 (conv (env.ndbPosition e)).2.2
            xs ys < screenDistance) ∧
    ((MapQuery.getNearestObjects env s conv mapLayer airportDiagram types xs ys screenDistance
        {}).1.markers.Perm
        (if env.isMarker mapLayer && testFlag types env.objectFlags.MARKER then
          s.markerCache.list.filter fun e =>
            isHit conv xs ys screenDistance (env.markerPosition e)
        else []) ∧
      ∀ e, e ∈ (MapQuery.getNearestObjects env s conv mapLayer airportDiagram types xs ys
          screenDistance {}).1.markers ↔
        (env.isMarker mapLayer = true ∧ testFlag types env.objectFlags.MARKER = true) ∧
          e ∈ s.markerCache.list ∧ (conv (env.markerPosition e)).1 = true ∧
          manhattanDistance (conv (env.markerPosition e)).2.1
            (conv (env.markerPosition e)).2.2 xs ys < screenDistance) ∧
    ((MapQuery.getNearestObjects env s conv mapLayer airportDiagram types xs ys screenDistance
        {}).1.ils.Perm
        (if env.isIls mapLayer && testFlag types env.objectFlags.ILS then
          s.ilsCache.list.filter fun e => isHit conv xs ys screenDistance (env.ilsPosition e)
        else []) ∧
      ∀ e, e ∈ (MapQuery.getNearestObjects env s conv mapLayer airportDiagram types xs ys
          screenDistance {}).1.ils ↔
        (env.isIls mapLayer = true ∧ testFlag types env.objectFlags.ILS = true) ∧
          e ∈ s.ilsCache.list ∧ (conv (env.ilsPosition e)).1 = true ∧
          manhattanDistance (conv (env.ilsPosition e)).2.1 (conv (env.ilsPosition e)).2.2
            xs ys < screenDistance) := by
  rw [MapQuery.getNearestObjects_eq]
  simp only []
  refine ⟨?_, ?_, ?_, ?_⟩
  · by_cases h : (env.isVor mapLayer && testFlag types env.objectFlags.VOR) = true
    · have h2 : env.isVor mapLayer = true ∧ testFlag types env.objectFlags.VOR = true := by
        simpa using h
      simp only [h, if_true]
      exact ⟨MapQuery.nearestInList_perm _ _ _ _ _ _, fun e => by
        rw [MapQuery.mem_nearestInList]; simp [h2]⟩
    · have h2 : ¬ (env.isVor mapLayer = true ∧ testFlag types env.objectFlags.VOR = true) := by
        simpa using h
      simp only [h, if_false]
      exact ⟨List.Perm.refl _, fun e => by simp [h2]⟩
  · by_cases h : (env.isNdb mapLayer && testFlag types env.objectFlags.NDB) = true
    · have h2 : env.isNdb mapLayer = true ∧ testFlag types env.objectFlags.NDB = true := by
        simpa using h
      simp only [h, if_true]
      exact ⟨MapQuery.nearestInList_perm _ _ _ _ _ _, fun e => by
        rw [MapQuery.mem_nearestInList]; simp [h2]⟩
    · have h2 : ¬ (env.isNdb mapLayer = true ∧ testFlag types env.objectFlags.NDB = true) := by
        simpa using h
      simp only [h, if_false]
      exact ⟨List.Perm.refl _, fun e => by simp [h2]⟩
  · by_cases h : (env.isMarker mapLayer && testFlag types env.objectFlags.MARKER) = true
    · have h2 : env.isMarker mapLayer = true ∧
          testFlag types env.objectFlags.MARKER = true := by
        simpa using h
      simp only [h, if_true]
      exact ⟨MapQuery.nearestInList_perm _ _ _ _ _ _, fun e => by
        rw [MapQuery.mem_nearestInList]; simp [h2]⟩
    · have h2 : ¬ (env.isMarker mapLayer = true ∧
          testFlag types env.objectFlags.MARKER = true) := by
        simpa using h
      simp only [h, if_false]
      exact ⟨List.Perm.refl _, fun e => by simp [h2]⟩
  · by_cases h : (env.isIls mapLayer && testFlag types env.objectFlags.ILS) = true
    · have h2 : env.isIls mapLayer = true ∧ testFlag types env.objectFlags.ILS = true := by
        simpa using h
      simp only [h, if_true]
      exact ⟨MapQuery.nearestInList_perm _ _ _ _ _ _, fun e => by
        rw [MapQuery.mem_nearestInList]; simp [h2]⟩
    · have h2 : ¬ (env.isIls mapLayer = true ∧ testFlag types env.objectFlags.ILS = true) := by
        simpa using h
      simp only [h, if_false]
      exact ⟨List.Perm.refl _, fun e => by simp [h2]⟩


theorem NearestFirst.of_ite {α : Type} (conv : CoordinateConverter) (position : α → Pos)
    (xs ys : Int) (c : Bool) (discovered found : List α)
    (h : NearestFirst conv position xs ys discovered found) :
    NearestFirst conv position xs ys (if c then discovered else [])
      (if c then found else []) := by
  cases c
  · exact NearestFirst.nil conv position xs ys
  · exact h

/-- C19, counterexample: a parking cache whose only list holds the spots 1
and 3, both one pixel from the point `(2, 0)`, and a VOR cache that lists the
VORs 1 and 3 at the same places.  The VOR list of the hit test is `[3, 1]`, the
last cached VOR first, but its parking list is `[1, 3]`, the first cached
spot first: the parking list is not in the order a scan from the last cached
spot to the first gives. -/
theorem MapQuery.getNearestObjects_parkings_scanned_forward :
    (MapQuery.getNearestObjects (Sample.env [] layer.DataSource.ALL)
        { vorCache := { list := [1, 3] }, parkingCache := { nodes := [⟨7, [1, 3], 1⟩] } }
        Sample.conv 0 true 255 2 0 5 {}).1.vors = [3, 1] ∧
      (MapQuery.getNearestObjects (Sample.env [] layer.DataSource.ALL)
        { vorCache := { list := [1, 3] }, parkingCache := { nodes := [⟨7, [1, 3], 1⟩] } }
        Sample.conv 0 true 255 2 0 5 {}).1.parkings = [1, 3] ∧
      screenDistanceTo Sample.conv 2 0
          ((Sample.env [] layer.DataSource.ALL).parkingPosition 1) = 1 ∧
      screenDistanceTo Sample.conv 2 0
          ((Sample.env [] layer.DataSource.ALL).parkingPosition 3) = 1 ∧
      ¬ NearestFirst Sample.conv (Sample.env [] layer.DataSource.ALL).parkingPosition 2 0
        ([1, 3].reverse.filter fun p =>
          isHit Sample.conv 2 0 5 ((Sample.env [] layer.DataSource.ALL).parkingPosition p))
        (MapQuery.getNearestObjects (Sample.env [] layer.DataSource.ALL)
          { vorCache := { list := [1, 3] }, parkingCache := { nodes := [⟨7, [1, 3], 1⟩] } }
          Sample.conv 0 true 255 2 0 5 {}).1.parkings := by
  refine ⟨by decide, by decide, by decide, by decide, ?_⟩
  intro h
  have h1 := h.2.2 1
  revert h1
  decide

/-- C19, amended: the hit test on an initially empty result.  Every result
list is ordered by ascending Manhattan distance on the screen to `(xs, ys)`
(the tower list by the distance of the tower), and entities at equal distance
are in the order of their discovery.  The airports, VORs, NDBs, markers and ILS
are discovered by one scan of the kind's range cache from the last entity to
the first; the waypoints by such a scan of the waypoint cache for the
waypoints, followed by another one for the airway waypoints; the parking
spots and the helipads by going through the lists of the keyed cache in the
order of its keys, each list from its first entity to its last. -/
theorem MapQuery.getNearestObjects_nearest_first {T : MapTypes} (env : Collaborators T)
    (s : MapQuery T) (conv : CoordinateConverter) (mapLayer : T.MapLayer)
    (airportDiagram : Bool) (types : Nat) (xs ys screenDistance : Int) :
    NearestFirst conv env.airportPosition xs ys
      (if env.isAirport mapLayer && testFlag types env.objectFlags.AIRPORT then
        s.airportCache.list.reverse.filter fun a => env.airportIsVisible a types &&
          isHit conv xs ys screenDistance (env.airportPosition a)
      else [])
      (MapQuery.getNearestObjects env s conv mapLayer airportDiagram types xs ys screenDistance
        {}).1.airports ∧
    NearestFirst conv env.airportTowerCoords xs ys
      (if env.isAirport mapLayer && testFlag types env.objectFlags.AIRPORT then
        s.airportCache.list.reverse.filter fun a => env.airportIsVisible a types &&
          (airportDiagram && isHit conv xs ys screenDistance (env.airportTowerCoords a))
      else [])
      (MapQuery.getNearestObjects env s conv mapLayer airportDiagram types xs ys screenDistance
        {}).1.towers ∧
    NearestFirst conv env.vorPosition xs ys
      (if env.isVor mapLayer && testFlag types env.objectFlags.VOR then
        s.vorCache.list.reverse.filter fun e =>
          isHit conv xs ys screenDistance (env.vorPosition e)
      else [])
      (MapQuery.getNearestObjects env s conv mapLayer airportDiagram types xs ys screenDistance
        {}).1.vors ∧
    NearestFirst conv env.ndbPosition xs ys
      (if env.isNdb mapLayer && testFlag types env.objectFlags.NDB then
        s.ndbCache.list.reverse.filter fun e =>
          isHit conv xs ys screenDistance (env.ndbPosition e)
      else [])
      (MapQuery.getNearestObjects env s conv mapLayer airportDiagram types xs ys screenDistance
        {}).1.ndbs ∧
    NearestFirst conv env.waypointPosition xs ys
      ((if env.isWaypoint mapLayer && testFlag types env.objectFlags.WAYPOINT then
          s.waypointCache.list.reverse.filter fun e =>
            isHit conv xs ys screenDistance (env.waypointPosition e)
        else []) ++
        (if env.isAirwayWaypoint mapLayer then
          s.waypointCache.list.reverse.filter fun wp =>
            ((env.waypointHasVictorAirways wp && testFlag types env.objectFlags.AIRWAYV) ||
              (env.waypointHasJetAirways wp && testFlag types env.objectFlags.AIRWAYJ)) &&
            isHit conv xs ys screenDistance (env.waypointPosition wp)
        else []))
      (MapQuery.getNearestObjects env s conv mapLayer airportDiagram types xs ys screenDistance
        {}).1.waypoints ∧
    NearestFirst conv env.markerPosition xs ys
      (if env.isMarker mapLayer && testFlag types env.objectFlags.MARKER then
        s.markerCache.list.reverse.filter fun e =>
          isHit conv xs ys screenDistance (env.markerPosition e)
      else [])
      (MapQuery.getNearestObjects env s conv mapLayer airportDiagram types xs ys screenDistance
        {}).1.markers ∧
    NearestFirst conv env.ilsPosition xs ys
      (if env.isIls mapLayer && testFlag types env.objectFlags.ILS then
        s.ilsCache.list.reverse.filter fun e =>
          isHit conv xs ys screenDistance (env.ilsPosition e)
      else [])
      (MapQuery.getNearestObjects env s conv mapLayer airportDiagram types xs ys screenDistance
        {}).1.ils ∧
    NearestFirst conv env.parkingPosition xs ys
      (if env.isAirport mapLayer && testFlag types env.objectFlags.AIRPORT && airportDiagram then
        (s.parkingCache.keys.flatMap fun id => (s.parkingCache.peek id).getD []).filter
          fun p => isHit conv xs ys screenDistance (env.parkingPosition p)
      else [])
      (MapQuery.getNearestObjects env s conv mapLayer airportDiagram types xs ys screenDistance
        {}).1.parkings ∧
    NearestFirst conv (fun (h : MapHelipad) => h.position) xs ys
      (if env.isAirport mapLayer && testFlag types env.objectFlags.AIRPORT && airportDiagram then
        (s.helipadCache.keys.flatMap fun id => (s.helipadCache.peek id).getD []).filter
          fun h => isHit conv xs ys screenDistance h.position
      else [])
      (MapQuery.getNearestObjects env s conv mapLayer airportDiagram types xs ys screenDistance
        {}).1.helipads := by
  rw [MapQuery.getNearestObjects_eq]
  simp only []
  have hl : ∀ {α : Type} (position : α → Pos) (list : List α),
      NearestFirst conv position xs ys
        (list.reverse.filter fun e => isHit conv xs ys screenDistance (position e))
        (MapQuery.nearestInList conv position (fun _ => true) xs ys screenDistance list
          []) := by
    intro α position list
    have h := MapQuery.nearestInList_nearestFirst conv position (fun _ => true) xs ys
      screenDistance list [] [] (NearestFirst.nil conv position xs ys)
    simpa using h
  have hf : ∀ {α : Type} (position : α → Pos) (es : List α),
      NearestFirst conv position xs ys es
        (es.foldl (insertSortedByDistance conv position xs ys) []) := by
    intro α position es
    have h := foldl_insertSortedByDistance conv position xs ys es [] []
      (NearestFirst.nil conv position xs ys)
    simpa using h
  refine ⟨NearestFirst.of_ite _ _ _ _ _ _ _ (hf _ _), NearestFirst.of_ite _ _ _ _ _ _ _ (hf _ _),
    NearestFirst.of_ite _ _ _ _ _ _ _ (hl _ _), NearestFirst.of_ite _ _ _ _ _ _ _ (hl _ _), ?_,
    NearestFirst.of_ite _ _ _ _ _ _ _ (hl _ _), NearestFirst.of_ite _ _ _ _ _ _ _ (hl _ _), ?_, ?_⟩
  · have h1 := NearestFirst.of_ite conv env.waypointPosition xs ys
      (env.isWaypoint mapLayer && testFlag types env.objectFlags.WAYPOINT) _ _
      (hl env.waypointPosition s.waypointCache.list)
    by_cases hX : env.isAirwayWaypoint mapLayer = true
    · simp only [hX, if_true]
      exact MapQuery.nearestInList_nearestFirst conv env.waypointPosition _ xs ys
        screenDistance s.waypointCache.list _ _ h1
    · have hX2 : env.isAirwayWaypoint mapLayer = false := by simpa using hX
      simp only [hX2, Bool.false_eq_true, if_false, List.append_nil]
      exact h1
  · rw [MapQuery.nearestInCache_fst]
    exact NearestFirst.of_ite _ _ _ _ _ _ _ (hf _ _)
  · rw [MapQuery.nearestInCache_fst]
    exact NearestFirst.of_ite _ _ _ _ _ _ _ (hf _ _)


theorem MapQuery.nearestInList_of_nil {α : Type} (conv : CoordinateConverter)
    (position : α → Pos) (cond : α → Bool) (xs ys screenDistance : Int) (found : List α) :
    MapQuery.nearestInList conv position cond xs ys screenDistance [] found = found := rfl

theorem MapQuery.nearestInCache_of_nil {α : Type} (conv : CoordinateConverter)
    (position : α → Pos) (xs ys screenDistance : Int) (c : QCache (List α)) (found : List α)
    (h : c.nodes = []) :
    (MapQuery.nearestInCache conv position xs ys screenDistance c found).1 = found := by
  rw [MapQuery.nearestInCache_fst]
  simp [QCache.keys, h]

/-- C20: the hit test makes no call on a prepared statement (the trace of the
storage calls is the one before the call), leaves every range cache as it
was, and leaves the contents of every keyed cache as they were: the runway,
runway overview, apron, taxi path, start and airspace line caches are
unchanged, and the parking cache and the helipad cache keep their maximum
cost, their entries (up to the order of use, which `object` updates) and the
list cached under every key.  A kind whose cache is empty adds no hit to the
kind's result list. -/
theorem MapQuery.getNearestObjects_reads_caches_only {T : MapTypes} (env : Collaborators T)
    (s : MapQuery T) (conv : CoordinateConverter) (mapLayer : T.MapLayer)
    (airportDiagram : Bool) (types : Nat) (xs ys screenDistance : Int)
    (result : MapSearchResult T) :
    ((MapQuery.getNearestObjects env s conv mapLayer airportDiagram types xs ys screenDistance
        result).2.sql = s.sql ∧
      execCount (MapQuery.getNearestObjects env s conv mapLayer airportDiagram types xs ys
        screenDistance result).2.sql = execCount s.sql) ∧
    ((MapQuery.getNearestObjects env s conv mapLayer airportDiagram types xs ys screenDistance
        result).2.airportCache = s.airportCache ∧
      (MapQuery.getNearestObjects env s conv mapLayer airportDiagram types xs ys screenDistance
        result).2.waypointCache = s.waypointCache ∧
      (MapQuery.getNearestObjects env s conv mapLayer airportDiagram types xs ys screenDistance
        result).2.vorCache = s.vorCache ∧
      (MapQuery.getNearestObjects env s conv mapLayer airportDiagram types xs ys screenDistance
        result).2.ndbCache = s.ndbCache ∧
      (MapQuery.getNearestObjects env s conv mapLayer airportDiagram types xs ys screenDistance
        result).2.markerCache = s.markerCache ∧
      (MapQuery.getNearestObjects env s conv mapLayer airportDiagram types xs ys screenDistance
        result).2.ilsCache = s.ilsCache ∧
      (MapQuery.getNearestObjects env s conv mapLayer airportDiagram types xs ys screenDistance
        result).2.airwayCache = s.airwayCache ∧
      (MapQuery.getNearestObjects env s conv mapLayer airportDiagram types xs ys screenDistance
        result).2.airspaceCache = s.airspaceCache) ∧
    ((MapQuery.getNearestObjects env s conv mapLayer airportDiagram types xs ys screenDistance
        result).2.runwayCache = s.runwayCache ∧
      (MapQuery.getNearestObjects env s conv mapLayer airportDiagram types xs ys screenDistance
        result).2.runwayOverwiewCache = s.runwayOverwiewCache ∧
      (MapQuery.getNearestObjects env s conv mapLayer airportDiagram types xs ys screenDistance
        result).2.apronCache = s.apronCache ∧
      (MapQuery.getNearestObjects env s conv mapLayer airportDiagram types xs ys screenDistance
        result).2.taxipathCache = s.taxipathCache ∧
      (MapQuery.getNearestObjects env s conv mapLayer airportDiagram types xs ys screenDistance
        result).2.startCache = s.startCache ∧
      (MapQuery.getNearestObjects env s conv mapLayer airportDiagram types xs ys screenDistance
        result).2.airspaceLineCache = s.airspaceLineCache) ∧
    ((∀ key, (MapQuery.getNearestObjects env s conv mapLayer airportDiagram types xs ys
          screenDistance result).2.parkingCache.peek key = s.parkingCache.peek key) ∧
      (MapQuery.getNearestObjects env s conv mapLayer airportDiagram types xs ys screenDistance
        result).2.parkingCache.nodes.Perm s.parkingCache.nodes ∧
      (MapQuery.getNearestObjects env s conv mapLayer airportDiagram types xs ys screenDistance
        result).2.parkingCache.mx = s.parkingCache.mx) ∧
    ((∀ key, (MapQuery.getNearestObjects env s conv mapLayer airportDiagram types xs ys
          screenDistance result).2.helipadCache.peek key = s.helipadCache.peek key) ∧
      (MapQuery.getNearestObjects env s conv mapLayer airportDiagram types xs ys screenDistance
        result).2.helipadCache.nodes.Perm s.helipadCache.nodes ∧
      (MapQuery.getNearestObjects env s conv mapLayer airportDiagram types xs ys screenDistance
        result).2.helipadCache.mx = s.helipadCache.mx) ∧
    (s.airportCache.list = [] →
      (MapQuery.getNearestObjects env s conv mapLayer airportDiagram types xs ys screenDistance
        result).1.airports = result.airports ∧
      (MapQuery.getNearestObjects env s conv mapLayer airportDiagram types xs ys screenDistance
        result).1.towers = result.towers) ∧
    (s.vorCache.list = [] →
      (MapQuery.getNearestObjects env s conv mapLayer airportDiagram types xs ys screenDistance
        result).1.vors = result.vors) ∧
    (s.ndbCache.list = [] →
      (MapQuery.getNearestObjects env s conv mapLayer airportDiagram types xs ys screenDistance
        result).1.ndbs = result.ndbs) ∧
    (s.waypointCache.list = [] →
      (MapQuery.getNearestObjects env s conv mapLayer airportDiagram types xs ys screenDistance
        result).1.waypoints = result.waypoints) ∧
    (s.markerCache.list = [] →
      (MapQuery.getNearestObjects env s conv mapLayer airportDiagram types xs ys screenDistance
        result).1.markers = result.markers) ∧
    (s.ilsCache.list = [] →
      (MapQuery.getNearestObjects env s conv mapLayer airportDiagram types xs ys screenDistance
        result).1.ils = result.ils) ∧
    (s.parkingCache.nodes = [] →
      (MapQuery.getNearestObjects env s conv mapLayer airportDiagram types xs ys screenDistance
        result).1.parkings = result.parkings) ∧
    (s.helipadCache.nodes = [] →
      (MapQuery.getNearestObjects env s conv mapLayer airportDiagram types xs ys screenDistance
        result).1.helipads = result.helipads) := by
  rw [MapQuery.getNearestObjects_eq]
  simp only []
  have hP := MapQuery.nearestInCache_snd conv env.parkingPosition xs ys screenDistance
    s.parkingCache result.parkings
  have hH := MapQuery.nearestInCache_snd conv (fun (h : MapHelipad) => h.position) xs ys
    screenDistance s.helipadCache result.helipads
  refine ⟨?_, ?_, ?_, ?_, ?_, ?_, ?_, ?_, ?_, ?_, ?_, ?_, ?_⟩
  · split_ifs <;> exact ⟨rfl, rfl⟩
  · split_ifs <;> exact ⟨rfl, rfl, rfl, rfl, rfl, rfl, rfl, rfl⟩
  · split_ifs <;> exact ⟨rfl, rfl, rfl, rfl, rfl, rfl⟩
  · split_ifs
    · exact hP
    · exact ⟨fun _ => rfl, List.Perm.refl _, rfl⟩
  · split_ifs
    · exact hH
    · exact ⟨fun _ => rfl, List.Perm.refl _, rfl⟩
  · intro h
    rw [h]
    constructor <;> split_ifs <;> rfl
  · intro h
    rw [h, MapQuery.nearestInList_of_nil]
    split_ifs <;> rfl
  · intro h
    rw [h, MapQuery.nearestInList_of_nil]
    split_ifs <;> rfl
  · intro h
    rw [h]
    simp only [MapQuery.nearestInList_of_nil]
    split_ifs <;> rfl
  · intro h
    rw [h, MapQuery.nearestInList_of_nil]
    split_ifs <;> rfl
  · intro h
    rw [h, MapQuery.nearestInList_of_nil]
    split_ifs <;> rfl
  · intro h
    rw [MapQuery.nearestInCache_of_nil _ _ _ _ _ _ _ h]
    split_ifs <;> rfl
  · intro h
    rw [MapQuery.nearestInCache_of_nil _ _ _ _ _ _ _ h]
    split_ifs <;> rfl

/-- C20, instance: with an empty VOR cache and an empty parking cache, a hit
test that requests every kind on an airport diagram leaves the VOR list and
the parking list of the result empty. -/
theorem MapQuery.getNearestObjects_reads_caches_only_witness :
    (MapQuery.getNearestObjects (Sample.env [] layer.DataSource.ALL)
        { ndbCache := { list := [1, 3] } } Sample.conv 0 true 255 2 0 5 {}).1.vors = [] ∧
      (MapQuery.getNearestObjects (Sample.env [] layer.DataSource.ALL)
        { ndbCache := { list := [1, 3] } } Sample.conv 0 true 255 2 0 5 {}).1.parkings = [] ∧
      (MapQuery.getNearestObjects (Sample.env [] layer.DataSource.ALL)
        { ndbCache := { list := [1, 3] } } Sample.conv 0 true 255 2 0 5 {}).1.ndbs = [3, 1] :=
  ⟨(MapQuery.getNearestObjects_reads_caches_only (Sample.env [] layer.DataSource.ALL)
      { ndbCache := { list := [1, 3] } } Sample.conv 0 true 255 2 0 5 {}).2.2.2.2.2.2.1 rfl,
    (MapQuery.getNearestObjects_reads_caches_only (Sample.env [] layer.DataSource.ALL)
      { ndbCache := { list := [1, 3] } } Sample.conv 0 true 255 2 0 5
      {}).2.2.2.2.2.2.2.2.2.2.2.1 rfl,
    by decide⟩


/-! ### The runway order -/

theorem MapQuery.runwayCompare_iff {T : MapTypes} (env : Collaborators T)
    (r1 r2 : T.MapRunway) :
    MapQuery.runwayCompare env r1 r2 = true ↔
      (env.surfaceQuality (env.runwaySurface r1) < env.surfaceQuality (env.runwaySurface r2) ∨
        (env.surfaceQuality (env.runwaySurface r1) = env.surfaceQuality (env.runwaySurface r2) ∧
          env.runwayLength r1 < env.runwayLength r2)) := by
  unfold MapQuery.runwayCompare
  simp only
  split_ifs with h
  · simp only [decide_eq_true_eq]
    constructor
    · intro hl; exact Or.inr ⟨h, hl⟩
    · rintro (hl | ⟨-, hl⟩)
      · omega
      · exact hl
  · simp only [decide_eq_true_eq]
    constructor
    · intro hl; exact Or.inl hl
    · rintro (hl | ⟨he, -⟩)
      · exact hl
      · exact absurd he h

/-- C28: `runwayCompare` is a strict weak ordering of the runways, for every
integer surface quality and integer length: no runway goes before itself; if
`a` goes before `b` then `b` does not go before `a`; going before is
transitive; two runways are incomparable exactly when they have equal surface
quality and equal length; and incomparability is transitive. -/
theorem MapQuery.runwayCompare_strict_weak_order {T : MapTypes} (env : Collaborators T) :
    (∀ a, MapQuery.runwayCompare env a a = false) ∧
    (∀ a b, MapQuery.runwayCompare env a b = true → MapQuery.runwayCompare env b a = false) ∧
    (∀ a b c, MapQuery.runwayCompare env a b = true → MapQuery.runwayCompare env b c = true →
      MapQuery.runwayCompare env a c = true) ∧
    (∀ a b, (MapQuery.runwayCompare env a b = false ∧ MapQuery.runwayCompare env b a = false) ↔
      (env.surfaceQuality (env.runwaySurface a) = env.surfaceQuality (env.runwaySurface b) ∧
        env.runwayLength a = env.runwayLength b)) ∧
    (∀ a b c,
      (MapQuery.runwayCompare env a b = false ∧ MapQuery.runwayCompare env b a = false) →
      (MapQuery.runwayCompare env b c = false ∧ MapQuery.runwayCompare env c b = false) →
      (MapQuery.runwayCompare env a c = false ∧ MapQuery.runwayCompare env c a = false)) := by
  have hf : ∀ a b, MapQuery.runwayCompare env a b = false ↔
      ¬ (env.surfaceQuality (env.runwaySurface a) < env.surfaceQuality (env.runwaySurface b) ∨
        (env.surfaceQuality (env.runwaySurface a) = env.surfaceQuality (env.runwaySurface b) ∧
          env.runwayLength a < env.runwayLength b)) := by
    intro a b
    rw [← MapQuery.runwayCompare_iff, Bool.not_eq_true]
  refine ⟨?_, ?_, ?_, ?_, ?_⟩
  · intro a
    rw [hf]
    omega
  · intro a b
    rw [hf, MapQuery.runwayCompare_iff]
    omega
  · intro a b c
    rw [MapQuery.runwayCompare_iff, MapQuery.runwayCompare_iff, MapQuery.runwayCompare_iff]
    omega
  · intro a b
    rw [hf, hf]
    omega
  · intro a b c
    rw [hf, hf, hf, hf, hf, hf]
    omega


/-- C28, instance: a grass runway of 3000 ft goes before an asphalt runway of
2000 ft, so the asphalt runway does not go before the grass runway. -/
theorem MapQuery.runwayCompare_strict_weak_order_witness :
    MapQuery.runwayCompare (Sample.env [] layer.DataSource.ALL) ("G", 3000) ("A", 2000) = true ∧
      MapQuery.runwayCompare (Sample.env [] layer.DataSource.ALL) ("A", 2000) ("G", 3000) =
        false :=
  ⟨by decide,
    (MapQuery.runwayCompare_strict_weak_order (Sample.env [] layer.DataSource.ALL)).2.1
      ("G", 3000) ("A", 2000) (by decide)⟩


/-! ### Hit test: kinds that are not requested -/

theorem MapQuery.nearestInList_of_cond_false {α : Type} (conv : CoordinateConverter)
    (position : α → Pos) (cond : α → Bool) (xs ys screenDistance : Int) (list found : List α)
    (h : ∀ e ∈ list, cond e = false) :
    MapQuery.nearestInList conv position cond xs ys screenDistance list found = found := by
  rw [MapQuery.nearestInList_eq]
  have : list.reverse.filter
      (fun e => cond e && isHit conv xs ys screenDistance (position e)) = [] := by
    rw [List.filter_eq_nil_iff]
    intro e he
    simp [h e (List.mem_reverse.mp he)]
  rw [this]
  rfl

/-- C26, counterexample: a hit test that requests only Victor airways
(`AIRWAYV`, not `WAYPOINT`) on a layer that shows airway waypoints, with one
cached waypoint on a Victor airway one pixel from the point: the waypoint is
added to the waypoint list of the result. -/
theorem MapQuery.getNearestObjects_airway_waypoint_without_flag :
    testFlag 16 Sample.airwayEnv.objectFlags.WAYPOINT = false ∧
      (MapQuery.getNearestObjects Sample.airwayEnv { waypointCache := { list := [1] } }
        Sample.conv 0 false 16 2 0 5 {}).1.waypoints = [1] := by
  decide

/-- C26, amended: a kind that is not requested or not shown gets no hits.  If
the layer does not show airports or `AIRPORT` is not among the requested types,
the airport, tower, parking and helipad lists of the result are left as they
were; likewise the VOR, NDB, marker and ILS lists for their test and flag.
The waypoint list is left as it was if the layer does not show waypoints or
`WAYPOINT` is not among the requested types, and in addition the layer does
not show airway waypoints or neither `AIRWAYV` nor `AIRWAYJ` is among the
requested types. -/
theorem MapQuery.getNearestObjects_unrequested_kind_unchanged {T : MapTypes}
    (env : Collaborators T) (s : MapQuery T) (conv : CoordinateConverter)
    (mapLayer : T.MapLayer) (airportDiagram : Bool) (types : Nat)
    (xs ys screenDistance : Int) (result : MapSearchResult T) :
    ((env.isAirport mapLayer && testFlag types env.objectFlags.AIRPORT) = false →
      (MapQuery.getNearestObjects env s conv mapLayer airportDiagram types xs ys screenDistance
        result).1.airports = result.airports ∧
      (MapQuery.getNearestObjects env s conv mapLayer airportDiagram types xs ys screenDistance
        result).1.towers = result.towers ∧
      (MapQuery.getNearestObjects env s conv mapLayer airportDiagram types xs ys screenDistance
        result).1.parkings = result.parkings ∧
      (MapQuery.getNearestObjects env s conv mapLayer airportDiagram types xs ys screenDistance
        result).1.helipads = result.helipads) ∧
    ((env.isVor mapLayer && testFlag types env.objectFlags.VOR) = false →
      (MapQuery.getNearestObjects env s conv mapLayer airportDiagram types xs ys screenDistance
        result).1.vors = result.vors) ∧
    ((env.isNdb mapLayer && testFlag types env.objectFlags.NDB) = false →
      (MapQuery.getNearestObjects env s conv mapLayer airportDiagram types xs ys screenDistance
        result).1.ndbs = result.ndbs) ∧
    ((env.isMarker mapLayer && testFlag types env.objectFlags.MARKER) = false →
      (MapQuery.getNearestObjects env s conv mapLayer airportDiagram types xs ys screenDistance
        result).1.markers = result.markers) ∧
    ((env.isIls mapLayer && testFlag types env.objectFlags.ILS) = false →
      (MapQuery.getNearestObjects env s conv mapLayer airportDiagram types xs ys screenDistance
        result).1.ils = result.ils) ∧
    ((env.isWaypoint mapLayer && testFlag types env.objectFlags.WAYPOINT) = false →
      (env.isAirwayWaypoint mapLayer = false ∨
        (testFlag types env.objectFlags.AIRWAYV = false ∧
          testFlag types env.objectFlags.AIRWAYJ = false)) →
      (MapQuery.getNearestObjects env s conv mapLayer airportDiagram types xs ys screenDistance
        result).1.waypoints = result.waypoints) := by
  rw [MapQuery.getNearestObjects_eq]
  simp only []
  refine ⟨?_, ?_, ?_, ?_, ?_, ?_⟩
  · intro h
    simp [h]
  · intro h
    simp [h]
  · intro h
    simp [h]
  · intro h
    simp [h]
  · intro h
    simp [h]
  · intro h h2
    simp only [h, Bool.false_eq_true, if_false]
    rcases h2 with h2 | ⟨hv, hj⟩
    · simp [h2]
    · rw [MapQuery.nearestInList_of_cond_false]
      · simp
      · intro e _
        simp [hv, hj]

/-- C26, instance: the same hit test on a layer that shows airway waypoints
but with no airway type requested (only `VOR`) leaves the waypoint list
empty. -/
theorem MapQuery.getNearestObjects_unrequested_kind_unchanged_witness :
    (MapQuery.getNearestObjects Sample.airwayEnv { waypointCache := { list := [1] } }
      Sample.conv 0 false 2 2 0 5 {}).1.waypoints = [] :=
  (MapQuery.getNearestObjects_unrequested_kind_unchanged Sample.airwayEnv
    { waypointCache := { list := [1] } } Sample.conv 0 false 2 2 0 5 {}).2.2.2.2.2
    (by decide) (Or.inr (by decide))


/-! ### Airspace fetches: the type mask and the altitude -/

/-- C23: the clearing step of `getAirspaces`.  If the requested type mask
differs from the remembered one, or `almostNotEqual` holds between the
remembered and the requested flight plan altitude, then, whatever the cached
rectangle and map layer are, the stored list is discarded: the call gives
what it gives on the state whose stored list is empty, a lazy call and a call
for no airspace type return the empty list and store it, and a non-lazy call
for some type stores the airspaces of the rows it fetches; the remembered mask
and altitude become the requested ones.  If neither differs, the remembered
values stay, a lazy call returns the stored list and changes nothing, and so
does a non-lazy call that finds the cache valid and not empty. -/
theorem MapQuery.getAirspaces_clears_on_new_types_or_altitude {T : MapTypes}
    (env : Collaborators T) (s : MapQuery T) (rect : GeoDataLatLonBox) (mapLayer : T.MapLayer)
    (types : Nat) (flightPlanAltitude : ℚ) (lazy : Bool) :
    ((types ≠ s.lastAirspaceTypes ∨
        env.almostNotEqual s.lastFlightplanAltitude flightPlanAltitude = true) →
      MapQuery.getAirspaces env s rect mapLayer types flightPlanAltitude lazy =
          MapQuery.getAirspaces env
            { s with airspaceCache := { s.airspaceCache with list := [] } }
            rect mapLayer types flightPlanAltitude lazy ∧
        (MapQuery.getAirspaces env s rect mapLayer types flightPlanAltitude
          lazy).2.lastAirspaceTypes = types ∧
        (MapQuery.getAirspaces env s rect mapLayer types flightPlanAltitude
          lazy).2.lastFlightplanAltitude = flightPlanAltitude ∧
        ((lazy = true ∨ types = env.flags.AIRSPACE_NONE) →
          (MapQuery.getAirspaces env s rect mapLayer types flightPlanAltitude lazy).1 = [] ∧
          (MapQuery.getAirspaces env s rect mapLayer types flightPlanAltitude
            lazy).2.airspaceCache.list = []) ∧
        (lazy = false → types ≠ env.flags.AIRSPACE_NONE →
          ((MapQuery.getAirspaces env s rect mapLayer types flightPlanAltitude
            lazy).2.airspaceCache.list).Perm
            ((MapQuery.airspaceRowsFetched env s.sql rect types flightPlanAltitude).map
              env.fillAirspace))) ∧
    ((types = s.lastAirspaceTypes ∧
        env.almostNotEqual s.lastFlightplanAltitude flightPlanAltitude = false) →
      (MapQuery.getAirspaces env s rect mapLayer types flightPlanAltitude
          lazy).2.lastAirspaceTypes = s.lastAirspaceTypes ∧
        (MapQuery.getAirspaces env s rect mapLayer types flightPlanAltitude
          lazy).2.lastFlightplanAltitude = s.lastFlightplanAltitude ∧
        (lazy = true →
          MapQuery.getAirspaces env s rect mapLayer types flightPlanAltitude lazy =
            (s.airspaceCache.list, s)) ∧
        (s.airspaceCache.isValid env.contains rect mapLayer
            env.hasSameQueryParametersAirspace = true →
          s.airspaceCache.list ≠ [] →
          MapQuery.getAirspaces env s rect mapLayer types flightPlanAltitude lazy =
            (s.airspaceCache.list, s))) := by
  constructor
  · intro hc
    have hc2 : (types != s.lastAirspaceTypes ||
        env.almostNotEqual s.lastFlightplanAltitude flightPlanAltitude) = true := by
      rcases hc with h | h
      · simp [h]
      · simp [h]
    have hu : ∀ (l : List T.MapAirspace),
        ({ ({ s.airspaceCache with list := l } :
              SimpleRectCache T.MapLayer T.MapAirspace).updateCache env.contains env.inflation
            rect mapLayer lazy env.hasSameQueryParametersAirspace with list := [] } :
          SimpleRectCache T.MapLayer T.MapAirspace) =
        { s.airspaceCache.updateCache env.contains env.inflation rect mapLayer lazy
            env.hasSameQueryParametersAirspace with list := [] } := by
      intro l
      simp only [SimpleRectCache.updateCache, SimpleRectCache.isValid]
      split_ifs <;> rfl
    refine ⟨?_, ?_, ?_, ?_, ?_⟩
    · simp only [MapQuery.getAirspaces, hc2, if_true, hu []]
    · simp [MapQuery.getAirspaces, hc2]
    · simp [MapQuery.getAirspaces, hc2]
    · rintro (hl | hn)
      · subst hl
        simp [MapQuery.getAirspaces, hc2, SimpleRectCache.validate]
      · subst hn
        cases lazy <;> simp [MapQuery.getAirspaces, hc, SimpleRectCache.validate]
    · intro hl hn
      subst hl
      have hm : s.airspaceCache.list = [] ∨
          s.airspaceCache.isValid env.contains rect mapLayer
            env.hasSameQueryParametersAirspace = false ∨
          types ≠ s.lastAirspaceTypes ∨
          env.almostNotEqual s.lastFlightplanAltitude flightPlanAltitude = true :=
        Or.inr (Or.inr hc)
      rw [MapQuery.getAirspaces_eq_refetch env s rect mapLayer types flightPlanAltitude hn hm,
        MapQuery.airspaceRefetch_snd]
      simpa using List.perm_insertionSort _ _
  · rintro ⟨ht, ha⟩
    have hc2 : (types != s.lastAirspaceTypes ||
        env.almostNotEqual s.lastFlightplanAltitude flightPlanAltitude) = false := by
      simp [ht, ha]
    refine ⟨?_, ?_, ?_, ?_⟩
    · simp [MapQuery.getAirspaces, hc2]
    · simp [MapQuery.getAirspaces, hc2]
    · intro hl
      subst hl
      simp [MapQuery.getAirspaces, hc2, SimpleRectCache.updateCache, SimpleRectCache.validate]
    · intro hv hne
      cases lazy
      · exact MapQuery.getAirspaces_hit env s rect mapLayer types flightPlanAltitude hne hv ht ha
      · simp [MapQuery.getAirspaces, hc2, SimpleRectCache.updateCache, SimpleRectCache.validate]


/-- C23, instance: the airspace cache holds the airspace 7 for a rectangle
and map layer that cover the request, the remembered type mask is 1; a
non-lazy call with type mask 2 on a database with the airspaces 3, 1 and 2
remembers the mask 2 and stores a list that is a rearrangement of 3, 1, 2, and
a lazy call with type mask 2 returns the empty list. -/
theorem MapQuery.getAirspaces_clears_on_new_types_or_altitude_witness :
    ((MapQuery.getAirspaces (Sample.env [3, 1, 2] layer.DataSource.ALL)
        { airspaceCache := { curRect := some Sample.rect, curMapLayer := some 0, list := [7] },
          lastAirspaceTypes := 1 }
        Sample.rect 0 2 0 false).2.lastAirspaceTypes = 2) ∧
      ((MapQuery.getAirspaces (Sample.env [3, 1, 2] layer.DataSource.ALL)
        { airspaceCache := { curRect := some Sample.rect, curMapLayer := some 0, list := [7] },
          lastAirspaceTypes := 1 }
        Sample.rect 0 2 0 true).1 = []) ∧
      (MapQuery.getAirspaces (Sample.env [3, 1, 2] layer.DataSource.ALL)
        { airspaceCache := { curRect := some Sample.rect, curMapLayer := some 0, list := [7] },
          lastAirspaceTypes := 1 }
        Sample.rect 0 2 0 false).1 = [1, 2, 3] :=
  ⟨((MapQuery.getAirspaces_clears_on_new_types_or_altitude
        (Sample.env [3, 1, 2] layer.DataSource.ALL)
        { airspaceCache := { curRect := some Sample.rect, curMapLayer := some 0, list := [7] },
          lastAirspaceTypes := 1 }
        Sample.rect 0 2 0 false).1 (Or.inl (by decide))).2.1,
    (((MapQuery.getAirspaces_clears_on_new_types_or_altitude
        (Sample.env [3, 1, 2] layer.DataSource.ALL)
        { airspaceCache := { curRect := some Sample.rect, curMapLayer := some 0, list := [7] },
          lastAirspaceTypes := 1 }
        Sample.rect 0 2 0 true).1 (Or.inl (by decide))).2.2.2.1 (Or.inl rfl)).1,
    by decide!⟩


/-! ### Airspace fetches: the executions of a refetch -/

theorem executionsFrom_append (pre a b : List SqlCall) :
    executionsFrom pre (a ++ b) = executionsFrom pre a ++ executionsFrom (pre ++ a) b := by
  induction a generalizing pre with
  | nil => simp [executionsFrom]
  | cons c a ih =>
    cases c <;> simp [executionsFrom, ih]

theorem executions_append (a b : List SqlCall) :
    executions (a ++ b) = executions a ++ executionsFrom a b := by
  unfold executions
  rw [executionsFrom_append]
  simp

theorem executionsFrom_of_no_exec (pre b : List SqlCall)
    (h : ∀ c ∈ b, ∀ q, c ≠ SqlCall.exec q) : executionsFrom pre b = [] := by
  induction b generalizing pre with
  | nil => rfl
  | cons c b ih =>
    have hc := h c (List.mem_cons_self _ _)
    have hb : ∀ c ∈ b, ∀ q, c ≠ SqlCall.exec q := fun c hc q => h c (List.mem_cons_of_mem _ hc) q
    cases c with
    | exec q => exact absurd rfl (hc q)
    | bindValue q p v => simp [executionsFrom, ih _ hb]
    | next q => simp [executionsFrom, ih _ hb]
    | record q => simp [executionsFrom, ih _ hb]
    | value q col => simp [executionsFrom, ih _ hb]
    | isNull q col => simp [executionsFrom, ih _ hb]
    | finish q => simp [executionsFrom, ih _ hb]

theorem execCount_eq_length_executions (sql : List SqlCall) :
    execCount sql = (executions sql).length := by
  unfold executions
  generalize ([] : List SqlCall) = pre
  induction sql generalizing pre with
  | nil => rfl
  | cons c sql ih =>
    cases c <;> simp [execCount, executionsFrom, List.countP_cons] <;>
      simpa [execCount] using ih _

theorem boundValues_append_exec (pre : List SqlCall) (q query : SqlQuery) :
    boundValues (pre ++ [SqlCall.exec q]) query = boundValues pre query := by
  unfold boundValues
  exact List.map_congr_left fun p _ => boundValue_append_exec pre q query p


theorem MapQuery.whileNext_no_exec {R : Type} (query : SqlQuery) (rows : List R) :
    ∀ c ∈ (rows.map fun _ => [SqlCall.next query, SqlCall.record query]).flatten ++
        [SqlCall.next query],
      ∀ q, c ≠ SqlCall.exec q := by
  intro c hc q
  simp only [List.mem_append, List.mem_flatten, List.mem_map, List.mem_singleton] at hc
  rcases hc with ⟨l, ⟨_, _, rfl⟩, hl⟩ | rfl
  · simp only [List.mem_cons, List.mem_singleton, List.not_mem_nil, or_false] at hl
    rcases hl with rfl | rfl <;> simp
  · simp

/-- One inner block of the refetch adds one execution: that of the selected
statement, with the values of `airspaceValues`. -/
theorem MapQuery.airspaceQueryStep_executions {T : MapTypes} (env : Collaborators T)
    (qa : SqlQuery × Int) (r : GeoDataLatLonBox) (st : List SqlCall × List T.MapAirspace)
    (typeStr : String) (sql0 : List SqlCall)
    (hq : qa.1.placeholders = [":leftx", ":rightx", ":bottomy", ":topy", ":type"] ∨
      qa.1.placeholders = [":leftx", ":rightx", ":bottomy", ":topy", ":type", ":alt"])
    (hinv : ¬ qa.2 > 0 → boundValue st.1 qa.1 ":alt" = boundValue sql0 qa.1 ":alt") :
    executions (MapQuery.airspaceQueryStep env qa r st typeStr).1 =
      executions st.1 ++ [(qa.1, MapQuery.airspaceValues sql0 qa.1 qa.2 r typeStr)] := by
  have hv := MapQuery.boundValues_airspace st.1 sql0 qa.1 qa.2 r typeStr hq hinv
  rw [boundValues_append_exec] at hv
  unfold MapQuery.airspaceQueryStep
  simp only
  rw [MapQuery.whileNext_fst]
  simp only
  rw [executions_append, executionsFrom_of_no_exec _ _ (MapQuery.whileNext_no_exec qa.1 _),
    List.append_nil, executions_append]
  have hb : executionsFrom st.1 (MapQuery.bindCoordinatePointInRect r qa.1 ++
      [SqlCall.bindValue qa.1 ":type" (SqlValue.text typeStr)] ++
      (if qa.2 > 0 then [SqlCall.bindValue qa.1 ":alt" (SqlValue.int qa.2)] else [])) = [] := by
    apply executionsFrom_of_no_exec
    intro c hc q
    simp only [MapQuery.bindCoordinatePointInRect, List.mem_append, List.mem_cons,
      List.mem_singleton, List.not_mem_nil, or_false] at hc
    rcases hc with ((h | h | h | h) | h) | h
    · subst h; simp
    · subst h; simp
    · subst h; simp
    · subst h; simp
    · subst h; simp
    · split_ifs at h
      · simp only [List.mem_singleton] at h
        subst h; simp
      · simp at h
  have e : st.1 ++ MapQuery.bindCoordinatePointInRect r qa.1 ++
      [SqlCall.bindValue qa.1 ":type" (SqlValue.text typeStr)] ++
      (if qa.2 > 0 then [SqlCall.bindValue qa.1 ":alt" (SqlValue.int qa.2)] else []) =
      st.1 ++ (MapQuery.bindCoordinatePointInRect r qa.1 ++
      [SqlCall.bindValue qa.1 ":type" (SqlValue.text typeStr)] ++
      (if qa.2 > 0 then [SqlCall.bindValue qa.1 ":alt" (SqlValue.int qa.2)] else [])) := by
    simp only [List.append_assoc]
  rw [e, executions_append, hb, List.append_nil, ← e]
  simp only [executionsFrom, hv]

theorem MapQuery.airspaceTypes_fold_executions {T : MapTypes} (env : Collaborators T)
    (qa : SqlQuery × Int) (r : GeoDataLatLonBox) (typeStrings : List String)
    (st : List SqlCall × List T.MapAirspace) (sql0 : List SqlCall)
    (hq : qa.1.placeholders = [":leftx", ":rightx", ":bottomy", ":topy", ":type"] ∨
      qa.1.placeholders = [":leftx", ":rightx", ":bottomy", ":topy", ":type", ":alt"])
    (hinv : ¬ qa.2 > 0 → boundValue st.1 qa.1 ":alt" = boundValue sql0 qa.1 ":alt") :
    executions (typeStrings.foldl (MapQuery.airspaceQueryStep env qa r) st).1 =
      executions st.1 ++ typeStrings.map fun typeStr =>
        (qa.1, MapQuery.airspaceValues sql0 qa.1 qa.2 r typeStr) := by
  induction typeStrings generalizing st with
  | nil => simp
  | cons ts rest ih =>
    have h := MapQuery.airspaceQueryStep_spec env qa r st ts sql0 hq hinv
    rw [List.foldl_cons, ih _ h.2,
      MapQuery.airspaceQueryStep_executions env qa r st ts sql0 hq hinv]
    simp

theorem MapQuery.airspaceRects_fold_executions {T : MapTypes} (env : Collaborators T)
    (qa : SqlQuery × Int) (rects : List GeoDataLatLonBox) (typeStrings : List String)
    (st : List SqlCall × List T.MapAirspace) (sql0 : List SqlCall)
    (hq : qa.1.placeholders = [":leftx", ":rightx", ":bottomy", ":topy", ":type"] ∨
      qa.1.placeholders = [":leftx", ":rightx", ":bottomy", ":topy", ":type", ":alt"])
    (hinv : ¬ qa.2 > 0 → boundValue st.1 qa.1 ":alt" = boundValue sql0 qa.1 ":alt") :
    executions
        (rects.foldl (fun st r => typeStrings.foldl (MapQuery.airspaceQueryStep env qa r) st)
          st).1 =
      executions st.1 ++ rects.flatMap fun r => typeStrings.map fun typeStr =>
        (qa.1, MapQuery.airspaceValues sql0 qa.1 qa.2 r typeStr) := by
  induction rects generalizing st with
  | nil => simp
  | cons r rest ih =>
    have h := MapQuery.airspaceTypes_fold_spec env qa r typeStrings st sql0 hq hinv
    rw [List.foldl_cons, ih _ h.2,
      MapQuery.airspaceTypes_fold_executions env qa r typeStrings st sql0 hq hinv]
    simp

/-- The executions of a refetch: one per rectangle of `splitAtAntiMeridian`
and type string, rectangle by rectangle, each on the selected statement. -/
theorem MapQuery.airspaceRefetch_executions {T : MapTypes} (env : Collaborators T)
    (sql : List SqlCall) (list : List T.MapAirspace) (rect : GeoDataLatLonBox) (types : Nat)
    (flightPlanAltitude : ℚ) :
    executions (MapQuery.airspaceRefetch env (sql, list) rect types flightPlanAltitude).1 =
      executions sql ++ (MapQuery.splitAtAntiMeridian env.inflation rect).flatMap fun r =>
        (MapQuery.airspaceTypeStrings env types).map fun typeStr =>
          ((MapQuery.airspaceQueryAndAlt env types flightPlanAltitude).1,
            MapQuery.airspaceValues sql (MapQuery.airspaceQueryAndAlt env types flightPlanAltitude).1
              (MapQuery.airspaceQueryAndAlt env types flightPlanAltitude).2 r typeStr) := by
  unfold MapQuery.airspaceRefetch
  exact MapQuery.airspaceRects_fold_executions env _ _ _ (sql, list) sql
    (MapQuery.airspaceQueryAndAlt_placeholders env types flightPlanAltitude) (fun _ => rfl)

/-- The calls a non-lazy `getAirspaces` makes when it finds the list empty
after the clearing step, for a type mask other than `AIRSPACE_NONE`. -/
theorem MapQuery.getAirspaces_sql_eq_refetch {T : MapTypes} (env : Collaborators T)
    (s : MapQuery T) (rect : GeoDataLatLonBox) (mapLayer : T.MapLayer) (types : Nat)
    (flightPlanAltitude : ℚ) (hn : types ≠ env.flags.AIRSPACE_NONE)
    (hm : s.airspaceCache.list = [] ∨
      s.airspaceCache.isValid env.contains rect mapLayer env.hasSameQueryParametersAirspace =
        false ∨
      types ≠ s.lastAirspaceTypes ∨
      env.almostNotEqual s.lastFlightplanAltitude flightPlanAltitude = true) :
    (MapQuery.getAirspaces env s rect mapLayer types flightPlanAltitude false).2.sql =
      (MapQuery.airspaceRefetch env (s.sql, []) rect types flightPlanAltitude).1 := by
  have key : (if (types != s.lastAirspaceTypes ||
        env.almostNotEqual s.lastFlightplanAltitude flightPlanAltitude) = true then
      ({ s.airspaceCache.updateCache env.contains env.inflation rect mapLayer false
          env.hasSameQueryParametersAirspace with list := [] } :
        SimpleRectCache T.MapLayer T.MapAirspace)
      else s.airspaceCache.updateCache env.contains env.inflation rect mapLayer false
        env.hasSameQueryParametersAirspace).list = [] := by
    split_ifs with hc
    · rfl
    · simp only [Bool.or_eq_true, bne_iff_ne, ne_eq, not_or, Decidable.not_not,
        Bool.not_eq_true] at hc
      rcases hm with h | h | h | h
      · rcases SimpleRectCache.updateCache_list s.airspaceCache env.contains env.inflation rect
          mapLayer false env.hasSameQueryParametersAirspace with h2 | h2
        · rw [h2, h]
        · exact h2
      · simp [SimpleRectCache.updateCache, h]
      · exact absurd hc.1 h
      · rw [hc.2] at h; exact absurd h (by simp)
  simp only [MapQuery.getAirspaces, SimpleRectCache.validate, key, List.isEmpty_nil,
    Bool.not_false, Bool.and_self, if_true, hn, ne_eq, not_false_eq_true]
  rfl


theorem MapQuery.airspaceTypeStrings_of_ne_all {T : MapTypes} (env : Collaborators T)
    (types : Nat) (h : types ≠ env.flags.AIRSPACE_ALL) :
    MapQuery.airspaceTypeStrings env types =
      ((List.range (env.flags.MAP_AIRSPACE_TYPE_BITS + 1)).filter fun i => types.testBit i).map
        fun i => env.airspaceTypeToDatabase (2 ^ i) := by
  unfold MapQuery.airspaceTypeStrings
  rw [if_neg h]
  simp only [Nat.one_shiftLeft]
  induction List.range (env.flags.MAP_AIRSPACE_TYPE_BITS + 1) with
  | nil => rfl
  | cons i l ih =>
    have hb : (types &&& 2 ^ i ≠ 0) ↔ types.testBit i = true := by
      rw [Nat.and_two_pow]
      cases h : types.testBit i <;> simp
    by_cases ht : types.testBit i = true
    · rw [List.filterMap_cons, if_pos (hb.mpr ht), List.filter_cons, if_pos ht, List.map_cons, ih]
    · have hn : ¬ (types &&& 2 ^ i ≠ 0) := fun h => ht (hb.mp h)
      rw [List.filterMap_cons, if_neg hn, List.filter_cons, if_neg ht, ih]

/-- C24: a non-lazy `getAirspaces` that finds the list empty after the
clearing step.  For the type mask `AIRSPACE_NONE` it makes no call on a
prepared statement and the list stays empty.  For any other mask the type
strings are the single wildcard `"%"` when the mask equals `AIRSPACE_ALL`, and
otherwise the database strings of the set bits `i` of the mask with
`0 <= i <= MAP_AIRSPACE_TYPE_BITS`, in ascending order of `i` (so they are the
single wildcard only for `AIRSPACE_ALL`, no type having `"%"` as database
string); the executions of the call are, rectangle by rectangle of
`splitAtAntiMeridian` and type string by type string, one execution of the
selected statement with the edges of the rectangle and the type string bound,
so their number is the number of rectangles times the number of type
strings. -/
theorem MapQuery.getAirspaces_refetch_type_strings {T : MapTypes} (env : Collaborators T)
    (s : MapQuery T) (rect : GeoDataLatLonBox) (mapLayer : T.MapLayer) (types : Nat)
    (flightPlanAltitude : ℚ)
    (hm : s.airspaceCache.list = [] ∨
      s.airspaceCache.isValid env.contains rect mapLayer env.hasSameQueryParametersAirspace =
        false ∨
      types ≠ s.lastAirspaceTypes ∨
      env.almostNotEqual s.lastFlightplanAltitude flightPlanAltitude = true) :
    (types = env.flags.AIRSPACE_NONE →
      (MapQuery.getAirspaces env s rect mapLayer types flightPlanAltitude false).2.sql = s.sql ∧
        (MapQuery.getAirspaces env s rect mapLayer types flightPlanAltitude false).1 = [] ∧
        (MapQuery.getAirspaces env s rect mapLayer types flightPlanAltitude
          false).2.airspaceCache.list = []) ∧
    (types ≠ env.flags.AIRSPACE_NONE →
      executions
          (MapQuery.getAirspaces env s rect mapLayer types flightPlanAltitude false).2.sql =
        executions s.sql ++ ((MapQuery.splitAtAntiMeridian env.inflation rect).flatMap fun r =>
          (MapQuery.airspaceTypeStrings env types).map fun typeStr =>
            ((MapQuery.airspaceQueryAndAlt env types flightPlanAltitude).1,
              MapQuery.airspaceValues s.sql
                (MapQuery.airspaceQueryAndAlt env types flightPlanAltitude).1
                (MapQuery.airspaceQueryAndAlt env types flightPlanAltitude).2 r typeStr)) ∧
      execCount
          (MapQuery.getAirspaces env s rect mapLayer types flightPlanAltitude false).2.sql =
        execCount s.sql + (MapQuery.splitAtAntiMeridian env.inflation rect).length *
          (MapQuery.airspaceTypeStrings env types).length) ∧
    (∀ (sql : List SqlCall) (query : SqlQuery) (alt : Int) (r : GeoDataLatLonBox)
        (typeStr : String),
      (MapQuery.airspaceValues sql query alt r typeStr).take 5 =
        [some (SqlValue.real r.west), some (SqlValue.real r.east), some (SqlValue.real r.south),
          some (SqlValue.real r.north), some (SqlValue.text typeStr)]) ∧
    (types = env.flags.AIRSPACE_ALL → MapQuery.airspaceTypeStrings env types = ["%"]) ∧
    (types ≠ env.flags.AIRSPACE_ALL →
      MapQuery.airspaceTypeStrings env types =
        ((List.range (env.flags.MAP_AIRSPACE_TYPE_BITS + 1)).filter
          fun i => types.testBit i).map fun i => env.airspaceTypeToDatabase (2 ^ i)) ∧
    ((∀ t, env.airspaceTypeToDatabase t ≠ "%") →
      (MapQuery.airspaceTypeStrings env types = ["%"] ↔ types = env.flags.AIRSPACE_ALL)) := by
  refine ⟨?_, ?_, ?_, ?_, ?_, ?_⟩
  · intro hn
    have key : (if (types != s.lastAirspaceTypes ||
          env.almostNotEqual s.lastFlightplanAltitude flightPlanAltitude) = true then
        ({ s.airspaceCache.updateCache env.contains env.inflation rect mapLayer false
            env.hasSameQueryParametersAirspace with list := [] } :
          SimpleRectCache T.MapLayer T.MapAirspace)
        else s.airspaceCache.updateCache env.contains env.inflation rect mapLayer false
          env.hasSameQueryParametersAirspace).list = [] := by
      split_ifs with hc
      · rfl
      · simp only [Bool.or_eq_true, bne_iff_ne, ne_eq, not_or, Decidable.not_not,
          Bool.not_eq_true] at hc
        rcases hm with h | h | h | h
        · rcases SimpleRectCache.updateCache_list s.airspaceCache env.contains env.inflation rect
            mapLayer false env.hasSameQueryParametersAirspace with h2 | h2
          · rw [h2, h]
          · exact h2
        · simp [SimpleRectCache.updateCache, h]
        · exact absurd hc.1 h
        · rw [hc.2] at h; exact absurd h (by simp)
    simp only [MapQuery.getAirspaces, SimpleRectCache.validate, key, List.isEmpty_nil,
      Bool.not_false, Bool.and_self, if_true]
    simp [hn]
  · intro hn
    have he : executions
        (MapQuery.getAirspaces env s rect mapLayer types flightPlanAltitude false).2.sql =
        executions s.sql ++ (MapQuery.splitAtAntiMeridian env.inflation rect).flatMap fun r =>
          (MapQuery.airspaceTypeStrings env types).map fun typeStr =>
            ((MapQuery.airspaceQueryAndAlt env types flightPlanAltitude).1,
              MapQuery.airspaceValues s.sql
                (MapQuery.airspaceQueryAndAlt env types flightPlanAltitude).1
                (MapQuery.airspaceQueryAndAlt env types flightPlanAltitude).2 r typeStr) := by
      rw [MapQuery.getAirspaces_sql_eq_refetch env s rect mapLayer types flightPlanAltitude hn
        hm, MapQuery.airspaceRefetch_executions]
    refine ⟨he, ?_⟩
    rw [execCount_eq_length_executions, he, List.length_append, ← execCount_eq_length_executions,
      List.length_flatMap]
    simp [Function.comp_def, List.map_const', List.sum_replicate]
  · intro sql query alt r typeStr
    rfl
  · intro h
    simp [MapQuery.airspaceTypeStrings, h]
  · exact MapQuery.airspaceTypeStrings_of_ne_all env types
  · intro hdb
    constructor
    · intro h
      by_contra hne
      rw [MapQuery.airspaceTypeStrings_of_ne_all env types hne] at h
      have hmem : "%" ∈ ((List.range (env.flags.MAP_AIRSPACE_TYPE_BITS + 1)).filter
          fun i => types.testBit i).map fun i => env.airspaceTypeToDatabase (2 ^ i) := by
        rw [h]; exact List.mem_singleton.mpr rfl
      obtain ⟨i, -, hi⟩ := List.mem_map.mp hmem
      exact hdb _ hi
    · intro h
      simp [MapQuery.airspaceTypeStrings, h]


/-- C24, instance: a fetch across the date line for the type bits 0 and 2
executes the statement once per rectangle and type string. -/
theorem MapQuery.getAirspaces_refetch_type_strings_witness :
    execCount (MapQuery.getAirspaces Sample.dateLineEnv {} Sample.dateLineRect 0 5 0
        false).2.sql =
      execCount ({} : MapQuery Sample.types).sql +
        (MapQuery.splitAtAntiMeridian Sample.dateLineEnv.inflation Sample.dateLineRect).length *
          (MapQuery.airspaceTypeStrings Sample.dateLineEnv 5).length :=
  ((MapQuery.getAirspaces_refetch_type_strings Sample.dateLineEnv {} Sample.dateLineRect 0 5 0
    (Or.inl rfl)).2.1 (by decide)).2

/-- C30: a fetch with the at-flight-plan flag and type bit 0 for the flight
plan altitude 5000 followed by the same fetch for the altitude 0, which rounds
to 0.  The second call executes the at-altitude statement with `:alt` still
holding 5000, the value of the first call; and on a fresh state a call for
the altitude 0 executes it with `:alt` not bound at all. -/
theorem MapQuery.getAirspaces_stale_altitude_at_flightplan :
    (Sample.env [] layer.DataSource.ALL).roundToInt 0 = 0 ∧
      (MapQuery.airspaceQueryAndAlt (Sample.env [] layer.DataSource.ALL) 257 0 =
        (SqlQuery.airspaceByRectAtAltQuery, 0)) ∧
      (executions (MapQuery.getAirspaces (Sample.env [] layer.DataSource.ALL)
          (MapQuery.getAirspaces (Sample.env [] layer.DataSource.ALL) {} Sample.rect 0 257 5000
            false).2
          Sample.rect 0 257 0 false).2.sql).map (fun e => (e.1, e.2.drop 5)) =
        [(SqlQuery.airspaceByRectAtAltQuery, [some (SqlValue.int 5000)]),
          (SqlQuery.airspaceByRectAtAltQuery, [some (SqlValue.int 5000)])] ∧
      (executions (MapQuery.getAirspaces (Sample.env [] layer.DataSource.ALL) {} Sample.rect 0
          257 0 false).2.sql).map (fun e => (e.1, e.2.drop 5)) =
        [(SqlQuery.airspaceByRectAtAltQuery, [none])] := by
  refine ⟨by decide!, by decide!, by decide!, by decide!⟩


/-! ### Start positions -/

theorem MapQuery.rowsScanned_eq {T : MapTypes} (env : Collaborators T) (rows : List T.SqlRecord) :
    MapQuery.rowsScanned env rows =
      rows.takeWhile (fun row => !env.isHardSurface (env.valueString row "surface")) ++
        (rows.dropWhile (fun row => !env.isHardSurface (env.valueString row "surface"))).take 1 := by
  induction rows with
  | nil => rfl
  | cons row rest ih =>
    by_cases h : env.isHardSurface (env.valueString row "surface") = true
    · simp [MapQuery.rowsScanned, h, List.takeWhile_cons, List.dropWhile_cons]
    · simp [MapQuery.rowsScanned, h, List.takeWhile_cons, List.dropWhile_cons, ih]

theorem MapQuery.rowsScanned_all_or_hard {T : MapTypes} (env : Collaborators T)
    (rows : List T.SqlRecord) :
    MapQuery.rowsScanned env rows = rows ∨
      ∃ row ∈ MapQuery.rowsScanned env rows,
        env.isHardSurface (env.valueString row "surface") = true := by
  induction rows with
  | nil => exact Or.inl rfl
  | cons row rest ih =>
    by_cases h : env.isHardSurface (env.valueString row "surface") = true
    · exact Or.inr ⟨row, by simp [MapQuery.rowsScanned, h], h⟩
    · rcases ih with ih | ⟨r, hr, hh⟩
      · exact Or.inl (by simp [MapQuery.rowsScanned, h, ih])
      · exact Or.inr ⟨r, by simp [MapQuery.rowsScanned, h, hr], hh⟩

theorem MapQuery.rowsScanned_subset {T : MapTypes} (env : Collaborators T)
    (rows : List T.SqlRecord) : ∀ row ∈ MapQuery.rowsScanned env rows, row ∈ rows := by
  induction rows with
  | nil => simp [MapQuery.rowsScanned]
  | cons row rest ih =>
    intro r hr
    unfold MapQuery.rowsScanned at hr
    split_ifs at hr
    · simp only [List.mem_singleton] at hr
      subst hr
      exact List.mem_cons_self _ _
    · rcases List.mem_cons.mp hr with h | h
      · subst h; exact List.mem_cons_self _ _
      · exact List.mem_cons_of_mem _ (ih r h)

/-- The start the row loop yields: with the rows `processed` read so far and
the best of them held, the loop ends with the first best row among the rows
read. -/
theorem MapQuery.bestStartLoop_fst {T : MapTypes} (env : Collaborators T)
    (h1 : ∀ surface, 0 ≤ env.surfaceQuality surface) (rows : List T.SqlRecord) (best : Int)
    (start : T.MapStart) (sql : List SqlCall) (processed : List T.SqlRecord)
    (inv : (processed = [] ∧ best = -1) ∨
      ∃ row ∈ processed, start = env.fillStart row ∧
        best = env.surfaceQuality (env.valueString row "surface") ∧
        ∀ r ∈ processed, env.surfaceQuality (env.valueString r "surface") ≤
          env.surfaceQuality (env.valueString row "surface")) :
    (processed ++ MapQuery.rowsScanned env rows = [] ∧
        (MapQuery.bestStartLoop env rows best start sql).1 = start) ∨
      ∃ row ∈ processed ++ MapQuery.rowsScanned env rows,
        (MapQuery.bestStartLoop env rows best start sql).1 = env.fillStart row ∧
        ∀ r ∈ processed ++ MapQuery.rowsScanned env rows,
          env.surfaceQuality (env.valueString r "surface") ≤
            env.surfaceQuality (env.valueString row "surface") := by
  induction rows generalizing best start sql processed with
  | nil =>
    rcases inv with ⟨hp, -⟩ | ⟨row, hr, hs, -, hmax⟩
    · exact Or.inl ⟨by simp [MapQuery.rowsScanned, hp], rfl⟩
    · exact Or.inr ⟨row, by simpa [MapQuery.rowsScanned] using hr, hs,
        by simpa [MapQuery.rowsScanned] using hmax⟩
  | cons row rest ih =>
    have inv2 : ∃ row2 ∈ processed ++ [row],
        (if (decide (env.surfaceQuality (env.valueString row "surface") > best) ||
            decide (best = -1)) = true then env.fillStart row else start) =
          env.fillStart row2 ∧
        (if (decide (env.surfaceQuality (env.valueString row "surface") > best) ||
            decide (best = -1)) = true then env.surfaceQuality (env.valueString row "surface")
          else best) = env.surfaceQuality (env.valueString row2 "surface") ∧
        ∀ r ∈ processed ++ [row], env.surfaceQuality (env.valueString r "surface") ≤
          env.surfaceQuality (env.valueString row2 "surface") := by
      by_cases hb : (decide (env.surfaceQuality (env.valueString row "surface") > best) ||
          decide (best = -1)) = true
      · refine ⟨row, by simp, by simp [hb], by simp [hb], ?_⟩
        intro r hr
        rcases List.mem_append.mp hr with hr | hr
        · rcases inv with ⟨hp, -⟩ | ⟨row0, -, -, hbest, hmax⟩
          · rw [hp] at hr; simp at hr
          · have h0 := h1 (env.valueString row0 "surface")
            have hlt : env.surfaceQuality (env.valueString row "surface") > best := by
              simp only [Bool.or_eq_true, decide_eq_true_eq] at hb
              rcases hb with hb | hb
              · exact hb
              · omega
            have := hmax r hr
            omega
        · have : r = row := by simpa using hr
          subst this
          exact le_refl _
      · simp only [Bool.or_eq_true, decide_eq_true_eq, not_or] at hb
        rcases inv with ⟨-, hbest⟩ | ⟨row0, hr0, hs, hbest, hmax⟩
        · exact absurd hbest hb.2
        · refine ⟨row0, List.mem_append_left _ hr0, ?_, ?_, ?_⟩
          · rw [if_neg (by simp [hb.1, hb.2])]
            exact hs
          · rw [if_neg (by simp [hb.1, hb.2])]
            exact hbest
          · intro r hr
            rcases List.mem_append.mp hr with hr | hr
            · exact hmax r hr
            · have : r = row := by simpa using hr
              subst this
              omega
    unfold MapQuery.bestStartLoop
    simp only
    by_cases hh : env.isHardSurface (env.valueString row "surface") = true
    · rw [if_pos hh]
      obtain ⟨row2, hr2, hs2, -, hmax2⟩ := inv2
      refine Or.inr ⟨row2, by simpa [MapQuery.rowsScanned, hh] using hr2, hs2, ?_⟩
      simpa [MapQuery.rowsScanned, hh] using hmax2
    · rw [if_neg hh]
      obtain ⟨row2, hr2, hs2, hb2, hmax2⟩ := inv2
      have := ih _ _
        (if (decide (env.surfaceQuality (env.valueString row "surface") > best) ||
            decide (best = -1)) = true then
          (sql ++ [SqlCall.next SqlQuery.bestStartPositionQuery,
            SqlCall.value SqlQuery.bestStartPositionQuery "surface"]) ++
            [SqlCall.record SqlQuery.bestStartPositionQuery]
        else sql ++ [SqlCall.next SqlQuery.bestStartPositionQuery,
            SqlCall.value SqlQuery.bestStartPositionQuery "surface"])
        (processed ++ [row]) (Or.inr ⟨row2, hr2, hs2, hb2, hmax2⟩)
      have e : processed ++ [row] ++ MapQuery.rowsScanned env rest =
          processed ++ MapQuery.rowsScanned env (row :: rest) := by
        simp [MapQuery.rowsScanned, hh]
      rw [e] at this
      rcases this with ⟨hnil, -⟩ | h
      · simp [MapQuery.rowsScanned, hh] at hnil
      · exact Or.inr h


theorem MapQuery.bestStartLoop_reads {T : MapTypes} (env : Collaborators T)
    (rows : List T.SqlRecord) (best : Int) (start : T.MapStart) (sql : List SqlCall) :
    List.count (SqlCall.value SqlQuery.bestStartPositionQuery "surface")
        (MapQuery.bestStartLoop env rows best start sql).2 =
      List.count (SqlCall.value SqlQuery.bestStartPositionQuery "surface") sql +
        (MapQuery.rowsScanned env rows).length := by
  induction rows generalizing best start sql with
  | nil => simp [MapQuery.bestStartLoop, MapQuery.rowsScanned, List.count_append]
  | cons row rest ih =>
    unfold MapQuery.bestStartLoop
    simp only
    by_cases hh : env.isHardSurface (env.valueString row "surface") = true
    · rw [if_pos hh]
      split_ifs <;> simp [MapQuery.rowsScanned, hh, List.count_append, List.count_cons]
    · rw [if_neg hh, ih]
      split_ifs <;>
        simp [MapQuery.rowsScanned, hh, List.count_append, List.count_cons] <;> omega

/-- C21: `getBestStartPositionForAirport` for an airport whose statement
yields at least one row, with surface qualities that are never negative and
hard surfaces that have the highest quality.  The rows read are those up to
and including the first row with a hard surface (all rows if there is none):
the surface is read once for each of them and for no other row.  The start
returned is the start of one of the rows read, and the surface quality of that
row is greater than or equal to that of every row of the sequence. -/
theorem MapQuery.getBestStartPositionForAirport_best_surface {T : MapTypes}
    (env : Collaborators T) (s : MapQuery T) (start : T.MapStart) (airportId : Int)
    (h1 : ∀ surface, 0 ≤ env.surfaceQuality surface)
    (h2 : ∀ hard, env.isHardSurface hard = true →
      ∀ surface, env.surfaceQuality surface ≤ env.surfaceQuality hard)
    (hne : env.db.select SqlQuery.bestStartPositionQuery [some (SqlValue.int airportId)] ≠ []) :
    (∃ row ∈ MapQuery.rowsScanned env
          (env.db.select SqlQuery.bestStartPositionQuery [some (SqlValue.int airportId)]),
        (MapQuery.getBestStartPositionForAirport env s start airportId).1 = env.fillStart row ∧
        ∀ r ∈ env.db.select SqlQuery.bestStartPositionQuery [some (SqlValue.int airportId)],
          env.surfaceQuality (env.valueString r "surface") ≤
            env.surfaceQuality (env.valueString row "surface")) ∧
    List.count (SqlCall.value SqlQuery.bestStartPositionQuery "surface")
        (MapQuery.getBestStartPositionForAirport env s start airportId).2.sql =
      List.count (SqlCall.value SqlQuery.bestStartPositionQuery "surface") s.sql +
        (MapQuery.rowsScanned env
          (env.db.select SqlQuery.bestStartPositionQuery
            [some (SqlValue.int airportId)])).length ∧
    MapQuery.rowsScanned env
        (env.db.select SqlQuery.bestStartPositionQuery [some (SqlValue.int airportId)]) =
      (env.db.select SqlQuery.bestStartPositionQuery [some (SqlValue.int airportId)]).takeWhile
          (fun row => !env.isHardSurface (env.valueString row "surface")) ++
        ((env.db.select SqlQuery.bestStartPositionQuery
          [some (SqlValue.int airportId)]).dropWhile
            (fun row => !env.isHardSurface (env.valueString row "surface"))).take 1 := by
  have hb : boundValues (s.sql ++
      [SqlCall.bindValue SqlQuery.bestStartPositionQuery ":airportId" (SqlValue.int airportId),
        SqlCall.exec SqlQuery.bestStartPositionQuery]) SqlQuery.bestStartPositionQuery =
      [some (SqlValue.int airportId)] := boundValues_airportId _ _ _ rfl
  refine ⟨?_, ?_, MapQuery.rowsScanned_eq env _⟩
  · unfold MapQuery.getBestStartPositionForAirport
    simp only [hb]
    have hl := MapQuery.bestStartLoop_fst env h1
      (env.db.select SqlQuery.bestStartPositionQuery [some (SqlValue.int airportId)]) (-1) start
      (s.sql ++
        [SqlCall.bindValue SqlQuery.bestStartPositionQuery ":airportId" (SqlValue.int airportId),
          SqlCall.exec SqlQuery.bestStartPositionQuery]) [] (Or.inl ⟨rfl, rfl⟩)
    simp only [List.nil_append] at hl
    rcases hl with ⟨hnil, -⟩ | ⟨row, hr, hs, hmax⟩
    · exfalso
      cases hrows : env.db.select SqlQuery.bestStartPositionQuery
          [some (SqlValue.int airportId)] with
      | nil => exact hne hrows
      | cons a l =>
        rw [hrows] at hnil
        unfold MapQuery.rowsScanned at hnil
        split_ifs at hnil
    · refine ⟨row, hr, hs, ?_⟩
      intro r hr2
      rcases MapQuery.rowsScanned_all_or_hard env
          (env.db.select SqlQuery.bestStartPositionQuery [some (SqlValue.int airportId)]) with
        hall | ⟨hrow, hmem, hhard⟩
      · rw [hall] at hmax
        exact hmax r hr2
      · exact le_trans (h2 _ hhard _) (hmax hrow hmem)
  · unfold MapQuery.getBestStartPositionForAirport
    simp only [hb]
    rw [MapQuery.bestStartLoop_reads]
    simp [List.count_append, List.count_cons]


theorem Sample.surfaceQuality_nonneg (surface : String) : 0 ≤ Sample.surfaceQuality surface := by
  unfold Sample.surfaceQuality
  split_ifs <;> decide

theorem Sample.surfaceQuality_le_hard (hard : String)
    (h : (Sample.startEnv [2, 0, 1, 2]).isHardSurface hard = true) (surface : String) :
    Sample.surfaceQuality surface ≤ Sample.surfaceQuality hard := by
  have e : hard = "A" := by simpa [Sample.startEnv, Sample.env] using h
  subst e
  have hA : Sample.surfaceQuality "A" = 20 := by simp [Sample.surfaceQuality]
  rw [hA]
  unfold Sample.surfaceQuality
  split_ifs <;> decide

/-- C21, instance: the rows 2 (unknown surface), 0 (grass), 1 (asphalt) and
2: the loop reads the first three rows and returns the start of row 1. -/
theorem MapQuery.getBestStartPositionForAirport_best_surface_witness :
    (MapQuery.getBestStartPositionForAirport (Sample.startEnv [2, 0, 1, 2]) {} 0 7).1 = 1 ∧
      List.count (SqlCall.value SqlQuery.bestStartPositionQuery "surface")
          (MapQuery.getBestStartPositionForAirport (Sample.startEnv [2, 0, 1, 2]) {} 0
            7).2.sql =
        List.count (SqlCall.value SqlQuery.bestStartPositionQuery "surface")
            ({} : MapQuery Sample.types).sql +
          (MapQuery.rowsScanned (Sample.startEnv [2, 0, 1, 2])
            ((Sample.startEnv [2, 0, 1, 2]).db.select SqlQuery.bestStartPositionQuery
              [some (SqlValue.int 7)])).length ∧
      MapQuery.rowsScanned (Sample.startEnv [2, 0, 1, 2])
          ((Sample.startEnv [2, 0, 1, 2]).db.select SqlQuery.bestStartPositionQuery
            [some (SqlValue.int 7)]) = [2, 0, 1] :=
  ⟨by decide,
    (MapQuery.getBestStartPositionForAirport_best_surface (Sample.startEnv [2, 0, 1, 2]) {} 0 7
      Sample.surfaceQuality_nonneg Sample.surfaceQuality_le_hard (by decide)).2.1,
    by decide⟩


theorem MapQuery.nearestStart_fold {T : MapTypes} (env : Collaborators T) (position : Pos)
    (starts processed : List T.MapStart) (m : ℚ × T.MapStart)
    (inv : (m = (env.INVALID_DISTANCE_VALUE, env.defaultStart) ∧
        ∀ c ∈ processed, ¬ env.distanceMeterTo position (env.startPosition c) <
          env.INVALID_DISTANCE_VALUE) ∨
      (m.2 ∈ processed ∧ m.1 = env.distanceMeterTo position (env.startPosition m.2) ∧
        m.1 < env.INVALID_DISTANCE_VALUE ∧
        ∀ c ∈ processed, m.1 ≤ env.distanceMeterTo position (env.startPosition c))) :
    ((starts.foldl
          (fun (m : ℚ × T.MapStart) s =>
            let dist := env.distanceMeterTo position (env.startPosition s)
            if dist < m.1 then (dist, s) else m) m =
          (env.INVALID_DISTANCE_VALUE, env.defaultStart)) ∧
        ∀ c ∈ processed ++ starts, ¬ env.distanceMeterTo position (env.startPosition c) <
          env.INVALID_DISTANCE_VALUE) ∨
      ((starts.foldl
          (fun (m : ℚ × T.MapStart) s =>
            let dist := env.distanceMeterTo position (env.startPosition s)
            if dist < m.1 then (dist, s) else m) m).2 ∈ processed ++ starts ∧
        (starts.foldl
          (fun (m : ℚ × T.MapStart) s =>
            let dist := env.distanceMeterTo position (env.startPosition s)
            if dist < m.1 then (dist, s) else m) m).1 < env.INVALID_DISTANCE_VALUE ∧
        (starts.foldl
          (fun (m : ℚ × T.MapStart) s =>
            let dist := env.distanceMeterTo position (env.startPosition s)
            if dist < m.1 then (dist, s) else m) m).1 =
          env.distanceMeterTo position (env.startPosition (starts.foldl
            (fun (m : ℚ × T.MapStart) s =>
              let dist := env.distanceMeterTo position (env.startPosition s)
              if dist < m.1 then (dist, s) else m) m).2) ∧
        ∀ c ∈ processed ++ starts,
          env.distanceMeterTo position (env.startPosition (starts.foldl
            (fun (m : ℚ × T.MapStart) s =>
              let dist := env.distanceMeterTo position (env.startPosition s)
              if dist < m.1 then (dist, s) else m) m).2) ≤
            env.distanceMeterTo position (env.startPosition c)) := by
  induction starts generalizing processed m with
  | nil =>
    rcases inv with ⟨hm, hall⟩ | ⟨hmem, hd, hlt, hmin⟩
    · exact Or.inl ⟨hm, by simpa using hall⟩
    · refine Or.inr ⟨by simpa using hmem, hlt, hd, ?_⟩
      intro c hc
      simp only [List.foldl_nil]
      rw [← hd]
      exact hmin c (by simpa using hc)
  | cons a rest ih =>
    rw [List.foldl_cons]
    have e : processed ++ a :: rest = (processed ++ [a]) ++ rest := by simp
    rw [e]
    apply ih
    simp only
    by_cases hlt : env.distanceMeterTo position (env.startPosition a) < m.1
    · rw [if_pos hlt]
      right
      refine ⟨by simp, rfl, ?_, ?_⟩
      · rcases inv with ⟨hm, -⟩ | ⟨-, -, hlt2, -⟩
        · rw [hm] at hlt; exact hlt
        · exact lt_trans hlt hlt2
      · intro c hc
        rcases List.mem_append.mp hc with hc | hc
        · rcases inv with ⟨hm, hall⟩ | ⟨-, -, -, hmin⟩
          · rw [hm] at hlt
            exact le_of_lt (lt_of_lt_of_le hlt (not_lt.mp (hall c hc)))
          · exact le_trans (le_of_lt hlt) (hmin c hc)
        · have : c = a := by simpa using hc
          subst this
          exact le_refl _
    · rw [if_neg hlt]
      rcases inv with ⟨hm, hall⟩ | ⟨hmem, hd, hlt2, hmin⟩
      · left
        refine ⟨hm, ?_⟩
        intro c hc
        rcases List.mem_append.mp hc with hc | hc
        · exact hall c hc
        · have : c = a := by simpa using hc
          subst this
          rw [hm] at hlt
          exact hlt
      · right
        refine ⟨List.mem_append_left _ hmem, hd, hlt2, ?_⟩
        intro c hc
        rcases List.mem_append.mp hc with hc | hc
        · exact hmin c hc
        · have : c = a := by simpa using hc
          subst this
          exact not_lt.mp hlt

theorem MapQuery.nearestStart_spec {T : MapTypes} (env : Collaborators T) (position : Pos)
    (starts : List T.MapStart) :
    ((∃ c ∈ starts, env.distanceMeterTo position (env.startPosition c) <
        env.INVALID_DISTANCE_VALUE) →
      (MapQuery.nearestStart env position starts).2 ∈ starts ∧
        ∀ c ∈ starts,
          env.distanceMeterTo position
              (env.startPosition (MapQuery.nearestStart env position starts).2) ≤
            env.distanceMeterTo position (env.startPosition c)) ∧
    ((∀ c ∈ starts, ¬ env.distanceMeterTo position (env.startPosition c) <
        env.INVALID_DISTANCE_VALUE) →
      (MapQuery.nearestStart env position starts).2 = env.defaultStart) := by
  have h := MapQuery.nearestStart_fold env position starts []
    (env.INVALID_DISTANCE_VALUE, env.defaultStart) (Or.inl ⟨rfl, by simp⟩)
  simp only [List.nil_append] at h
  unfold MapQuery.nearestStart
  constructor
  · rintro ⟨c, hc, hlt⟩
    rcases h with ⟨-, hall⟩ | ⟨hmem, -, -, hmin⟩
    · exact absurd hlt (hall c hc)
    · exact ⟨hmem, hmin⟩
  · intro hall
    rcases h with ⟨hm, -⟩ | ⟨hmem, hlt, hd, -⟩
    · rw [hm]
    · exfalso
      rw [hd] at hlt
      exact hall _ hmem hlt

theorem boundValues_startByNameAndPos (sql : List SqlCall) (airportId number : Int)
    (endName : String) :
    boundValues (sql ++
        [SqlCall.bindValue SqlQuery.startByNameAndPosQuery ":number" (SqlValue.int number),
          SqlCall.bindValue SqlQuery.startByNameAndPosQuery ":runwayName" (SqlValue.text endName),
          SqlCall.bindValue SqlQuery.startByNameAndPosQuery ":airportId" (SqlValue.int airportId),
          SqlCall.exec SqlQuery.startByNameAndPosQuery]) SqlQuery.startByNameAndPosQuery =
      [some (SqlValue.int airportId), some (SqlValue.int number), some (SqlValue.text endName)] := by
  simp [boundValues, boundValue, SqlQuery.placeholders, List.foldl_append]

/-- C22: `getStartByNameAndPos`.  The candidates are the starts of the rows
the statement yields for the airport, the number `runwayEndName.toInt()` and
the runway end name.  With no row the default start is returned.  If some
candidate has a distance to `position` below `INVALID_DISTANCE_VALUE`, the
start returned is one of the candidates and its distance is less than or equal
to that of every candidate.  If there are rows but no candidate has a distance
below `INVALID_DISTANCE_VALUE`, the default start is returned. -/
theorem MapQuery.getStartByNameAndPos_nearest {T : MapTypes} (env : Collaborators T)
    (s : MapQuery T) (airportId : Int) (runwayEndName : String) (position : Pos) :
    (env.db.select SqlQuery.startByNameAndPosQuery
        [some (SqlValue.int airportId), some (SqlValue.int (env.toInt runwayEndName)),
          some (SqlValue.text
            (match env.runwayNameSplit runwayEndName with
              | some (name, designator) => name ++ designator
              | none => runwayEndName))] = [] →
      (MapQuery.getStartByNameAndPos env s airportId runwayEndName position).1 =
        env.defaultStart) ∧
    ((∃ row ∈ env.db.select SqlQuery.startByNameAndPosQuery
        [some (SqlValue.int airportId), some (SqlValue.int (env.toInt runwayEndName)),
          some (SqlValue.text
            (match env.runwayNameSplit runwayEndName with
              | some (name, designator) => name ++ designator
              | none => runwayEndName))],
        env.distanceMeterTo position (env.startPosition (env.fillStart row)) <
          env.INVALID_DISTANCE_VALUE) →
      (∃ row ∈ env.db.select SqlQuery.startByNameAndPosQuery
        [some (SqlValue.int airportId), some (SqlValue.int (env.toInt runwayEndName)),
          some (SqlValue.text
            (match env.runwayNameSplit runwayEndName with
              | some (name, designator) => name ++ designator
              | none => runwayEndName))],
        (MapQuery.getStartByNameAndPos env s airportId runwayEndName position).1 =
          env.fillStart row) ∧
      ∀ row ∈ env.db.select SqlQuery.startByNameAndPosQuery
        [some (SqlValue.int airportId), some (SqlValue.int (env.toInt runwayEndName)),
          some (SqlValue.text
            (match env.runwayNameSplit runwayEndName with
              | some (name, designator) => name ++ designator
              | none => runwayEndName))],
        env.distanceMeterTo position (env.startPosition
            (MapQuery.getStartByNameAndPos env s airportId runwayEndName position).1) ≤
          env.distanceMeterTo position (env.startPosition (env.fillStart row))) ∧
    ((∀ row ∈ env.db.select SqlQuery.startByNameAndPosQuery
        [some (SqlValue.int airportId), some (SqlValue.int (env.toInt runwayEndName)),
          some (SqlValue.text
            (match env.runwayNameSplit runwayEndName with
              | some (name, designator) => name ++ designator
              | none => runwayEndName))],
        ¬ env.distanceMeterTo position (env.startPosition (env.fillStart row)) <
          env.INVALID_DISTANCE_VALUE) →
      (MapQuery.getStartByNameAndPos env s airportId runwayEndName position).1 =
        env.defaultStart) := by
  have hres : (MapQuery.getStartByNameAndPos env s airportId runwayEndName position).1 =
      if !((env.db.select SqlQuery.startByNameAndPosQuery
        [some (SqlValue.int airportId), some (SqlValue.int (env.toInt runwayEndName)),
          some (SqlValue.text
            (match env.runwayNameSplit runwayEndName with
              | some (name, designator) => name ++ designator
              | none => runwayEndName))]).map env.fillStart).isEmpty then
        (MapQuery.nearestStart env position
          ((env.db.select SqlQuery.startByNameAndPosQuery
            [some (SqlValue.int airportId), some (SqlValue.int (env.toInt runwayEndName)),
              some (SqlValue.text
                (match env.runwayNameSplit runwayEndName with
                  | some (name, designator) => name ++ designator
                  | none => runwayEndName))]).map env.fillStart)).2
      else env.defaultStart := by
    unfold MapQuery.getStartByNameAndPos
    simp only [boundValues_startByNameAndPos, MapQuery.whileNext_snd, List.nil_append]
  have hsp := MapQuery.nearestStart_spec env position
    ((env.db.select SqlQuery.startByNameAndPosQuery
      [some (SqlValue.int airportId), some (SqlValue.int (env.toInt runwayEndName)),
        some (SqlValue.text
          (match env.runwayNameSplit runwayEndName with
            | some (name, designator) => name ++ designator
            | none => runwayEndName))]).map env.fillStart)
  refine ⟨?_, ?_, ?_⟩
  · intro h
    rw [hres, h]
    rfl
  · rintro ⟨row, hrow, hlt⟩
    have hne : (!((env.db.select SqlQuery.startByNameAndPosQuery
        [some (SqlValue.int airportId), some (SqlValue.int (env.toInt runwayEndName)),
          some (SqlValue.text
            (match env.runwayNameSplit runwayEndName with
              | some (name, designator) => name ++ designator
              | none => runwayEndName))]).map env.fillStart).isEmpty) = true := by
      cases hr : env.db.select SqlQuery.startByNameAndPosQuery
        [some (SqlValue.int airportId), some (SqlValue.int (env.toInt runwayEndName)),
          some (SqlValue.text
            (match env.runwayNameSplit runwayEndName with
              | some (name, designator) => name ++ designator
              | none => runwayEndName))] with
      | nil => rw [hr] at hrow; simp at hrow
      | cons a l => rfl
    rw [hres, if_pos hne]
    have h2 := hsp.1 ⟨env.fillStart row, List.mem_map_of_mem _ hrow, hlt⟩
    refine ⟨?_, ?_⟩
    · obtain ⟨r, hr, he⟩ := List.mem_map.mp h2.1
      exact ⟨r, hr, he.symm⟩
    · intro r hr
      exact h2.2 _ (List.mem_map_of_mem _ hr)
  · intro hall
    rw [hres]
    split_ifs
    · apply hsp.2
      intro c hc
      obtain ⟨r, hr, he⟩ := List.mem_map.mp hc
      rw [← he]
      exact hall r hr
    · rfl


/-- C22, instance: two candidates for the runway number 9, the start 300 at
a distance of 200 and the start 150 at a distance of 50 from the position
`(100, 0)`: the start 150 is returned. -/
theorem MapQuery.getStartByNameAndPos_nearest_witness :
    (MapQuery.getStartByNameAndPos (Sample.env [300, 150] layer.DataSource.ALL) {} 7 "9"
        ⟨100, 0⟩).1 = 150 ∧
      (Sample.env [300, 150] layer.DataSource.ALL).distanceMeterTo ⟨100, 0⟩
        ((Sample.env [300, 150] layer.DataSource.ALL).startPosition 300) = 200 ∧
      (Sample.env [300, 150] layer.DataSource.ALL).distanceMeterTo ⟨100, 0⟩
        ((Sample.env [300, 150] layer.DataSource.ALL).startPosition 150) = 50 ∧
      ∀ row ∈ (Sample.env [300, 150] layer.DataSource.ALL).db.select
          SqlQuery.startByNameAndPosQuery
          [some (SqlValue.int 7), some (SqlValue.int 9), some (SqlValue.text "9")],
        (Sample.env [300, 150] layer.DataSource.ALL).distanceMeterTo ⟨100, 0⟩
            ((Sample.env [300, 150] layer.DataSource.ALL).startPosition
              (MapQuery.getStartByNameAndPos (Sample.env [300, 150] layer.DataSource.ALL) {} 7
                "9" ⟨100, 0⟩).1) ≤
          (Sample.env [300, 150] layer.DataSource.ALL).distanceMeterTo ⟨100, 0⟩
            ((Sample.env [300, 150] layer.DataSource.ALL).startPosition
              ((Sample.env [300, 150] layer.DataSource.ALL).fillStart row)) :=
  ⟨by decide!, by decide!, by decide!,
    ((MapQuery.getStartByNameAndPos_nearest (Sample.env [300, 150] layer.DataSource.ALL) {} 7
      "9" ⟨100, 0⟩).2.1 ⟨300, by decide, by decide!⟩).2⟩


/-! ### Airway waypoints -/

/-- C27: the airway `V1` runs from the waypoint `ABC` (1) to the waypoint
`DEF` (2).  A call for `V1` with an empty waypoint ident binds `"%"` to
`:waypoint` and appends nothing, although a call with the ident `ABC` appends
the waypoint 1 and one with `DEF` the waypoint 2; a call with an empty airway
name for the ident `ABC` appends nothing either. -/
theorem MapQuery.getWaypointsForAirway_empty_filter_matches_nothing :
    (MapQuery.getWaypointsForAirway (Sample.navEnv Sample.navTables) {} [] "V1" "").1 = [] ∧
      executions
          (MapQuery.getWaypointsForAirway (Sample.navEnv Sample.navTables) {} [] "V1" "").2.sql =
        [(SqlQuery.airwayWaypointByIdentQuery,
          [some (SqlValue.text "%"), some (SqlValue.text "V1")])] ∧
      (MapQuery.getWaypointsForAirway (Sample.navEnv Sample.navTables) {} [] "V1" "ABC").1 =
        [1] ∧
      (MapQuery.getWaypointsForAirway (Sample.navEnv Sample.navTables) {} [] "V1" "DEF").1 =
        [2] ∧
      (MapQuery.getWaypointsForAirway (Sample.navEnv Sample.navTables) {} [] "" "ABC").1 = [] := by
  decide


theorem MapQuery.getWaypointsForAirway_fst {T : MapTypes} (env : Collaborators T)
    (s : MapQuery T) (waypoints : List T.MapWaypoint) (airwayName waypointIdent : String) :
    (MapQuery.getWaypointsForAirway env s waypoints airwayName waypointIdent).1 =
      waypoints ++ (env.db.select SqlQuery.airwayWaypointByIdentQuery
        [some (SqlValue.text (if waypointIdent.isEmpty then "%" else waypointIdent)),
          some (SqlValue.text (if airwayName.isEmpty then "%" else airwayName))]).map
        env.fillWaypoint := by
  have hb : boundValues (s.sql ++
      [SqlCall.bindValue SqlQuery.airwayWaypointByIdentQuery ":waypoint"
          (SqlValue.text (if waypointIdent.isEmpty then "%" else waypointIdent)),
        SqlCall.bindValue SqlQuery.airwayWaypointByIdentQuery ":airway"
          (SqlValue.text (if airwayName.isEmpty then "%" else airwayName)),
        SqlCall.exec SqlQuery.airwayWaypointByIdentQuery])
      SqlQuery.airwayWaypointByIdentQuery =
      [some (SqlValue.text (if waypointIdent.isEmpty then "%" else waypointIdent)),
        some (SqlValue.text (if airwayName.isEmpty then "%" else airwayName))] := by
    simp [boundValues, boundValue, SqlQuery.placeholders, List.foldl_append]
  unfold MapQuery.getWaypointsForAirway
  simp only [hb, MapQuery.whileNext_snd]

theorem List.splitBy_loop_eq_append {α : Type} (R : α → α → Bool) (l : List α) (a : α)
    (g : List α) (gs : List (List α)) :
    List.splitBy.loop R l a g gs = gs.reverse ++ List.splitBy.loop R l a g [] := by
  induction l generalizing a g gs with
  | nil => simp [List.splitBy.loop]
  | cons b l ih =>
    simp only [List.splitBy.loop]
    cases R a b
    · simp only
      rw [ih, ih b [] [_]]
      simp
    · simp only
      exact ih _ _ _

theorem List.splitBy_loop_group {α : Type} (R : α → α → Bool) (l : List α) (a : α)
    (g : List α) :
    List.splitBy.loop R l a g [] =
      match List.splitBy.loop R l a [] [] with
      | h :: t => (g.reverse ++ h) :: t
      | [] => [] := by
  induction l generalizing a g with
  | nil => simp [List.splitBy.loop]
  | cons b l ih =>
    simp only [List.splitBy.loop]
    cases R a b
    · simp only
      rw [List.splitBy_loop_eq_append R l b [] [_],
        List.splitBy_loop_eq_append R l b [] [[a].reverse]]
      simp
    · simp only
      rw [ih b (a :: g), ih b [a]]
      cases List.splitBy.loop R l b [] [] <;> simp

theorem List.splitBy_cons_cons {α : Type} (R : α → α → Bool) (a b : α) (l : List α) :
    List.splitBy R (a :: b :: l) =
      if R a b then
        match List.splitBy R (b :: l) with
        | h :: t => (a :: h) :: t
        | [] => []
      else [a] :: List.splitBy R (b :: l) := by
  simp only [List.splitBy, List.splitBy.loop]
  cases R a b
  · simp only
    rw [List.splitBy_loop_eq_append]
    simp
  · simp only
    rw [List.splitBy_loop_group]
    cases List.splitBy.loop R l b [] [] <;> simp

theorem List.splitBy_singleton {α : Type} (R : α → α → Bool) (a : α) :
    List.splitBy R [a] = [[a]] := by
  simp [List.splitBy, List.splitBy.loop]

theorem MapQuery.getMapObjectById_fst {T : MapTypes} (env : Collaborators T) (s : MapQuery T)
    (result : MapSearchResult T) (id : Int) :
    (MapQuery.getMapObjectById env s result id).1 =
      { result with
        waypoints := result.waypoints ++ (MapQuery.waypointOfId env id).toList } := by
  have hb : boundValues (s.sql ++
      [SqlCall.bindValue SqlQuery.waypointByIdQuery ":id" (SqlValue.int id),
        SqlCall.exec SqlQuery.waypointByIdQuery, SqlCall.next SqlQuery.waypointByIdQuery])
      SqlQuery.waypointByIdQuery = [some (SqlValue.int id)] := by
    simp [boundValues, boundValue, SqlQuery.placeholders, List.foldl_append]
  unfold MapQuery.getMapObjectById MapQuery.getWaypointById MapQuery.waypointOfId
  simp only [hb]
  cases env.db.select SqlQuery.waypointByIdQuery [some (SqlValue.int id)] with
  | nil =>
    simp only
    split_ifs <;> simp
  | cons row rows =>
    simp only
    split_ifs <;> simp

/-- The entries the loop of `getWaypointListForAirwayName` appends: for every
maximal run of consecutive records with the same fragment number, the
from-entry of each record of the run and then the to-entry of its last
record. -/
theorem MapQuery.airwayWaypointLoop_fst {T : MapTypes} (env : Collaborators T)
    (records : List T.SqlRecord) (st : List (MapAirwayWaypoint T) × MapQuery T) :
    (MapQuery.airwayWaypointLoop env records st).1 =
      st.1 ++ (records.splitBy fun a b =>
          env.valueInt a "airway_fragment_no" == env.valueInt b "airway_fragment_no").flatMap
        fun run => run.map (MapQuery.fromEntry env) ++
          (run.getLast?.map (MapQuery.toEntry env)).toList := by
  induction records generalizing st with
  | nil => simp [MapQuery.airwayWaypointLoop]
  | cons rec rest ih =>
    have hfrom : (match (MapQuery.waypointOfId env (env.valueInt rec "from_waypoint_id")).toList
        with
        | wp :: _ =>
          ({ airwayFragmentId := env.valueInt rec "airway_fragment_no",
             seqNum := env.valueInt rec "sequence_no", airwayId := env.valueInt rec "airway_id",
             waypoint := wp } : MapAirwayWaypoint T)
        | [] =>
          { airwayFragmentId := env.valueInt rec "airway_fragment_no",
            seqNum := env.valueInt rec "sequence_no", airwayId := env.valueInt rec "airway_id",
            waypoint := env.defaultWaypoint }) = MapQuery.fromEntry env rec := by
      unfold MapQuery.fromEntry
      cases MapQuery.waypointOfId env (env.valueInt rec "from_waypoint_id") <;> rfl
    have hto : (match (MapQuery.waypointOfId env (env.valueInt rec "to_waypoint_id")).toList
        with
        | wp :: _ =>
          ({ MapQuery.fromEntry env rec with waypoint := wp } : MapAirwayWaypoint T)
        | [] => MapQuery.fromEntry env rec) = MapQuery.toEntry env rec := by
      unfold MapQuery.toEntry
      cases MapQuery.waypointOfId env (env.valueInt rec "to_waypoint_id") <;> rfl
    unfold MapQuery.airwayWaypointLoop
    simp only [MapQuery.getMapObjectById_fst, List.nil_append, hfrom, hto]
    cases rest with
    | nil =>
      simp only [List.isEmpty_nil, Bool.true_or, if_true]
      rw [ih]
      simp [List.splitBy_singleton]
    | cons next rest2 =>
      simp only [List.isEmpty_cons, Bool.false_or]
      rw [List.splitBy_cons_cons]
      by_cases hf : (env.valueInt rec "airway_fragment_no" ==
          env.valueInt next "airway_fragment_no") = true
      · have hne : (env.valueInt rec "airway_fragment_no" !=
            env.valueInt next "airway_fragment_no") = false := by
          simp only [bne, hf, Bool.not_true]
        rw [if_neg (by simp [hne]), if_pos hf, ih]
        have hmem : ∀ m ∈ (next :: rest2).splitBy (fun a b =>
            env.valueInt a "airway_fragment_no" == env.valueInt b "airway_fragment_no"),
            m ≠ [] := fun m hm => List.ne_nil_of_mem_splitBy _ hm
        cases hs : (next :: rest2).splitBy (fun a b =>
            env.valueInt a "airway_fragment_no" == env.valueInt b "airway_fragment_no") with
        | nil =>
          have := List.flatten_splitBy (fun a b =>
            env.valueInt a "airway_fragment_no" == env.valueInt b "airway_fragment_no")
            (next :: rest2)
          rw [hs] at this
          simp at this
        | cons h t =>
          rw [hs] at hmem
          have hh : h ≠ [] := hmem h (List.mem_cons_self _ _)
          obtain ⟨a, h2, rfl⟩ := List.exists_cons_of_ne_nil hh
          simp [List.getLast?_cons_cons]
      · have hne : (env.valueInt rec "airway_fragment_no" !=
            env.valueInt next "airway_fragment_no") = true := by
          simp only [bne, Bool.not_eq_true] at hf ⊢
          simp [hf]
        rw [if_pos hne, if_neg hf, ih]
        simp


theorem List.length_flatMap_runs {α β : Type} (f g : α → β) (runs : List (List α))
    (h : ∀ run ∈ runs, run ≠ []) :
    (runs.flatMap fun run => run.map f ++ (run.getLast?.map g).toList).length =
      runs.flatten.length + runs.length := by
  induction runs with
  | nil => rfl
  | cons run runs ih =>
    have hrun := h run (List.mem_cons_self _ _)
    obtain ⟨a, hlast⟩ : ∃ a, run.getLast? = some a :=
      ⟨run.getLast hrun, List.getLast?_eq_getLast _ hrun⟩
    rw [List.flatMap_cons, List.length_append, ih fun r hr => h r (List.mem_cons_of_mem _ hr)]
    simp [hlast]
    omega

/-- C29: `getWaypointListForAirwayName` appends, for every maximal run of
consecutive records with equal `airway_fragment_no`, one from-entry per record
of the run and then one to-entry for the last record of the run; so the number
of entries appended is the number of records plus the number of runs.  The
runs are those of `List.splitBy`: joined they give the records, none is empty,
the records of a run have the same fragment number, and the last record of a
run and the first of the next run have different fragment numbers.  An entry
carries the fragment number, the sequence number and the airway id of its
record whatever the waypoint lookup finds; its waypoint is the one found or
else the default waypoint (from-entry) or the from-waypoint (to-entry). -/
theorem MapQuery.getWaypointListForAirwayName_entries {T : MapTypes} (env : Collaborators T)
    (s : MapQuery T) (waypoints : List (MapAirwayWaypoint T)) (airwayName : String) :
    ((MapQuery.getWaypointListForAirwayName env s waypoints airwayName).1 =
      waypoints ++
        ((env.db.select SqlQuery.airwayWaypointsQuery [some (SqlValue.text airwayName)]).splitBy
          fun a b => env.valueInt a "airway_fragment_no" ==
            env.valueInt b "airway_fragment_no").flatMap
          fun run => run.map (MapQuery.fromEntry env) ++
            (run.getLast?.map (MapQuery.toEntry env)).toList) ∧
    ((MapQuery.getWaypointListForAirwayName env s waypoints airwayName).1.length =
      waypoints.length +
        (env.db.select SqlQuery.airwayWaypointsQuery [some (SqlValue.text airwayName)]).length +
        ((env.db.select SqlQuery.airwayWaypointsQuery
          [some (SqlValue.text airwayName)]).splitBy
          fun a b => env.valueInt a "airway_fragment_no" ==
            env.valueInt b "airway_fragment_no").length) ∧
    (((env.db.select SqlQuery.airwayWaypointsQuery [some (SqlValue.text airwayName)]).splitBy
        fun a b => env.valueInt a "airway_fragment_no" ==
          env.valueInt b "airway_fragment_no").flatten =
      env.db.select SqlQuery.airwayWaypointsQuery [some (SqlValue.text airwayName)]) ∧
    (∀ run ∈ (env.db.select SqlQuery.airwayWaypointsQuery
        [some (SqlValue.text airwayName)]).splitBy
        fun a b => env.valueInt a "airway_fragment_no" == env.valueInt b "airway_fragment_no",
      run ≠ [] ∧
        run.Chain' fun a b =>
          env.valueInt a "airway_fragment_no" = env.valueInt b "airway_fragment_no") ∧
    (((env.db.select SqlQuery.airwayWaypointsQuery [some (SqlValue.text airwayName)]).splitBy
        fun a b => env.valueInt a "airway_fragment_no" ==
          env.valueInt b "airway_fragment_no").Chain'
      fun run next => ∃ (ha : run ≠ []) (hb : next ≠ []),
        env.valueInt (run.getLast ha) "airway_fragment_no" ≠
          env.valueInt (next.head hb) "airway_fragment_no") ∧
    (∀ rec,
      ((MapQuery.fromEntry env rec).airwayFragmentId = env.valueInt rec "airway_fragment_no" ∧
        (MapQuery.fromEntry env rec).seqNum = env.valueInt rec "sequence_no" ∧
        (MapQuery.fromEntry env rec).airwayId = env.valueInt rec "airway_id") ∧
      ((MapQuery.toEntry env rec).airwayFragmentId = env.valueInt rec "airway_fragment_no" ∧
        (MapQuery.toEntry env rec).seqNum = env.valueInt rec "sequence_no" ∧
        (MapQuery.toEntry env rec).airwayId = env.valueInt rec "airway_id")) := by
  have hb : boundValues (s.sql ++
      [SqlCall.bindValue SqlQuery.airwayWaypointsQuery ":name" (SqlValue.text airwayName),
        SqlCall.exec SqlQuery.airwayWaypointsQuery]) SqlQuery.airwayWaypointsQuery =
      [some (SqlValue.text airwayName)] := by
    simp [boundValues, boundValue, SqlQuery.placeholders, List.foldl_append]
  have hrec : ∀ (rows : List T.SqlRecord) (st : List SqlCall × List T.SqlRecord),
      (MapQuery.whileNext SqlQuery.airwayWaypointsQuery (fun records row => records ++ [row])
        rows st).2 = st.2 ++ rows := by
    intro rows st
    have := MapQuery.whileNext_snd SqlQuery.airwayWaypointsQuery (fun row => row) rows st
    simpa using this
  have hout : (MapQuery.getWaypointListForAirwayName env s waypoints airwayName).1 =
      waypoints ++
        ((env.db.select SqlQuery.airwayWaypointsQuery [some (SqlValue.text airwayName)]).splitBy
          fun a b => env.valueInt a "airway_fragment_no" ==
            env.valueInt b "airway_fragment_no").flatMap
          fun run => run.map (MapQuery.fromEntry env) ++
            (run.getLast?.map (MapQuery.toEntry env)).toList := by
    unfold MapQuery.getWaypointListForAirwayName
    simp only [hb, hrec, List.nil_append, MapQuery.airwayWaypointLoop_fst]
  refine ⟨hout, ?_, List.flatten_splitBy _ _, ?_, ?_, ?_⟩
  · rw [hout, List.length_append,
      List.length_flatMap_runs _ _ _ (fun run hr => List.ne_nil_of_mem_splitBy _ hr),
      List.flatten_splitBy]
    omega
  · intro run hr
    refine ⟨List.ne_nil_of_mem_splitBy _ hr, ?_⟩
    have := List.chain'_of_mem_splitBy hr
    refine List.Chain'.imp ?_ this
    intro a b hab
    simpa using hab
  · have := List.chain'_getLast_head_splitBy (fun a b =>
      env.valueInt a "airway_fragment_no" == env.valueInt b "airway_fragment_no")
      (env.db.select SqlQuery.airwayWaypointsQuery [some (SqlValue.text airwayName)])
    refine List.Chain'.imp ?_ this
    rintro a b ⟨ha, hb2, hab⟩
    exact ⟨ha, hb2, by simpa using hab⟩
  · intro rec
    exact ⟨⟨rfl, rfl, rfl⟩, ⟨rfl, rfl, rfl⟩⟩


/-- C29, instance: five records with the fragment numbers 1, 1, 2, 3, 3 give
three runs and eight entries; the to-waypoint 22 of the third record is not in
the database, and its to-entry keeps the from-waypoint 21. -/
theorem MapQuery.getWaypointListForAirwayName_entries_witness :
    ((MapQuery.getWaypointListForAirwayName (Sample.airwayEnvOf [11, 12, 21, 31, 32]) {} []
        "V1").1.length =
      ([] : List (MapAirwayWaypoint Sample.types)).length +
        ((Sample.airwayEnvOf [11, 12, 21, 31, 32]).db.select SqlQuery.airwayWaypointsQuery
          [some (SqlValue.text "V1")]).length +
        (((Sample.airwayEnvOf [11, 12, 21, 31, 32]).db.select SqlQuery.airwayWaypointsQuery
          [some (SqlValue.text "V1")]).splitBy
          fun a b => (Sample.airwayEnvOf [11, 12, 21, 31, 32]).valueInt a "airway_fragment_no" ==
            (Sample.airwayEnvOf [11, 12, 21, 31, 32]).valueInt b "airway_fragment_no").length) ∧
      (MapQuery.getWaypointListForAirwayName (Sample.airwayEnvOf [11, 12, 21, 31, 32]) {} []
        "V1").1.length = 8 ∧
      ((MapQuery.getWaypointListForAirwayName (Sample.airwayEnvOf [11, 12, 21, 31, 32]) {} []
        "V1").1.map fun e => (e.airwayFragmentId, e.seqNum, e.waypoint)) =
        [(1, 11, 11), (1, 12, 0), (1, 12, 13), (2, 21, 21), (2, 21, 21), (3, 31, 31),
          (3, 32, 0), (3, 32, 33)] :=
  ⟨(MapQuery.getWaypointListForAirwayName_entries (Sample.airwayEnvOf [11, 12, 21, 31, 32]) {}
      [] "V1").2.1,
    by decide, by decide⟩


/-! ### Keyed caches: the order of use -/

theorem recentFirst_append_singleton (ids : List Int) (id : Int) :
    recentFirst (ids ++ [id]) = id :: (recentFirst ids).erase id := by
  simp [recentFirst, List.foldl_append]

theorem List.exists_last_occurrence (l : List Int) (x : Int) (h : x ∈ l) :
    ∃ pre post, l = pre ++ x :: post ∧ x ∉ post := by
  induction l with
  | nil => cases h
  | cons a l ih =>
    by_cases hx : x ∈ l
    · obtain ⟨pre, post, e, hp⟩ := ih hx
      exact ⟨a :: pre, post, by rw [e]; rfl, hp⟩
    · have : x = a := by
        rcases List.mem_cons.mp h with h | h
        · exact h
        · exact absurd h hx
      subst this
      exact ⟨[], l, rfl, hx⟩

/-- The order `recentFirst` has every requested key once, and a key stands
before another exactly when it was requested after the last request of the
other. -/
theorem recentFirst_spec (ids : List Int) :
    (recentFirst ids).Nodup ∧ (∀ x, x ∈ recentFirst ids ↔ x ∈ ids) ∧
      (recentFirst ids).Pairwise fun x y =>
        ∃ pre post, ids = pre ++ y :: post ∧ y ∉ post ∧ x ∈ post := by
  induction ids using List.reverseRecOn with
  | nil => simp [recentFirst]
  | append_singleton ids id ih =>
    obtain ⟨hnd, hmem, hpw⟩ := ih
    rw [recentFirst_append_singleton]
    have hmem2 : ∀ y, y ∈ (recentFirst ids).erase id ↔ y ≠ id ∧ y ∈ ids := by
      intro y
      rw [hnd.mem_erase_iff, hmem]
    refine ⟨?_, ?_, ?_⟩
    · refine List.nodup_cons.mpr ⟨?_, hnd.erase id⟩
      intro h
      exact ((hmem2 id).mp h).1 rfl
    · intro x
      rw [List.mem_cons, hmem2, List.mem_append, List.mem_singleton]
      by_cases hx : x = id
      · simp [hx]
      · simp [hx]
    · refine List.pairwise_cons.mpr ⟨?_, ?_⟩
      · intro y hy
        obtain ⟨hyne, hyin⟩ := (hmem2 y).mp hy
        obtain ⟨pre, post, e, hp⟩ := List.exists_last_occurrence ids y hyin
        refine ⟨pre, post ++ [id], by rw [e]; simp, ?_, by simp⟩
        simp only [List.mem_append, List.mem_singleton, not_or]
        exact ⟨hp, hyne⟩
      · have hsub := List.Pairwise.sublist (List.erase_sublist id (recentFirst ids)) hpw
        refine List.Pairwise.imp_of_mem ?_ hsub
        intro x y _ hy hxy
        obtain ⟨hyne, -⟩ := (hmem2 y).mp hy
        obtain ⟨pre, post, e, hp, hx⟩ := hxy
        refine ⟨pre, post ++ [id], by rw [e]; simp, ?_, List.mem_append_left _ hx⟩
        simp only [List.mem_append, List.mem_singleton, not_or]
        exact ⟨hp, hyne⟩

theorem List.take_erase_of_mem_take (l : List Int) (x : Int) (n : Nat) (h : x ∈ l.take n) :
    (l.take n).erase x = (l.erase x).take (n - 1) := by
  induction l generalizing n with
  | nil => simp at h
  | cons a l ih =>
    cases n with
    | zero => simp at h
    | succ n =>
      rw [List.take_succ_cons] at h ⊢
      by_cases ha : a = x
      · subst ha
        simp
      · have hx : x ∈ l.take n := by
          rcases List.mem_cons.mp h with h | h
          · exact absurd h.symm ha
          · exact h
        have hn : 1 ≤ n := by
          cases n with
          | zero => simp at hx
          | succ m => omega
        have hbeq : (a == x) = false := by simpa using ha
        rw [List.erase_cons, List.erase_cons, hbeq]
        simp only [Bool.false_eq_true, if_false, Nat.add_sub_cancel]
        rw [ih n hx]
        obtain ⟨m, rfl⟩ : ∃ m, n = m + 1 := ⟨n - 1, by omega⟩
        simp

theorem List.take_erase_of_not_mem_take (l : List Int) (x : Int) (n : Nat)
    (h : x ∉ l.take n) : (l.erase x).take n = l.take n := by
  induction l generalizing n with
  | nil => simp
  | cons a l ih =>
    cases n with
    | zero => simp
    | succ n =>
      rw [List.take_succ_cons] at h
      have ha : a ≠ x := fun e => h (by rw [e]; exact List.mem_cons_self _ _)
      have hx : x ∉ l.take n := fun hx => h (List.mem_cons_of_mem _ hx)
      have hbeq : (a == x) = false := by simpa using ha
      rw [List.erase_cons, hbeq]
      simp only [Bool.false_eq_true, if_false, List.take_succ_cons, ih n hx]

theorem List.map_key_eraseP {V : Type} (l : List (QCache.Node V)) (key : Int) :
    (l.eraseP fun m => m.key == key).map (fun n => n.key) =
      (l.map fun n => n.key).erase key := by
  induction l with
  | nil => rfl
  | cons a l ih =>
    by_cases h : a.key = key
    · have hb : (a.key == key) = true := by simpa using h
      simp [List.eraseP_cons, hb, List.erase_cons]
    · have hb : (a.key == key) = false := by simpa using h
      simp [List.eraseP_cons, hb, List.erase_cons, ih]

/-- Reading a resident key with `object` moves it to the front of the order
of use. -/
theorem QCache.object_keys {V : Type} (c : QCache V) (key : Int) (h : key ∈ c.keys) :
    (c.object key).2.keys = key :: c.keys.erase key := by
  unfold QCache.object QCache.keys at *
  cases hf : c.nodes.find? fun n => n.key == key with
  | none =>
    exfalso
    obtain ⟨n, hn, hk⟩ := List.mem_map.mp h
    have := List.find?_eq_none.mp hf n hn
    simp [hk] at this
  | some n =>
    have hn : n.key = key := by
      have := List.find?_some hf
      simpa using this
    simp only [List.map_cons, List.map_key_eraseP, hn]

/-- One request on a start cache of unit costs and maximum cost `N ≥ 1`: a
resident key moves to the front of the order of use; a key that is not
resident is put in front of the `N - 1` most recently used keys. -/
theorem MapQuery.getStartPositionsForAirport_keys {T : MapTypes} (env : Collaborators T)
    (s : MapQuery T) (airportId : Int) (N : Nat) (hN : 1 ≤ N)
    (hmx : s.startCache.mx = (N : Int)) (hu : ∀ n ∈ s.startCache.nodes, n.c = 1) :
    (MapQuery.getStartPositionsForAirport env s airportId).2.startCache.keys =
        (if airportId ∈ s.startCache.keys then airportId :: s.startCache.keys.erase airportId
          else airportId :: s.startCache.keys.take (N - 1)) ∧
      (MapQuery.getStartPositionsForAirport env s airportId).2.startCache.mx = (N : Int) ∧
      ∀ n ∈ (MapQuery.getStartPositionsForAirport env s airportId).2.startCache.nodes,
        n.c = 1 := by
  by_cases hk : airportId ∈ s.startCache.keys
  · rw [if_pos hk]
    have hc := (QCache.contains_eq_true_iff_mem_keys s.startCache airportId).mpr hk
    have hc2 := hc
    rw [QCache.contains_eq_isSome_peek] at hc2
    obtain ⟨v, hv⟩ := Option.isSome_iff_exists.mp hc2
    have h := MapQuery.fetchByAirportId_hit env.db s.startCache s.sql SqlQuery.startQuery
      airportId (fun _ => [SqlCall.record SqlQuery.startQuery]) env.fillStart (fun ps => ps) v hv
    have e : (MapQuery.getStartPositionsForAirport env s airportId).2.startCache =
        (s.startCache.object airportId).2 := by
      unfold MapQuery.getStartPositionsForAirport
      simp only [h]
    rw [e]
    refine ⟨QCache.object_keys _ _ hk, (QCache.object_mx _ _).trans hmx, ?_⟩
    intro n hn
    exact hu n ((QCache.object_nodes_perm s.startCache airportId).mem_iff.mp hn)
  · rw [if_neg hk]
    obtain ⟨list, hl⟩ := MapQuery.getStartPositionsForAirport_new env s airportId hk
    have hi := QCache.insert_unit_new s.startCache N airportId list hN hmx hu hk
    rw [hl]
    refine ⟨?_, hi.2, ?_⟩
    · unfold QCache.keys
      rw [hi.1]
      simp [List.map_take]
    · rw [hi.1]
      intro n hn
      rcases List.mem_cons.mp hn with h | h
      · rw [h]
      · exact hu n (List.mem_of_mem_take h)

theorem MapQuery.requestStarts_append_singleton {T : MapTypes} (env : Collaborators T)
    (s : MapQuery T) (ids : List Int) (id : Int) :
    MapQuery.requestStarts env s (ids ++ [id]) =
      (MapQuery.getStartPositionsForAirport env (MapQuery.requestStarts env s ids) id).2 := by
  simp [MapQuery.requestStarts, List.foldl_append]

/-- After any sequence of requests on a start cache of maximum cost `N ≥ 1`
that was empty at first, the resident keys are the `N` most recently requested
keys, the most recently requested first. -/
theorem MapQuery.requestStarts_keys_recentFirst {T : MapTypes} (env : Collaborators T)
    (N : Nat) (hN : 1 ≤ N) (s : MapQuery T) (hmx : s.startCache.mx = (N : Int))
    (hempty : s.startCache.nodes = []) (ids : List Int) :
    (MapQuery.requestStarts env s ids).startCache.keys = (recentFirst ids).take N ∧
      (MapQuery.requestStarts env s ids).startCache.mx = (N : Int) ∧
      ∀ n ∈ (MapQuery.requestStarts env s ids).startCache.nodes, n.c = 1 := by
  induction ids using List.reverseRecOn with
  | nil =>
    refine ⟨by simp [MapQuery.requestStarts, recentFirst, QCache.keys, hempty], hmx, ?_⟩
    intro n hn
    simp [MapQuery.requestStarts, hempty] at hn
  | append_singleton ids id ih =>
    obtain ⟨hkeys, hmx2, hu2⟩ := ih
    have h := MapQuery.getStartPositionsForAirport_keys env (MapQuery.requestStarts env s ids) id
      N hN hmx2 hu2
    rw [MapQuery.requestStarts_append_singleton, recentFirst_append_singleton]
    refine ⟨?_, h.2.1, h.2.2⟩
    rw [h.1, hkeys]
    obtain ⟨M, rfl⟩ : ∃ M, N = M + 1 := ⟨N - 1, by omega⟩
    rw [List.take_succ_cons]
    by_cases hk : id ∈ (recentFirst ids).take (M + 1)
    · rw [if_pos hk, List.take_erase_of_mem_take _ _ _ hk]
      simp
    · rw [if_neg hk]
      have hk2 : id ∉ (recentFirst ids).take M := by
        intro hm
        apply hk
        have : (recentFirst ids).take M = ((recentFirst ids).take (M + 1)).take M := by
          rw [List.take_take]; congr 1; omega
        rw [this] at hm
        exact List.mem_of_mem_take hm
      rw [List.take_erase_of_not_mem_take _ _ _ hk2, Nat.add_sub_cancel, List.take_take]
      congr 2
      omega


/-- C14, amended: a start cache of capacity `N ≥ 1`, empty at first, into
which `getStartPositionsForAirport` inserts every list with cost 1.  Take any
sequence of requests `ids` for `N` distinct airport ids, in which an id may be
requested again and again (a repeated request reads the entry and makes it the
most recently used), followed by a request for a new id `k`.  Before the last
request all `N` ids are resident.  After it exactly `N` entries are resident
and `k` is among them.  One id `e` of `ids` has been evicted: it was the last
in the order of use before the last request, every other id of `ids` is still
resident, and `e` is the least recently accessed one, that is, every other id
was requested again after the last request for `e`.  With a capacity of at
least 1 the id requested is always resident after the request: the insert is
not rejected. -/
theorem MapQuery.startCache_evicts_least_recently_used {T : MapTypes} (env : Collaborators T)
    (N : Nat) (hN : 1 ≤ N) (ids : List Int) (hcard : ids.dedup.length = N) (k : Int)
    (hk : k ∉ ids) (s : MapQuery T) (hmx : s.startCache.mx = (N : Int))
    (hempty : s.startCache.nodes = []) :
    ((MapQuery.requestStarts env s ids).startCache.nodes.length = N ∧
      ∀ x ∈ ids, (MapQuery.requestStarts env s ids).startCache.contains x = true) ∧
    ((MapQuery.requestStarts env s (ids ++ [k])).startCache.nodes.length = N ∧
      (MapQuery.requestStarts env s (ids ++ [k])).startCache.contains k = true) ∧
    (∃ e ∈ ids,
      (MapQuery.requestStarts env s ids).startCache.keys.getLast? = some e ∧
      (MapQuery.requestStarts env s (ids ++ [k])).startCache.keys =
        k :: (MapQuery.requestStarts env s ids).startCache.keys.dropLast ∧
      (MapQuery.requestStarts env s (ids ++ [k])).startCache.contains e = false ∧
      (∀ x ∈ ids, x ≠ e →
        (MapQuery.requestStarts env s (ids ++ [k])).startCache.contains x = true) ∧
      (∀ x ∈ ids, x ≠ e → ∃ pre post, ids = pre ++ e :: post ∧ e ∉ post ∧ x ∈ post)) ∧
    (∀ (s2 : MapQuery T) (airportId : Int), 1 ≤ s2.startCache.mx →
      (MapQuery.getStartPositionsForAirport env s2 airportId).2.startCache.contains airportId =
        true) := by
  obtain ⟨hnd, hmem, hpw⟩ := recentFirst_spec ids
  have hlen : (recentFirst ids).length = N := by
    rw [← hcard]
    exact ((List.perm_ext_iff_of_nodup hnd (List.nodup_dedup ids)).mpr
      (fun a => by rw [hmem, List.mem_dedup])).length_eq
  have hne : recentFirst ids ≠ [] := by
    intro h
    rw [h] at hlen
    simp at hlen
    omega
  have hbefore := MapQuery.requestStarts_keys_recentFirst env N hN s hmx hempty ids
  have hkeys1 : (MapQuery.requestStarts env s ids).startCache.keys = recentFirst ids := by
    rw [hbefore.1, List.take_of_length_le (by omega)]
  have hafter := MapQuery.requestStarts_keys_recentFirst env N hN s hmx hempty (ids ++ [k])
  have hkL : k ∉ recentFirst ids := fun h => hk ((hmem k).mp h)
  have hkeys2 : (MapQuery.requestStarts env s (ids ++ [k])).startCache.keys =
      k :: (recentFirst ids).dropLast := by
    rw [hafter.1, recentFirst_append_singleton, List.erase_of_not_mem hkL,
      List.dropLast_eq_take, hlen]
    obtain ⟨M, rfl⟩ : ∃ M, N = M + 1 := ⟨N - 1, by omega⟩
    simp
  have hsplit := List.dropLast_append_getLast hne
  have hnd2 : ((recentFirst ids).dropLast ++ [(recentFirst ids).getLast hne]).Nodup := by
    rw [hsplit]; exact hnd
  have hpw2 : ((recentFirst ids).dropLast ++ [(recentFirst ids).getLast hne]).Pairwise
      fun x y => ∃ pre post, ids = pre ++ y :: post ∧ y ∉ post ∧ x ∈ post := by
    rw [hsplit]; exact hpw
  have he_ids : (recentFirst ids).getLast hne ∈ ids :=
    (hmem _).mp (List.getLast_mem hne)
  have he_not : (recentFirst ids).getLast hne ∉ (recentFirst ids).dropLast := by
    intro h
    exact (List.nodup_append.mp hnd2).2.2 h (List.mem_singleton.mpr rfl)
  have hother : ∀ x ∈ ids, x ≠ (recentFirst ids).getLast hne →
      x ∈ (recentFirst ids).dropLast := by
    intro x hx hxe
    have hxL : x ∈ (recentFirst ids).dropLast ++ [(recentFirst ids).getLast hne] := by
      rw [hsplit]; exact (hmem x).mpr hx
    rcases List.mem_append.mp hxL with h | h
    · exact h
    · exact absurd (List.mem_singleton.mp h) hxe
  have hlen_nodes : ∀ (c : QCache (List T.MapStart)), c.nodes.length = c.keys.length := by
    intro c
    simp [QCache.keys]
  refine ⟨⟨?_, ?_⟩, ⟨?_, ?_⟩, ?_, ?_⟩
  · rw [hlen_nodes, hkeys1, hlen]
  · intro x hx
    rw [QCache.contains_eq_true_iff_mem_keys, hkeys1]
    exact (hmem x).mpr hx
  · rw [hlen_nodes, hkeys2, List.length_cons, List.length_dropLast, hlen]
    omega
  · rw [QCache.contains_eq_true_iff_mem_keys, hkeys2]
    exact List.mem_cons_self _ _
  · refine ⟨(recentFirst ids).getLast hne, he_ids, ?_, ?_, ?_, ?_, ?_⟩
    · rw [hkeys1]
      exact List.getLast?_eq_getLast _ hne
    · rw [hkeys2, hkeys1]
    · have hnot : ¬ ((MapQuery.requestStarts env s (ids ++ [k])).startCache.contains
          ((recentFirst ids).getLast hne) = true) := by
        rw [QCache.contains_eq_true_iff_mem_keys, hkeys2]
        intro h
        rcases List.mem_cons.mp h with h | h
        · exact hk (h ▸ he_ids)
        · exact he_not h
      simpa using hnot
    · intro x hx hxe
      rw [QCache.contains_eq_true_iff_mem_keys, hkeys2]
      exact List.mem_cons_of_mem _ (hother x hx hxe)
    · intro x hx hxe
      exact (List.pairwise_append.mp hpw2).2.2 x (hother x hx hxe) _ (List.mem_singleton.mpr rfl)
  · intro s2 airportId h1
    have h := MapQuery.fetchByAirportId_resident env.db s2.startCache s2.sql SqlQuery.startQuery
      airportId (fun _ => [SqlCall.record SqlQuery.startQuery]) env.fillStart (fun ps => ps) h1
    obtain ⟨v, hv⟩ := MapQuery.fetchByAirportId_some env.db s2.startCache s2.sql
      SqlQuery.startQuery airportId (fun _ => [SqlCall.record SqlQuery.startQuery])
      env.fillStart (fun ps => ps)
    rw [hv] at h
    show QCache.contains _ airportId = true
    rw [QCache.contains_eq_isSome_peek]
    exact Option.isSome_iff_exists.mpr ⟨v, h⟩

/-- C14, instance: capacity 2 and the requests 1, 2, 1, 3.  The second request
for 1 makes 2 the least recently used id, so the request for 3 evicts 2 and
keeps 1, although 1 was inserted first. -/
theorem MapQuery.startCache_evicts_least_recently_used_witness :
    ((MapQuery.requestStarts (Sample.env [1] layer.DataSource.ALL)
        { startCache := { mx := 2 } } ([1, 2, 1] ++ [3])).startCache.nodes.length = 2 ∧
      (MapQuery.requestStarts (Sample.env [1] layer.DataSource.ALL)
        { startCache := { mx := 2 } } ([1, 2, 1] ++ [3])).startCache.contains 3 = true) ∧
    (MapQuery.requestStarts (Sample.env [1] layer.DataSource.ALL)
      { startCache := { mx := 2 } } [1, 2, 1, 3]).startCache.keys = [3, 1] ∧
    (MapQuery.requestStarts (Sample.env [1] layer.DataSource.ALL)
      { startCache := { mx := 2 } } [1, 2, 1, 3]).startCache.contains 2 = false ∧
    (MapQuery.requestStarts (Sample.env [1] layer.DataSource.ALL)
      { startCache := { mx := 2 } } [1, 2, 1]).startCache.keys = [1, 2] :=
  ⟨(MapQuery.startCache_evicts_least_recently_used (Sample.env [1] layer.DataSource.ALL) 2
      (by decide) [1, 2, 1] (by decide) 3 (by decide) { startCache := { mx := 2 } } rfl
      rfl).2.1,
    by decide, by decide, by decide⟩


/-! ### Airspace geometry: a cache without capacity -/

/-- C17, counterexample: an airspace line cache of capacity 0 and a boundary
without a row.  The first call executes the statement once and returns the
empty shape, but the insert with cost 1 is rejected and the id is not resident
afterwards; the second call for the same id executes the statement again. -/
theorem MapQuery.getAirspaceGeometry_capacity_zero_queries_again :
    (MapQuery.getAirspaceGeometry (Sample.env [] layer.DataSource.ALL)
        { airspaceLineCache := { mx := 0 } } 9).1 = some [] ∧
      (MapQuery.getAirspaceGeometry (Sample.env [] layer.DataSource.ALL)
        { airspaceLineCache := { mx := 0 } } 9).2.airspaceLineCache.contains 9 = false ∧
      execCount (MapQuery.getAirspaceGeometry (Sample.env [] layer.DataSource.ALL)
        { airspaceLineCache := { mx := 0 } } 9).2.sql = 1 ∧
      execCount (MapQuery.getAirspaceGeometry (Sample.env [] layer.DataSource.ALL)
        (MapQuery.getAirspaceGeometry (Sample.env [] layer.DataSource.ALL)
          { airspaceLineCache := { mx := 0 } } 9).2 9).2.sql = 2 := by
  decide
